import Mathlib

/-!
RapidLearnAi: the audio-story generation pipeline.

A shallow embedding of `Backend/src/services/audioStoryService.js` (the narrative
generator with its retry loop, the narration synthesizer with its silence fallback,
the artifact publisher and the orchestrator) and of the request handlers of
`Backend/src/controllers/audioStoryController.js`, followed by the properties proved
about them.

Conventions of the embedding.
* A JavaScript `Error` is a `JsError`: its `message`, and the HTTP status it carries
  when it stands for an HTTP response (`error.response.status` for the HTTP client,
  `error.statusCode` for the voice SDK).
* `async` functions return `Except JsError _`: `.error e` is a rejected promise.
* Remote collaborators are oracles passed as arguments, and every function records the
  remote calls and timer waits it performs, in order, in a trace.
* A `Buffer` is the list of its bytes.
-/

namespace AudioStory

/-! ## JavaScript values -/

deriving instance DecidableEq for Except

/-- A thrown JavaScript error: the message and, for an HTTP failure, the status code. -/
structure JsError where
  message : String
  status : Option Nat
  deriving DecidableEq, Repr

/-- The value of `new Error(message)`: an error that carries no HTTP response. -/
def newError (message : String) : JsError := ⟨message, none⟩

/-- The code points that `String.prototype.trim` strips: WhiteSpace and LineTerminator. -/
def isJsWhitespace (c : Char) : Bool :=
  let n := c.toNat
  n == 0x09 || n == 0x0A || n == 0x0B || n == 0x0C || n == 0x0D || n == 0x20 ||
  n == 0xA0 || n == 0x1680 || (0x2000 ≤ n && n ≤ 0x200A) || n == 0x2028 ||
  n == 0x2029 || n == 0x202F || n == 0x205F || n == 0x3000 || n == 0xFEFF

/-- The method `String.prototype.trim`. -/
def jsTrim (s : String) : String :=
  String.mk ((s.data.dropWhile isJsWhitespace).reverse.dropWhile isJsWhitespace).reverse

/-- Whether `sub` is a prefix of the character list `s`. -/
def startsWithChars : List Char → List Char → Bool
  | _, [] => true
  | [], _ :: _ => false
  | c :: s, d :: sub => c == d && startsWithChars s sub

/-- Whether `sub` occurs somewhere in the character list `s`. -/
def includesChars : List Char → List Char → Bool
  | [], sub => startsWithChars [] sub
  | c :: s, sub => startsWithChars (c :: s) sub || includesChars s sub

/-- The method `String.prototype.includes`. -/
def jsIncludes (s sub : String) : Bool := includesChars s.data sub.data

/-- How a template literal renders a value that may be `undefined`. -/
def templateValue : Option String → String
  | some s => s
  | none => "undefined"

/-- Whether a value that is a string or `undefined` is falsy: `undefined` or `''`. -/
def falsy : Option String → Bool
  | none => true
  | some s => s == ""

/-! ## Buffers -/

/-- A Node `Buffer`: the list of its bytes. -/
abbrev Buffer := List Nat

/-- The call `Buffer.alloc(size)`: `size` zero bytes. The platform's limit on the size of
a buffer is not modelled. -/
def bufferAlloc (size : Nat) : Buffer := List.replicate size 0

/-- Overwrite the bytes of `buf` from `offset` on with `bytes`, dropping what would fall
past the end of the buffer. -/
def setBytes (buf : Buffer) (offset : Nat) (bytes : List Nat) : Buffer :=
  buf.take offset ++ bytes.take (buf.length - offset) ++ buf.drop (offset + bytes.length)

/-- The call `buf.write(string, offset)` for an ASCII string: one byte per character. -/
def bufferWrite (buf : Buffer) (string : String) (offset : Nat) : Buffer :=
  setBytes buf offset (string.data.map Char.toNat)

/-- The error Node throws when a value or offset does not fit (`ERR_OUT_OF_RANGE`). -/
def outOfRange : JsError := newError "ERR_OUT_OF_RANGE"

/-- The call `buf.writeUInt32LE(value, offset)`: the four bytes `value`, `value >>> 8`,
`value >>> 16`, `value >>> 24`, each stored modulo 256; a value above `2^32 - 1` or an
offset that leaves no room throws. -/
def writeUInt32LE (buf : Buffer) (value offset : Nat) : Except JsError Buffer :=
  if value < 2 ^ 32 ∧ offset + 4 ≤ buf.length then
    .ok (setBytes buf offset
      [value % 256, value / 256 % 256, value / 256 / 256 % 256, value / 256 / 256 / 256 % 256])
  else .error outOfRange

/-- The call `buf.writeUInt16LE(value, offset)`: the two bytes `value` and `value >>> 8`. -/
def writeUInt16LE (buf : Buffer) (value offset : Nat) : Except JsError Buffer :=
  if value < 2 ^ 16 ∧ offset + 2 ≤ buf.length then
    .ok (setBytes buf offset [value % 256, value / 256 % 256])
  else .error outOfRange

/-- The unsigned little-endian number held in the `width` bytes of `buf` at `offset`. -/
def readUIntLE (buf : Buffer) (offset width : Nat) : Nat :=
  ((buf.drop offset).take width).foldr (fun byte acc => byte + 256 * acc) 0

/-- The function `generateSilenceWAV(durationMs)`. `samples` is the exact quotient
`44100 * durationMs / 1000` of the source whenever `durationMs` is a multiple of 10. -/
def generateSilenceWAV (durationMs : Nat) : Except JsError Buffer := do
  let sampleRate := 44100
  let channels := 1
  let bytesPerSample := 2
  let samples := (sampleRate * durationMs) / 1000
  let buffer := bufferAlloc (44 + samples * bytesPerSample)
  let buffer := bufferWrite buffer "RIFF" 0
  let buffer ← writeUInt32LE buffer (36 + samples * bytesPerSample) 4
  let buffer := bufferWrite buffer "WAVE" 8
  let buffer := bufferWrite buffer "fmt " 12
  let buffer ← writeUInt32LE buffer 16 16
  let buffer ← writeUInt16LE buffer 1 20
  let buffer ← writeUInt16LE buffer channels 22
  let buffer ← writeUInt32LE buffer sampleRate 24
  let buffer ← writeUInt32LE buffer (sampleRate * bytesPerSample * channels) 28
  let buffer ← writeUInt16LE buffer (bytesPerSample * channels) 32
  let buffer ← writeUInt16LE buffer 16 34
  let buffer := bufferWrite buffer "data" 36
  let buffer ← writeUInt32LE buffer (samples * bytesPerSample) 40
  return buffer

/-- The little-endian encoding of `value` on `width` bytes. -/
def littleEndian : Nat → Nat → List Nat
  | 0, _ => []
  | width + 1, value => value % 256 :: littleEndian width (value / 256)

/-- The canonical 44-byte RIFF/WAVE header of 16-bit mono PCM at 44100 Hz: `RIFF`, the RIFF
size, `WAVE`, `fmt ` with chunk size 16, format 1 (PCM), 1 channel, sample rate 44100, byte
rate 88200, block align 2, 16 bits per sample, `data` and the data length. -/
def wavHeader (riffSize dataLength : Nat) : Buffer :=
  [0x52, 0x49, 0x46, 0x46] ++ littleEndian 4 riffSize ++
  [0x57, 0x41, 0x56, 0x45] ++
  [0x66, 0x6D, 0x74, 0x20] ++ littleEndian 4 16 ++
  littleEndian 2 1 ++ littleEndian 2 1 ++ littleEndian 4 44100 ++ littleEndian 4 88200 ++
  littleEndian 2 2 ++ littleEndian 2 16 ++
  [0x64, 0x61, 0x74, 0x61] ++ littleEndian 4 dataLength

/-- The reference encoding of `durationMs` milliseconds of 16-bit mono PCM silence at
44100 Hz: the header, with RIFF size = total length - 8, followed by the zero samples. -/
def referenceWav (durationMs : Nat) : Buffer :=
  let dataLength := 44100 * durationMs / 1000 * 2
  wavHeader (44 + dataLength - 8) dataLength ++ List.replicate dataLength 0

/-! ## Requests, the story record and the effects of a run -/

/-- What is sent to the completion service; the system prompt, model and sampling
parameters are constants of the source and are left out. -/
structure CompletionRequest where
  userPrompt : String
  deriving DecidableEq, Repr

/-- The arguments of `client.textToSpeech.convert`. -/
structure VoiceRequest where
  voiceId : String
  text : String
  modelId : String
  outputFormat : String
  deriving DecidableEq, Repr

/-- What `upload_stream` receives: the bytes piped in, the folder and the resource type. -/
structure UploadRequest where
  bytes : Buffer
  folder : String
  resourceType : String
  deriving DecidableEq, Repr

/-- A document of the `audioStories` collection. -/
structure StoryDoc where
  storyId : String
  userId : String
  topic : String
  doubt : String
  complexity : String
  status : String
  aiStory : Option String
  audioUrl : Option String
  duration : Option Int
  error : Option String
  createdAt : Nat
  updatedAt : Nat
  deriving DecidableEq, Repr

/-- The fields an `update` call names; a field left `none` is not written. -/
structure Patch where
  status : Option String := none
  aiStory : Option String := none
  audioUrl : Option String := none
  duration : Option Int := none
  error : Option String := none
  updatedAt : Option Nat := none
  deriving DecidableEq, Repr

/-- What a function does to the outside world, in order. -/
inductive Effect where
  | llmCall (request : CompletionRequest)
  | sleep (ms : Nat)
  | voiceCall (request : VoiceRequest)
  | upload (request : UploadRequest)
  | storeUpdate (id : String) (patch : Patch)
  | storeSet (id : String) (doc : StoryDoc)
  deriving DecidableEq, Repr

/-! ## Stage 1: the narrative generator -/

/-- How one `axios.post` to the completion service ends: a response whose
`data.choices[0]?.message?.content` is `content` (`none` when a link of the optional
chain is absent), or a rejection. A body without a `choices` array makes the property
access throw inside the same `try`, which this function sees as a rejection. -/
inductive CompletionOutcome where
  | response (content : Option String)
  | rejected (error : JsError)
  deriving DecidableEq, Repr

/-- The completion service: the outcome of the `k`-th call (counted from 0). -/
abbrev CompletionService := CompletionRequest → Nat → CompletionOutcome

/-- The result of a run of `generateStoryWithLLM`: a story, `undefined` (`.ok none`) or a
thrown error, with the calls and waits performed. -/
structure LLMRun where
  result : Except JsError (Option String)
  trace : List Effect
  deriving DecidableEq

/-- The constant `maxRetries` of `generateStoryWithLLM`. -/
def maxRetries : Nat := 3

/-- The user prompt built from the three inputs. -/
def userPrompt (topic doubt : String) (complexity : Option String) : String :=
  "Topic: " ++ topic ++ "\nStudent's Doubt: " ++ doubt ++ "\nDifficulty Level: " ++
  templateValue complexity ++
  "\n\nCreate an engaging 1.5-2 minute podcast story that helps them understand this concept. Use storytelling, not lectures."

/-- The body of the `try` block once the call has ended: the trimmed story, or the error
the `catch` receives (a blank or absent text throws `Empty response from LLM`). -/
def tryAttempt : CompletionOutcome → Except JsError String
  | .rejected error => .error error
  | .response content =>
    match content.map jsTrim with
    | some story => if story = "" then .error (newError "Empty response from LLM") else .ok story
    | none => .error (newError "Empty response from LLM")

/-- The `while (retries < maxRetries)` loop of `generateStoryWithLLM`; `calls` counts the
requests already made. -/
def generateStoryWithLLM.loop (post : Nat → CompletionOutcome) (request : CompletionRequest)
    (retries calls : Nat) (trace : List Effect) : LLMRun :=
  if retries < maxRetries then
    match tryAttempt (post calls) with
    | .ok story => ⟨.ok (some story), trace ++ [.llmCall request]⟩
    | .error error =>
      let retries := retries + 1
      if error.status = some 429 then
        let waitMs := 2 ^ retries * 2000
        generateStoryWithLLM.loop post request retries (calls + 1)
          (trace ++ [.llmCall request, .sleep waitMs])
      else if retries ≥ maxRetries then
        ⟨.error (newError ("LLM failed after " ++ toString maxRetries ++ " retries: " ++ error.message)),
          trace ++ [.llmCall request]⟩
      else
        generateStoryWithLLM.loop post request retries (calls + 1)
          (trace ++ [.llmCall request, .sleep 1000])
  else
    ⟨.ok none, trace⟩
termination_by maxRetries - retries
decreasing_by all_goals (simp_wf; omega)

/-- The function `generateStoryWithLLM(topic, doubt, complexity)`. -/
def generateStoryWithLLM (service : CompletionService) (topic doubt : String)
    (complexity : Option String) : LLMRun :=
  let request : CompletionRequest := ⟨userPrompt topic doubt complexity⟩
  generateStoryWithLLM.loop (service request) request 0 0 []

/-- The number of completion-service calls in a trace. -/
def llmCalls (trace : List Effect) : Nat :=
  (trace.filter fun e => match e with | .llmCall _ => true | _ => false).length

/-- The timer waits of a trace, in order. -/
def waits (trace : List Effect) : List Nat :=
  trace.filterMap fun e => match e with | .sleep ms => some ms | _ => none

/-- A response text is blank when it is absent, empty or whitespace only. -/
def isBlank : Option String → Bool
  | none => true
  | some text => jsTrim text == ""

/-- An attempt fails when the call is rejected or the response has no non-blank text. -/
def failedAttempt : CompletionOutcome → Bool
  | .rejected _ => true
  | .response content => isBlank content

/-- An attempt is rate limited when the call is rejected with HTTP status 429. -/
def rateLimited : CompletionOutcome → Bool
  | .rejected error => error.status == some 429
  | .response _ => false

/-- The wait prescribed after failed attempt `k` (counted from 1). -/
def backoffWait (k : Nat) (o : CompletionOutcome) : Nat :=
  if rateLimited o then 2 ^ k * 2000 else 1000

/-- The calls and waits of `k` failed attempts, each followed by its wait. -/
def retriedAttempts (post : Nat → CompletionOutcome) (request : CompletionRequest) (k : Nat) :
    List Effect :=
  (List.range k).flatMap fun j => [.llmCall request, .sleep (backoffWait (j + 1) (post j))]

/-! ## Stage 2: the narration synthesizer -/

/-- How `client.textToSpeech.convert` ends: a byte stream that delivers `chunks` and then
either reports `done` (`readError = none`) or has a `read()` rejected, or a rejection of
the call itself. -/
inductive VoiceOutcome where
  | stream (chunks : List Buffer) (readError : Option JsError)
  | rejected (error : JsError)
  deriving DecidableEq, Repr

/-- The voice-synthesis service. -/
abbrev VoiceService := VoiceRequest → VoiceOutcome

/-- The result of a run of `generateAudioNarration` with the remote calls it made. -/
structure NarrationRun where
  result : Except JsError Buffer
  trace : List Effect
  deriving DecidableEq

/-- The read loop `while (!result.done)`: every chunk read is pushed onto `chunks`. -/
def readStream : List Buffer → Option JsError → List Buffer → Except JsError (List Buffer)
  | [], none, chunks => .ok chunks
  | [], some error, _ => .error error
  | value :: rest, readError, chunks => readStream rest readError (chunks ++ [value])

/-- The call `Buffer.concat(chunks)`. -/
def bufferConcat (chunks : List Buffer) : Buffer := chunks.flatten

/-- The request `generateAudioNarration` sends for a story: the fixed voice, model and
output format. -/
def voiceRequest (story : String) : VoiceRequest :=
  let voiceId := "EXAVITQu4vr4xnSDxMaL"
  ⟨voiceId, story, "eleven_multilingual_v2", "mp3_44100_128"⟩

/-- The `try` block of `generateAudioNarration`. -/
def generateAudioNarration.tryBlock (apiKey : Option String) (voice : VoiceService)
    (story : String) : NarrationRun :=
  if falsy apiKey then
    ⟨generateSilenceWAV 2000, []⟩
  else
    let request := voiceRequest story
    match voice request with
    | .rejected error => ⟨.error error, [.voiceCall request]⟩
    | .stream values readError =>
      match readStream values readError [] with
      | .error error => ⟨.error error, [.voiceCall request]⟩
      | .ok chunks =>
        let audioBuffer := bufferConcat chunks
        if audioBuffer.length = 0 then
          ⟨.error (newError "Generated audio is empty"), [.voiceCall request]⟩
        else
          ⟨.ok audioBuffer, [.voiceCall request]⟩

/-- The function `generateAudioNarration(story)`; `apiKey` is `ELEVENLABS_API_KEY`. -/
def generateAudioNarration (apiKey : Option String) (voice : VoiceService)
    (story : String) : NarrationRun :=
  let attempt := generateAudioNarration.tryBlock apiKey voice story
  match attempt.result with
  | .ok audioBuffer => ⟨.ok audioBuffer, attempt.trace⟩
  | .error error =>
    if jsIncludes error.message "401" || jsIncludes error.message "403" then
      ⟨generateSilenceWAV 2000, attempt.trace⟩
    else
      ⟨.error (newError ("TTS failed: " ++ error.message)), attempt.trace⟩

/-- The number of voice-service calls in a trace. -/
def voiceCalls (trace : List Effect) : Nat :=
  (trace.filter fun e => match e with | .voiceCall _ => true | _ => false).length

/-- An error is an authentication/authorization failure when its HTTP status is 401 or 403. -/
def isAuthError (error : JsError) : Bool :=
  error.status == some 401 || error.status == some 403

/-- The message of an HTTP failure names its status code, as the messages the voice SDK
builds do (`Status code: 401`). -/
def namesStatus (error : JsError) : Bool :=
  match error.status with
  | some code => jsIncludes error.message (toString code)
  | none => true

/-! ## Stage 3: the artifact publisher -/

/-- The object storage: the `secure_url` of the upload, or the error handed to the callback. -/
abbrev ObjectStorage := UploadRequest → Except JsError String

/-- The options object of the upload helpers. -/
structure UploadOptions where
  folder : Option String := none
  public_id : Option String := none
  resourceType : Option String := none

/-- The run of an upload with the remote calls it made. -/
structure UploadRun where
  result : Except JsError String
  trace : List Effect
  deriving DecidableEq

/-- The expression `value || fallback` on strings. -/
def orDefault (value : Option String) (fallback : String) : String :=
  match value with
  | some s => if s = "" then fallback else s
  | none => fallback

/-- The function `uploadToCloudinary(buffer, folder, resourceType)`. -/
def uploadToCloudinary (storage : ObjectStorage) (buffer : Buffer) (folder resourceType : String) :
    UploadRun :=
  let request : UploadRequest := ⟨buffer, folder, resourceType⟩
  ⟨storage request, [.upload request]⟩

/-- The function `uploadAudio(buffer, options)`. -/
def uploadAudio (storage : ObjectStorage) (buffer : Buffer) (options : UploadOptions) : UploadRun :=
  uploadToCloudinary storage buffer (orDefault options.folder "rapidlearnai/audio")
    (orDefault options.resourceType "video")

/-- The function `uploadAudioToCloud(audioBuffer, storyId)`. -/
def uploadAudioToCloud (storage : ObjectStorage) (audioBuffer : Buffer) (storyId : String) :
    UploadRun :=
  let folder := "rapidlearnai/audio-stories/" ++ storyId
  let attempt := uploadAudio storage audioBuffer
    { folder := some folder, public_id := some ("story-" ++ storyId) }
  match attempt.result with
  | .ok audioUrl => ⟨.ok audioUrl, attempt.trace⟩
  | .error error =>
    ⟨.error (newError ("Upload to cloud failed: " ++ error.message)), attempt.trace⟩

/-! ## The status store -/

/-- The `audioStories` collection: the documents by id. -/
abbrev Store := List (String × StoryDoc)

/-- The document stored under `id`, if any. -/
def Store.get (store : Store) (id : String) : Option StoryDoc :=
  (store.find? fun entry => entry.1 == id).map Prod.snd

/-- A document after the fields a patch names have been written. -/
def applyPatch (doc : StoryDoc) (patch : Patch) : StoryDoc :=
  { doc with
    status := patch.status.getD doc.status
    aiStory := patch.aiStory.orElse fun _ => doc.aiStory
    audioUrl := patch.audioUrl.orElse fun _ => doc.audioUrl
    duration := patch.duration.orElse fun _ => doc.duration
    error := patch.error.orElse fun _ => doc.error
    updatedAt := patch.updatedAt.getD doc.updatedAt }

/-- The error of an `update` on a document that does not exist. -/
def notFound : JsError := newError "NOT_FOUND: No document to update"

/-- The call `doc(id).update(patch)`: rejected with `failure` when the store is unavailable
and with `notFound` when there is no such document; otherwise the named fields are written. -/
def Store.update (store : Store) (failure : Option JsError) (id : String) (patch : Patch) :
    Except JsError Store :=
  match failure with
  | some error => .error error
  | none =>
    match store.get id with
    | none => .error notFound
    | some _ =>
      .ok (store.map fun entry => if entry.1 == id then (entry.1, applyPatch entry.2 patch) else entry)

/-! ## The orchestrator -/

/-- The function `Math.round` on an exact quotient: the nearest integer, a tie going up. -/
def mathRound (x : ℚ) : ℤ := ⌊x + 1 / 2⌋

/-- The expression `Math.round((audioBuffer.length / 24000) * 8)`. The quotient is taken
exactly; in double precision it has the same rounding for every length below `2^53`. -/
def estimatedDuration (length : Nat) : ℤ := mathRound ((length : ℚ) / 24000 * 8)

/-- The remote collaborators of a pipeline run. -/
structure Env where
  completion : CompletionService
  apiKey : Option String
  voice : VoiceService
  storage : ObjectStorage
  storeFailure : Nat → Option JsError
  clock : Nat → Nat

/-- The object `generateStory` resolves to. -/
structure StoryResult where
  storyId : String
  audioUrl : String
  duration : Int
  deriving DecidableEq, Repr

/-- The outcome of a pipeline run: what it resolves or rejects with, the store it leaves
and everything it did. -/
structure PipelineRun where
  result : Except JsError StoryResult
  store : Store
  trace : List Effect
  deriving DecidableEq

/-- The function `generateStory(storyId, userId, topic, doubt, complexity)`. The `k`-th
`update` of the run is rejected when `env.storeFailure k` is an error and is stamped with
the time `env.clock k`; the `catch` rethrows the error unchanged. -/
def generateStory (env : Env) (store : Store) (storyId _userId topic doubt : String)
    (complexity : Option String) : PipelineRun :=
  let llm := generateStoryWithLLM env.completion topic doubt complexity
  match llm.result with
  | .error error => ⟨.error error, store, llm.trace⟩
  | .ok none => ⟨.error (newError "Empty story generated"), store, llm.trace⟩
  | .ok (some aiStory) =>
    if aiStory = "" ∨ (jsTrim aiStory).length = 0 then
      ⟨.error (newError "Empty story generated"), store, llm.trace⟩
    else
      let patch1 : Patch := { aiStory := some aiStory, updatedAt := some (env.clock 0) }
      let trace1 := llm.trace ++ [.storeUpdate storyId patch1]
      match store.update (env.storeFailure 0) storyId patch1 with
      | .error error => ⟨.error error, store, trace1⟩
      | .ok store1 =>
        let tts := generateAudioNarration env.apiKey env.voice aiStory
        let trace2 := trace1 ++ tts.trace
        match tts.result with
        | .error error => ⟨.error error, store1, trace2⟩
        | .ok audioBuffer =>
          let up := uploadAudioToCloud env.storage audioBuffer storyId
          let trace3 := trace2 ++ up.trace
          match up.result with
          | .error error => ⟨.error error, store1, trace3⟩
          | .ok audioUrl =>
            let estimated := estimatedDuration audioBuffer.length
            let patch2 : Patch :=
              { status := some "completed", audioUrl := some audioUrl,
                duration := some estimated, updatedAt := some (env.clock 1) }
            let trace4 := trace3 ++ [.storeUpdate storyId patch2]
            match store1.update (env.storeFailure 1) storyId patch2 with
            | .error error => ⟨.error error, store1, trace4⟩
            | .ok store2 => ⟨.ok ⟨storyId, audioUrl, estimated⟩, store2, trace4⟩

/-! ## The request entry point -/

/-- The JavaScript `length` of a string: its number of UTF-16 code units. -/
def jsLength (s : String) : Nat :=
  (s.data.map fun c => if c.toNat < 0x10000 then 1 else 2).sum

/-- The JSON body of a response. -/
inductive Body where
  | error (error : String)
  | accepted (storyId message estimatedTime : String)
  | story (story : StoryDoc)
  | deleted (message storyId : String)
  deriving DecidableEq, Repr

/-- What a handler sends back: `res.status(status).json(body)`. -/
structure Response where
  status : Nat
  body : Body
  deriving DecidableEq, Repr

/-- The call `doc(id).set(doc)`: rejected with `failure` when the store is unavailable;
otherwise the document is created, replacing any document with the same id. -/
def Store.set (store : Store) (failure : Option JsError) (id : String) (doc : StoryDoc) :
    Except JsError Store :=
  match failure with
  | some error => .error error
  | none => .ok ((id, doc) :: store.filter fun entry => !(entry.1 == id))

/-- The call `doc(id).get()`: rejected with `failure` when the store is unavailable;
otherwise the document, `none` when the snapshot does not exist. -/
def Store.read (store : Store) (failure : Option JsError) (id : String) :
    Except JsError (Option StoryDoc) :=
  match failure with
  | some error => .error error
  | none => .ok (store.get id)

/-- The call `doc(id).delete()`: rejected with `failure` when the store is unavailable. -/
def Store.delete (store : Store) (failure : Option JsError) (id : String) :
    Except JsError Store :=
  match failure with
  | some error => .error error
  | none => .ok (store.filter fun entry => !(entry.1 == id))

/-- The number of `update` calls in a trace. -/
def storeUpdates (trace : List Effect) : Nat :=
  (trace.filter fun e => match e with | .storeUpdate _ _ => true | _ => false).length

/-- The number of uploads in a trace. -/
def uploads (trace : List Effect) : Nat :=
  (trace.filter fun e => match e with | .upload _ => true | _ => false).length

/-- The patches of the `update` calls of a trace, in order. -/
def updatesOf (trace : List Effect) : List Patch :=
  trace.filterMap fun e => match e with | .storeUpdate _ patch => some patch | _ => none

/-- The body of `createAudioStory` as a story request: the fields are strings or absent,
and `uid` is the authenticated caller. -/
structure CreateRequest where
  topic : Option String
  doubt : Option String
  complexity : Option String
  uid : String
  deriving DecidableEq, Repr

/-- The detached promise chain `generateStory(...).catch(...)`: the rejection that escapes
it, if any, the store it leaves, what it did and what it wrote with `console.error`. -/
structure DetachedRun where
  escaped : Option JsError
  store : Store
  trace : List Effect
  errorLog : List String
  deriving DecidableEq

/-- The chain `audioStoryService.generateStory(...).catch(err => ...)` of `createAudioStory`.
When the pipeline rejects, the handler logs the error and issues one `update` with status
`failed`; the `catch` on that update only logs. Both promises have a handler and neither
handler throws, so nothing escapes. The failure write is the `k`-th `update` of the run,
`k` being the number of updates the pipeline issued. -/
def createAudioStory.detached (env : Env) (store : Store) (storyId userId topic doubt : String)
    (complexity : Option String) : DetachedRun :=
  let run := generateStory env store storyId userId topic doubt complexity
  match run.result with
  | .ok _ => ⟨none, run.store, run.trace, []⟩
  | .error err =>
    let k := storeUpdates run.trace
    let patch : Patch :=
      { status := some "failed", error := some (orDefault (some err.message) "Unknown error"),
        updatedAt := some (env.clock k) }
    let trace := run.trace ++ [.storeUpdate storyId patch]
    let failed := "[AudioStory] " ++ storyId ++ " generation failed: " ++ err.message
    match run.store.update (env.storeFailure k) storyId patch with
    | .ok stored => ⟨none, stored, trace, [failed]⟩
    | .error updateErr =>
      ⟨none, run.store, trace,
        [failed, "[AudioStory] Failed to update error status: " ++ updateErr.message]⟩

/-- The outcome of `createAudioStory`: the response, whether the pipeline was started, and
the store, trace and error log once the detached run has settled. -/
structure CreateRun where
  response : Response
  started : Bool
  escaped : Option JsError
  store : Store
  trace : List Effect
  errorLog : List String
  deriving DecidableEq

/-- The record `createAudioStory` writes for a request that passed validation. -/
def storyDoc (storyId : String) (now : Nat) (req : CreateRequest) : StoryDoc :=
  { storyId := storyId, userId := req.uid, topic := jsTrim (req.topic.getD ""),
    doubt := jsTrim (req.doubt.getD ""), complexity := orDefault req.complexity "intermediate",
    status := "processing", aiStory := none, audioUrl := none, duration := none, error := none,
    createdAt := now, updatedAt := now }

/-- The handler `createAudioStory(req, res)`. `storyId` is the value of `uuidv4()`, `now` the
value of `new Date()` and `setFailure` the error, if any, with which the store rejects the
`set`. The response does not wait for the detached run; `store`, `trace` and `errorLog` are
taken once that run has settled. -/
def createAudioStory (env : Env) (setFailure : Option JsError) (storyId : String) (now : Nat)
    (store : Store) (req : CreateRequest) : CreateRun :=
  let topic := req.topic
  let doubt := req.doubt
  let complexity := req.complexity
  let userId := req.uid
  if falsy topic || falsy doubt then
    ⟨⟨400, .error "Topic and doubt are required"⟩, false, none, store, [], []⟩
  else
    let topic := topic.getD ""
    let doubt := doubt.getD ""
    if jsLength (jsTrim topic) = 0 ∨ jsLength (jsTrim doubt) = 0 then
      ⟨⟨400, .error "Fields cannot be empty"⟩, false, none, store, [], []⟩
    else if jsLength doubt > 300 then
      ⟨⟨400, .error "Doubt must be under 300 characters"⟩, false, none, store, [], []⟩
    else
      let storyDoc := storyDoc storyId now req
      match store.set setFailure storyId storyDoc with
      | .error error =>
        ⟨⟨500, .error "Failed to create audio story"⟩, false, none, store,
          [.storeSet storyId storyDoc],
          ["[AudioStory] Error creating story: " ++ error.message]⟩
      | .ok created =>
        let run := createAudioStory.detached env created storyId userId (jsTrim topic)
          (jsTrim doubt) complexity
        ⟨⟨202, .accepted storyId "Story generation started" "1-2 minutes"⟩, true, run.escaped,
          run.store, .storeSet storyId storyDoc :: run.trace, run.errorLog⟩

/-- The handler `getStoryStatus(req, res)`; `getFailure` is the error, if any, with which
the store rejects the read. The timestamps of the body are left as stored. -/
def getStoryStatus (getFailure : Option JsError) (store : Store) (storyId userId : String) :
    Response :=
  if storyId = "" ∨ jsLength (jsTrim storyId) = 0 then
    ⟨400, .error "Invalid story ID"⟩
  else
    match store.read getFailure storyId with
    | .error _ => ⟨500, .error "Failed to fetch story"⟩
    | .ok none => ⟨404, .error "Story not found"⟩
    | .ok (some story) =>
      if story.userId ≠ userId then ⟨403, .error "Unauthorized"⟩
      else ⟨200, .story story⟩

/-- The outcome of `deleteStory`: the response and the store it leaves. -/
structure DeleteRun where
  response : Response
  store : Store
  deriving DecidableEq

/-- The handler `deleteStory(req, res)`; `getFailure` and `deleteFailure` are the errors, if
any, with which the store rejects the read and the delete. -/
def deleteStory (getFailure deleteFailure : Option JsError) (store : Store)
    (storyId userId : String) : DeleteRun :=
  if storyId = "" ∨ jsLength (jsTrim storyId) = 0 then
    ⟨⟨400, .error "Invalid story ID"⟩, store⟩
  else
    match store.read getFailure storyId with
    | .error _ => ⟨⟨500, .error "Failed to delete story"⟩, store⟩
    | .ok none => ⟨⟨404, .error "Story not found"⟩, store⟩
    | .ok (some story) =>
      if story.userId ≠ userId then ⟨⟨403, .error "Unauthorized"⟩, store⟩
      else
        match store.delete deleteFailure storyId with
        | .error _ => ⟨⟨500, .error "Failed to delete story"⟩, store⟩
        | .ok remaining => ⟨⟨200, .deleted "Story deleted successfully" storyId⟩, remaining⟩

/-- The stores a run passes through: the store after each `set` and `update` of the trace
that the store accepts, in order. `k` counts the `update` calls already replayed. -/
def replay (setFailure : Option JsError) (failure : Nat → Option JsError) :
    Store → Nat → List Effect → List Store
  | _, _, [] => []
  | store, k, .storeSet id doc :: rest =>
    match store.set setFailure id doc with
    | .ok next => next :: replay setFailure failure next k rest
    | .error _ => replay setFailure failure store k rest
  | store, k, .storeUpdate id patch :: rest =>
    match store.update (failure k) id patch with
    | .ok next => next :: replay setFailure failure next (k + 1) rest
    | .error _ => replay setFailure failure store (k + 1) rest
  | store, k, _ :: rest => replay setFailure failure store k rest

/-- The states the record `storyId` passes through in a run of `createAudioStory`, from its
creation on. -/
def recordStates (env : Env) (setFailure : Option JsError) (storyId : String) (now : Nat)
    (store : Store) (req : CreateRequest) : List (Option StoryDoc) :=
  (replay setFailure env.storeFailure store 0
    (createAudioStory env setFailure storyId now store req).trace).map fun s => s.get storyId

/-- A request passes the validation of `createAudioStory`: topic and doubt are present and
not blank, and the doubt has at most 300 UTF-16 code units. -/
def validRequest (req : CreateRequest) : Bool :=
  !isBlank req.topic && !isBlank req.doubt && decide (jsLength (req.doubt.getD "") ≤ 300)

/-- A status is terminal when it is `completed` or `failed`. -/
def isTerminal (status : String) : Bool := status == "completed" || status == "failed"

/-! ## Scenarios -/

/-- A rejection with HTTP status 429, as the HTTP client reports it. -/
def tooManyRequests : JsError := ⟨"Request failed with status code 429", some 429⟩

/-- A completion service that is rate limited twice and then answers. -/
def rateLimitedTwice : CompletionService := fun _ k =>
  if k < 2 then .rejected tooManyRequests else .response (some "  Once upon a time.\n")

/-- A completion service whose first answer is blank and whose second is a story. -/
def blankThenStory : CompletionService := fun _ k =>
  if k = 0 then .response (some "   ") else .response (some "A story")

/-- A completion service that is always rate limited. -/
def alwaysRateLimited : CompletionService := fun _ _ => .rejected tooManyRequests

/-- A completion service that always answers with whitespace. -/
def alwaysBlank : CompletionService := fun _ _ => .response (some " \n\t ")

/-- A completion service that fails once with a server error and then answers blank. -/
def errorThenBlank : CompletionService := fun _ k =>
  if k = 0 then .rejected ⟨"Request failed with status code 500", some 500⟩
  else .response (some "")

/-- A voice-service rejection for a bad credential, with the message the SDK builds. -/
def unauthorized : JsError := ⟨"Status code: 401\nBody: invalid_api_key", some 401⟩

/-- A voice-service rejection for a server fault whose body happens to contain `403`. -/
def serverFault : JsError := ⟨"Status code: 500\nBody: internal error 4031", some 500⟩

/-- A voice service that delivers one chunk of three bytes. -/
def oneChunkVoice : VoiceService := fun _ => .stream [[0x49, 0x44, 0x33]] none

/-- A voice service whose stream ends at once. -/
def emptyStreamVoice : VoiceService := fun _ => .stream [] none

/-- A voice service that delivers two chunks with an empty one between them. -/
def threeChunkVoice : VoiceService := fun _ => .stream [[0x49, 0x44], [], [0x33]] none

/-- The record the request of the end-to-end scenario creates. -/
def processingDoc : StoryDoc :=
  { storyId := "story-1", userId := "user-1", topic := "Gravity", doubt := "Why do things fall?",
    complexity := "easy", status := "processing", aiStory := none, audioUrl := none,
    duration := none, error := none, createdAt := 1000, updatedAt := 1000 }

/-- The 48000 bytes of audio of the end-to-end scenario. -/
def mockAudio : Buffer := bufferAlloc 48000

/-- The mocked services of the end-to-end scenario: the story `A short story...`, 48000
bytes of audio and the URL `https://cdn.example/story.mp3`; the store never fails. -/
def mockEnv : Env :=
  { completion := fun _ _ => .response (some "A short story...")
    apiKey := some "sk-test"
    voice := fun _ => .stream [mockAudio] none
    storage := fun _ => .ok "https://cdn.example/story.mp3"
    storeFailure := fun _ => none
    clock := fun k => 2000 + k }

/-- A store holding the single record of the end-to-end scenario. -/
def oneStory : Store := [("story-1", processingDoc)]

/-- A store holding the record of the end-to-end scenario once it has completed. -/
def completedStory : Store :=
  [("story-1", { processingDoc with
    status := "completed", aiStory := some "A short story...",
    audioUrl := some "https://cdn.example/story.mp3", duration := some 16, updatedAt := 2001 })]

/-- An effect of the narrative generator: a completion call or a timer wait. -/
def isGeneratorEffect : Effect → Bool
  | .llmCall _ => true
  | .sleep _ => true
  | _ => false

/-- An effect that writes to the store. -/
def isStoreEffect : Effect → Bool
  | .storeUpdate _ _ => true
  | .storeSet _ _ => true
  | _ => false

/-- The fields written after stage 1: the story and the time. -/
def storyPatch (aiStory : String) (time : Nat) : Patch :=
  { aiStory := some aiStory, updatedAt := some time }

/-- The fields written by stage 4: the status `completed`, the URL, the duration, the time. -/
def completedPatch (audioUrl : String) (duration : Int) (time : Nat) : Patch :=
  { status := some "completed", audioUrl := some audioUrl, duration := some duration,
    updatedAt := some time }

/-- The fields written by the failure handler: the status `failed`, the error's message or
`Unknown error` when it is empty, and the time. -/
def failedPatch (message : String) (time : Nat) : Patch :=
  { status := some "failed", error := some (orDefault (some message) "Unknown error"),
    updatedAt := some time }

/-- The ways a run of `generateStory` can go, as seen from the store: it aborts before any
write; its first write is rejected; a later stage fails after the story was saved; the
final write is rejected; or it completes. -/
inductive PipelineCase (env : Env) (store : Store) (storyId : String) (run : PipelineRun) :
    Prop where
  | aborted (error : JsError)
      (hresult : run.result = .error error) (hstore : run.store = store)
      (hwrites : run.trace.filter isStoreEffect = [])
  | unsaved (aiStory : String) (error : JsError)
      (hstory : isBlank (some aiStory) = false)
      (hrejected : store.update (env.storeFailure 0) storyId
        (storyPatch aiStory (env.clock 0)) = .error error)
      (hresult : run.result = .error error) (hstore : run.store = store)
      (hwrites : run.trace.filter isStoreEffect =
        [.storeUpdate storyId (storyPatch aiStory (env.clock 0))])
  | stageFailed (aiStory : String) (saved : Store) (error : JsError)
      (hstory : isBlank (some aiStory) = false)
      (hsaved : store.update (env.storeFailure 0) storyId
        (storyPatch aiStory (env.clock 0)) = .ok saved)
      (hresult : run.result = .error error) (hstore : run.store = saved)
      (hwrites : run.trace.filter isStoreEffect =
        [.storeUpdate storyId (storyPatch aiStory (env.clock 0))])
  | unfinished (aiStory : String) (saved : Store) (request : UploadRequest)
      (audioUrl : String) (length : Nat) (error : JsError)
      (hstory : isBlank (some aiStory) = false)
      (hsaved : store.update (env.storeFailure 0) storyId
        (storyPatch aiStory (env.clock 0)) = .ok saved)
      (hurl : env.storage request = .ok audioUrl)
      (hrejected : saved.update (env.storeFailure 1) storyId
        (completedPatch audioUrl (estimatedDuration length) (env.clock 1)) = .error error)
      (hresult : run.result = .error error) (hstore : run.store = saved)
      (hwrites : run.trace.filter isStoreEffect =
        [.storeUpdate storyId (storyPatch aiStory (env.clock 0)),
          .storeUpdate storyId (completedPatch audioUrl (estimatedDuration length)
            (env.clock 1))])
  | completed (aiStory : String) (saved final : Store) (request : UploadRequest)
      (audioUrl : String) (length : Nat)
      (hstory : isBlank (some aiStory) = false)
      (hsaved : store.update (env.storeFailure 0) storyId
        (storyPatch aiStory (env.clock 0)) = .ok saved)
      (hurl : env.storage request = .ok audioUrl)
      (hfinal : saved.update (env.storeFailure 1) storyId
        (completedPatch audioUrl (estimatedDuration length) (env.clock 1)) = .ok final)
      (hresult : run.result = .ok ⟨storyId, audioUrl, estimatedDuration length⟩)
      (hstore : run.store = final)
      (hwrites : run.trace.filter isStoreEffect =
        [.storeUpdate storyId (storyPatch aiStory (env.clock 0)),
          .storeUpdate storyId (completedPatch audioUrl (estimatedDuration length)
            (env.clock 1))])

/-- A message is the message of an error with which some pipeline run under `env` rejects. -/
def PipelineError (env : Env) (message : String) : Prop :=
  ∃ (store : Store) (storyId userId topic doubt : String) (complexity : Option String)
    (error : JsError),
    (generateStory env store storyId userId topic doubt complexity).result = .error error ∧
      error.message = message

/-- The shapes the record created by `createAudioStory` can take: as created; with the
story saved; completed; failed before the story was saved; failed after it. -/
inductive RecordForm (env : Env) (created : StoryDoc) : StoryDoc → Prop where
  | created : RecordForm env created created
  | narrated (aiStory : String) (time : Nat) (hstory : isBlank (some aiStory) = false) :
      RecordForm env created (applyPatch created (storyPatch aiStory time))
  | completed (aiStory : String) (saved finished : Nat) (request : UploadRequest)
      (audioUrl : String) (length : Nat) (hstory : isBlank (some aiStory) = false)
      (hurl : env.storage request = .ok audioUrl) :
      RecordForm env created (applyPatch (applyPatch created (storyPatch aiStory saved))
        (completedPatch audioUrl (estimatedDuration length) finished))
  | failedEarly (message : String) (time : Nat) (hmessage : PipelineError env message) :
      RecordForm env created (applyPatch created (failedPatch message time))
  | failedLate (aiStory : String) (saved : Nat) (message : String) (time : Nat)
      (hstory : isBlank (some aiStory) = false) (hmessage : PipelineError env message) :
      RecordForm env created (applyPatch (applyPatch created (storyPatch aiStory saved))
        (failedPatch message time))

/-- A run with an always rate-limited completion service. -/
def rateLimitedEnv : Env := { mockEnv with completion := alwaysRateLimited }

/-- The request of the end-to-end scenario. -/
def gravityRequest : CreateRequest :=
  ⟨some "Gravity", some "Why do things fall?", some "easy", "user-1"⟩

/-- A voice-service rejection for an outage. -/
def voiceOutage : JsError := ⟨"Status code: 503\nBody: try again later", some 503⟩

/-- The mocked services of the end-to-end scenario with the voice service down. -/
def voiceDownEnv : Env := { mockEnv with voice := fun _ => .rejected voiceOutage }

/-- The record of the end-to-end scenario once it has completed. -/
def completedDoc : StoryDoc :=
  { processingDoc with
    status := "completed", aiStory := some "A short story...",
    audioUrl := some "https://cdn.example/story.mp3", duration := some 16, updatedAt := 2001 }

/-- The record of the end-to-end scenario once the run has failed at the voice service. -/
def failedDoc : StoryDoc :=
  { processingDoc with
    status := "failed", aiStory := some "A short story...",
    error := some "TTS failed: Status code: 503\nBody: try again later", updatedAt := 2001 }

/-- A store rejection for an outage. -/
def storeOutage : JsError := newError "UNAVAILABLE: the store is unavailable"

/-- The voice service is down and the store rejects the second update of a run. -/
def storeLostEnv : Env :=
  { voiceDownEnv with storeFailure := fun k => if k = 1 then some storeOutage else none }

/-- A topic of 101 characters. -/
def longTopic : String := String.mk (List.replicate 101 'a')

/-- A request whose topic has 101 characters. -/
def longTopicRequest : CreateRequest := ⟨some longTopic, some "Why?", none, "user-1"⟩

/-- The request of the end-to-end scenario with the complexity left out. -/
def plainRequest : CreateRequest :=
  ⟨some "Gravity", some "Why do things fall?", none, "user-1"⟩

/-- A request whose topic is whitespace only. -/
def blankTopicRequest : CreateRequest := ⟨some " \t ", some "Why?", none, "user-1"⟩

/-- A request whose doubt has exactly 300 characters. -/
def boundaryRequest : CreateRequest :=
  ⟨some "Gravity", some (String.mk (List.replicate 300 'a')), some "easy", "user-1"⟩

/-- A request whose doubt has 301 characters. -/
def longDoubtRequest : CreateRequest :=
  ⟨some "Gravity", some (String.mk (List.replicate 301 'a')), some "easy", "user-1"⟩

/-- The mocked services of the end-to-end scenario without a voice-service credential. -/
def noKeyEnv : Env := { mockEnv with apiKey := none }

/-! ## Lemmas on buffers -/

theorem setBytes_append (header tail : Buffer) (offset : Nat) (bytes : List Nat)
    (hfit : offset + bytes.length ≤ header.length) :
    setBytes (header ++ tail) offset bytes = setBytes header offset bytes ++ tail := by
  unfold setBytes
  have h1 : offset ≤ header.length := by omega
  have h2 : bytes.length ≤ header.length - offset := by omega
  have h3 : bytes.length ≤ (header ++ tail).length - offset := by
    simp only [List.length_append]; omega
  rw [List.take_append_of_le_length h1, List.take_of_length_le h2, List.take_of_length_le h3,
    List.drop_append_of_le_length hfit]
  simp

theorem generateSilenceWAV_eq_reference (durationMs : Nat)
    (hsize : 36 + 44100 * durationMs / 1000 * 2 < 2 ^ 32) :
    generateSilenceWAV durationMs = .ok (referenceWav durationMs) := by
  generalize hn : 44100 * durationMs / 1000 * 2 = n at hsize
  have hsize2 : 36 + n < 4294967296 := by norm_num at hsize; exact hsize
  have hn2 : n < 4294967296 := by omega
  have hriff : 44 + n - 8 = 36 + n := by omega
  simp only [generateSilenceWAV, referenceWav, wavHeader, bufferAlloc, hn, List.replicate_add]
  simp [bufferWrite, writeUInt32LE, writeUInt16LE, setBytes_append, setBytes, littleEndian,
    hsize2, hn2, hriff, bind, Except.bind, pure, Except.pure]

/-! ## Lemmas on the retry loop -/

theorem exhausted_message (message : String) :
    "LLM failed after " ++ toString maxRetries ++ " retries: " ++ message =
      "LLM failed after 3 retries: " ++ message := by
  have h : "LLM failed after " ++ toString maxRetries ++ " retries: " =
      "LLM failed after 3 retries: " := by decide
  rw [h]

theorem jsTrim_empty : jsTrim "" = "" := by decide

theorem tryAttempt_of_failed (o : CompletionOutcome) (h : failedAttempt o = true) :
    ∃ error, tryAttempt o = .error error ∧ (error.status = some 429 ↔ rateLimited o = true) ∧
      (∀ content, o = .response content → error = newError "Empty response from LLM") := by
  cases o with
  | rejected error => exact ⟨error, rfl, by simp [rateLimited], by simp⟩
  | response content =>
    refine ⟨newError "Empty response from LLM", ?_, by simp [rateLimited, newError], by simp⟩
    cases content with
    | none => rfl
    | some text =>
      have ht : jsTrim text = "" := by simpa [failedAttempt, isBlank] using h
      simp [tryAttempt, ht]

theorem tryAttempt_of_text (text : String) (h : jsTrim text ≠ "") :
    tryAttempt (.response (some text)) = .ok (jsTrim text) := by
  simp [tryAttempt, h]

theorem loop_success (post : Nat → CompletionOutcome) (request : CompletionRequest)
    (retries calls : Nat) (trace : List Effect) (story : String)
    (hlt : retries < 3) (hok : tryAttempt (post calls) = .ok story) :
    generateStoryWithLLM.loop post request retries calls trace =
      ⟨.ok (some story), trace ++ [.llmCall request]⟩ := by
  rw [generateStoryWithLLM.loop]
  simp [maxRetries, hlt, hok]

theorem loop_retry (post : Nat → CompletionOutcome) (request : CompletionRequest)
    (retries calls : Nat) (trace : List Effect)
    (hlt : retries + 1 < 3) (hfail : failedAttempt (post calls) = true) :
    generateStoryWithLLM.loop post request retries calls trace =
      generateStoryWithLLM.loop post request (retries + 1) (calls + 1)
        (trace ++ [.llmCall request, .sleep (backoffWait (retries + 1) (post calls))]) := by
  obtain ⟨error, herr, hrate, -⟩ := tryAttempt_of_failed _ hfail
  have hlt2 : retries < 3 := by omega
  have hge : ¬ (3 ≤ retries + 1) := by omega
  rw [generateStoryWithLLM.loop]
  by_cases h429 : error.status = some 429
  · have hr : rateLimited (post calls) = true := hrate.mp h429
    simp [maxRetries, hlt2, herr, h429, backoffWait, hr]
  · have hr : rateLimited (post calls) = false := by
      cases hq : rateLimited (post calls) with
      | false => rfl
      | true => exact absurd (hrate.mpr hq) h429
    simp [maxRetries, hlt2, herr, h429, backoffWait, hr, hge]

theorem loop_exhausted (post : Nat → CompletionOutcome) (request : CompletionRequest)
    (calls : Nat) (trace : List Effect) (error : JsError)
    (herr : tryAttempt (post calls) = .error error) (h429 : error.status ≠ some 429) :
    generateStoryWithLLM.loop post request 2 calls trace =
      ⟨.error (newError ("LLM failed after 3 retries: " ++ error.message)),
        trace ++ [.llmCall request]⟩ := by
  have hmsg := exhausted_message error.message
  simp only [maxRetries] at hmsg
  rw [generateStoryWithLLM.loop]
  simp [maxRetries, herr, h429, hmsg]

theorem loop_rate_limited_last (post : Nat → CompletionOutcome) (request : CompletionRequest)
    (calls : Nat) (trace : List Effect) (error : JsError)
    (herr : tryAttempt (post calls) = .error error) (h429 : error.status = some 429) :
    generateStoryWithLLM.loop post request 2 calls trace =
      ⟨.ok none, trace ++ [.llmCall request, .sleep 16000]⟩ := by
  rw [generateStoryWithLLM.loop]
  simp only [maxRetries, herr, h429]
  rw [generateStoryWithLLM.loop]
  simp [maxRetries]

theorem loop_trace_extends (post : Nat → CompletionOutcome) (request : CompletionRequest)
    (m : Nat) : ∀ (retries calls : Nat) (trace : List Effect), 3 - retries ≤ m →
      ∃ rest, (generateStoryWithLLM.loop post request retries calls trace).trace =
        trace ++ rest := by
  induction m with
  | zero =>
    intro retries calls trace hm
    have hge : ¬ retries < 3 := by omega
    rw [generateStoryWithLLM.loop]
    exact ⟨[], by simp [maxRetries, hge]⟩
  | succ m ih =>
    intro retries calls trace hm
    rw [generateStoryWithLLM.loop]
    by_cases hlt : retries < 3
    · simp only [maxRetries, hlt, if_true]
      cases hattempt : tryAttempt (post calls) with
      | ok story => exact ⟨[.llmCall request], rfl⟩
      | error error =>
        simp only []
        by_cases h429 : error.status = some 429
        · simp only [h429, if_true]
          obtain ⟨rest, hrest⟩ := ih (retries + 1) (calls + 1)
            (trace ++ [.llmCall request, .sleep (2 ^ (retries + 1) * 2000)]) (by omega)
          exact ⟨[.llmCall request, .sleep (2 ^ (retries + 1) * 2000)] ++ rest, by
            rw [hrest]; simp⟩
        · simp only [h429, if_false]
          by_cases hge : retries + 1 ≥ 3
          · simp only [hge, if_true]
            exact ⟨[.llmCall request], rfl⟩
          · simp only [hge, if_false]
            obtain ⟨rest, hrest⟩ := ih (retries + 1) (calls + 1)
              (trace ++ [.llmCall request, .sleep 1000]) (by omega)
            exact ⟨[.llmCall request, .sleep 1000] ++ rest, by rw [hrest]; simp⟩
    · exact ⟨[], by simp [maxRetries, hlt]⟩

theorem loop_trace_starts (post : Nat → CompletionOutcome) (request : CompletionRequest)
    (retries calls : Nat) (trace : List Effect) (hlt : retries < 3) :
    ∃ rest, (generateStoryWithLLM.loop post request retries calls trace).trace =
      trace ++ [.llmCall request] ++ rest := by
  rw [generateStoryWithLLM.loop]
  simp only [maxRetries, hlt, if_true]
  cases hattempt : tryAttempt (post calls) with
  | ok story => exact ⟨[], by simp⟩
  | error error =>
    simp only []
    by_cases h429 : error.status = some 429
    · simp only [h429, if_true]
      obtain ⟨rest, hrest⟩ := loop_trace_extends post request 3 (retries + 1) (calls + 1)
        (trace ++ [.llmCall request, .sleep (2 ^ (retries + 1) * 2000)]) (by omega)
      exact ⟨.sleep (2 ^ (retries + 1) * 2000) :: rest, by rw [hrest]; simp⟩
    · simp only [h429, if_false]
      by_cases hge : retries + 1 ≥ 3
      · simp only [hge, if_true]
        exact ⟨[], by simp⟩
      · simp only [hge, if_false]
        obtain ⟨rest, hrest⟩ := loop_trace_extends post request 3 (retries + 1) (calls + 1)
          (trace ++ [.llmCall request, .sleep 1000]) (by omega)
        exact ⟨.sleep 1000 :: rest, by rw [hrest]; simp⟩

theorem loop_never_empty (post : Nat → CompletionOutcome) (request : CompletionRequest)
    (m : Nat) : ∀ (retries calls : Nat) (trace : List Effect), 3 - retries ≤ m →
      (generateStoryWithLLM.loop post request retries calls trace).result ≠ .ok (some "") := by
  induction m with
  | zero =>
    intro retries calls trace hm
    have hge : ¬ retries < 3 := by omega
    rw [generateStoryWithLLM.loop]
    simp [maxRetries, hge]
  | succ m ih =>
    intro retries calls trace hm
    rw [generateStoryWithLLM.loop]
    by_cases hlt : retries < 3
    · simp only [maxRetries, hlt, if_true]
      cases hattempt : tryAttempt (post calls) with
      | ok story =>
        have hne : story ≠ "" := by
          intro hs
          subst hs
          cases hpost : post calls with
          | rejected error => simp [hpost, tryAttempt] at hattempt
          | response content =>
            cases content with
            | none => simp [hpost, tryAttempt] at hattempt
            | some text =>
              by_cases ht : jsTrim text = ""
              · simp [hpost, tryAttempt, ht] at hattempt
              · simp [hpost, tryAttempt, ht] at hattempt
        simp [hne]
      | error error =>
        simp only []
        by_cases h429 : error.status = some 429
        · simp only [h429, if_true]
          exact ih _ _ _ (by omega)
        · simp only [h429, if_false]
          by_cases hge : retries + 1 ≥ 3
          · simp [hge]
          · simp only [hge, if_false]
            exact ih _ _ _ (by omega)
    · simp [maxRetries, hlt]

/-! ## The narrative generator: retries and backoff -/

/-- C1, as stated, fails: a response that succeeds at attempt 1 with a blank text is not
returned; the function waits 1000 ms, calls the service a second time and returns the
second answer. -/
theorem generateStoryWithLLM_blank_success_retried :
    blankThenStory ⟨userPrompt "Gravity" "Why do things fall?" (some "easy")⟩ 0 =
        .response (some "   ") ∧
      llmCalls (generateStoryWithLLM blankThenStory "Gravity" "Why do things fall?"
        (some "easy")).trace = 2 ∧
      waits (generateStoryWithLLM blankThenStory "Gravity" "Why do things fall?"
        (some "easy")).trace = [1000] ∧
      (generateStoryWithLLM blankThenStory "Gravity" "Why do things fall?"
        (some "easy")).result = .ok (some "A story") ∧
      (generateStoryWithLLM blankThenStory "Gravity" "Why do things fall?"
        (some "easy")).result ≠ .ok (some (jsTrim "   ")) := by
  have h1 : jsTrim "   " = "" := by decide
  have h2 : jsTrim "A story" = "A story" := by decide
  simp [generateStoryWithLLM, generateStoryWithLLM.loop, tryAttempt, maxRetries, blankThenStory,
    h1, h2, llmCalls, waits, newError]

/-- C1 (amended). When the first response with a non-blank text comes at attempt `n ≤ 3`,
every earlier attempt having failed (a rejection, or a response whose text is blank, which
counts as an error other than 429), `generateStoryWithLLM` makes exactly `n` calls, returns
that response's trimmed text, and after failed attempt `k` waits `2^k * 2000` ms when it was
an HTTP 429 and 1000 ms otherwise. -/
theorem generateStoryWithLLM_first_success (service : CompletionService) (topic doubt : String)
    (complexity : Option String) (n : Nat) (text : String)
    (hn1 : 1 ≤ n) (hn3 : n ≤ 3)
    (hfail : ∀ k, k + 1 < n →
      failedAttempt (service ⟨userPrompt topic doubt complexity⟩ k) = true)
    (hresp : service ⟨userPrompt topic doubt complexity⟩ (n - 1) = .response (some text))
    (htext : jsTrim text ≠ "") :
    (generateStoryWithLLM service topic doubt complexity).result = .ok (some (jsTrim text)) ∧
      llmCalls (generateStoryWithLLM service topic doubt complexity).trace = n ∧
      waits (generateStoryWithLLM service topic doubt complexity).trace =
        (List.range (n - 1)).map (fun k =>
          backoffWait (k + 1) (service ⟨userPrompt topic doubt complexity⟩ k)) ∧
      (generateStoryWithLLM service topic doubt complexity).trace =
        retriedAttempts (service ⟨userPrompt topic doubt complexity⟩)
          ⟨userPrompt topic doubt complexity⟩ (n - 1) ++
          [.llmCall ⟨userPrompt topic doubt complexity⟩] := by
  have hok := tryAttempt_of_text text htext
  unfold generateStoryWithLLM
  simp only []
  generalize (⟨userPrompt topic doubt complexity⟩ : CompletionRequest) = request at *
  interval_cases n
  · simp only [Nat.sub_self] at hresp
    rw [loop_success _ _ 0 0 [] (jsTrim text) (by omega) (by rw [hresp]; exact hok)]
    simp [llmCalls, waits, retriedAttempts]
  · have hresp1 : service request 1 = .response (some text) := hresp
    rw [loop_retry _ _ 0 0 [] (by omega) (hfail 0 (by omega)),
      loop_success _ _ 1 1 _ (jsTrim text) (by omega) (by rw [hresp1]; exact hok)]
    simp [llmCalls, waits, retriedAttempts, List.range_succ]
  · have hresp2 : service request 2 = .response (some text) := hresp
    rw [loop_retry _ _ 0 0 [] (by omega) (hfail 0 (by omega)),
      loop_retry _ _ 1 1 _ (by omega) (hfail 1 (by omega)),
      loop_success _ _ 2 2 _ (jsTrim text) (by omega) (by rw [hresp2]; exact hok)]
    simp [llmCalls, waits, retriedAttempts, List.range_succ]

/-- C1, witness: 429, 429, then a story gives exactly 3 calls, with waits of 4000 ms and
then 8000 ms, and the trimmed story. -/
theorem generateStoryWithLLM_first_success_witness :
    (generateStoryWithLLM rateLimitedTwice "Gravity" "Why do things fall?" (some "easy")).result =
        .ok (some "Once upon a time.") ∧
      llmCalls (generateStoryWithLLM rateLimitedTwice "Gravity" "Why do things fall?"
        (some "easy")).trace = 3 ∧
      waits (generateStoryWithLLM rateLimitedTwice "Gravity" "Why do things fall?"
        (some "easy")).trace = [4000, 8000] := by
  have htrim : jsTrim "  Once upon a time.\n" = "Once upon a time." := by decide
  have h := generateStoryWithLLM_first_success rateLimitedTwice "Gravity" "Why do things fall?"
    (some "easy") 3 "  Once upon a time.\n" (by decide) (by decide)
    (by intro k hk; have hk2 : k < 2 := by omega
        interval_cases k <;> rfl) rfl (by rw [htrim]; decide)
  rw [htrim] at h
  refine ⟨h.1, h.2.1, ?_⟩
  rw [h.2.2.1]
  decide

/-- C2, at the failing input: three HTTP 429 rejections in a row. After the third the
function waits 16000 ms, leaves the loop and returns `undefined`; the exhausted-retries
error is not raised. -/
theorem generateStoryWithLLM_three_rate_limits :
    (generateStoryWithLLM alwaysRateLimited "Gravity" "Why do things fall?" (some "easy")).result =
        .ok none ∧
      (generateStoryWithLLM alwaysRateLimited "Gravity" "Why do things fall?"
        (some "easy")).result ≠
        .error (newError "LLM failed after 3 retries: Request failed with status code 429") ∧
      llmCalls (generateStoryWithLLM alwaysRateLimited "Gravity" "Why do things fall?"
        (some "easy")).trace = 3 ∧
      waits (generateStoryWithLLM alwaysRateLimited "Gravity" "Why do things fall?"
        (some "easy")).trace = [4000, 8000, 16000] := by
  simp [generateStoryWithLLM, generateStoryWithLLM.loop, tryAttempt, maxRetries,
    alwaysRateLimited, tooManyRequests, llmCalls, waits]

/-- The part of C2 that holds: when three attempts fail and the third failure is not an
HTTP 429, the function raises the exhausted-retries error with the third error's message
after exactly 3 calls. -/
theorem generateStoryWithLLM_exhausted (service : CompletionService) (topic doubt : String)
    (complexity : Option String) (error : JsError)
    (h0 : failedAttempt (service ⟨userPrompt topic doubt complexity⟩ 0) = true)
    (h1 : failedAttempt (service ⟨userPrompt topic doubt complexity⟩ 1) = true)
    (h2 : tryAttempt (service ⟨userPrompt topic doubt complexity⟩ 2) = .error error)
    (h429 : error.status ≠ some 429) :
    (generateStoryWithLLM service topic doubt complexity).result =
        .error (newError ("LLM failed after 3 retries: " ++ error.message)) ∧
      llmCalls (generateStoryWithLLM service topic doubt complexity).trace = 3 := by
  unfold generateStoryWithLLM
  simp only []
  rw [loop_retry _ _ 0 0 [] (by omega) h0, loop_retry _ _ 1 1 _ (by omega) h1,
    loop_exhausted _ _ 2 _ error h2 h429]
  simp [llmCalls]

/-- C3, as stated, fails: when every response is whitespace the function does call the
service again, twice, with a wait of 1000 ms before each retry, and then raises. -/
theorem generateStoryWithLLM_blank_is_retried :
    alwaysBlank ⟨userPrompt "Gravity" "Why do things fall?" none⟩ 0 = .response (some " \n\t ") ∧
      isBlank (some " \n\t ") = true ∧
      llmCalls (generateStoryWithLLM alwaysBlank "Gravity" "Why do things fall?" none).trace = 3 ∧
      waits (generateStoryWithLLM alwaysBlank "Gravity" "Why do things fall?" none).trace =
        [1000, 1000] ∧
      (generateStoryWithLLM alwaysBlank "Gravity" "Why do things fall?" none).result =
        .error (newError "LLM failed after 3 retries: Empty response from LLM") := by
  have h1 : jsTrim " \n\t " = "" := by decide
  have h2 := exhausted_message "Empty response from LLM"
  simp only [maxRetries] at h2
  refine ⟨rfl, by decide, ?_⟩
  simp [generateStoryWithLLM, generateStoryWithLLM.loop, tryAttempt, maxRetries, alwaysBlank,
    h1, h2, llmCalls, waits, newError]

/-- C3 (amended). A response whose text is absent, empty or whitespace-only is handled as a
failed attempt with the error `Empty response from LLM`, which is not a 429: after attempt 1
or 2 the function waits 1000 ms and calls the completion service again; after attempt 3 it
raises `LLM failed after 3 retries: Empty response from LLM` without a 4th call; and it
never returns an empty text. -/
theorem generateStoryWithLLM_blank_response (service : CompletionService) (topic doubt : String)
    (complexity : Option String) (k : Nat) (content : Option String)
    (hk : k < 3)
    (hfail : ∀ j, j < k → failedAttempt (service ⟨userPrompt topic doubt complexity⟩ j) = true)
    (hresp : service ⟨userPrompt topic doubt complexity⟩ k = .response content)
    (hblank : isBlank content = true) :
    (k < 2 → ∃ rest, (generateStoryWithLLM service topic doubt complexity).trace =
        retriedAttempts (service ⟨userPrompt topic doubt complexity⟩)
          ⟨userPrompt topic doubt complexity⟩ k ++
          [.llmCall ⟨userPrompt topic doubt complexity⟩, .sleep 1000,
            .llmCall ⟨userPrompt topic doubt complexity⟩] ++ rest) ∧
      (k = 2 →
        (generateStoryWithLLM service topic doubt complexity).result =
          .error (newError "LLM failed after 3 retries: Empty response from LLM") ∧
        (generateStoryWithLLM service topic doubt complexity).trace =
          retriedAttempts (service ⟨userPrompt topic doubt complexity⟩)
            ⟨userPrompt topic doubt complexity⟩ 2 ++
            [.llmCall ⟨userPrompt topic doubt complexity⟩]) ∧
      (generateStoryWithLLM service topic doubt complexity).result ≠ .ok (some "") := by
  have hnever : (generateStoryWithLLM service topic doubt complexity).result ≠ .ok (some "") :=
    loop_never_empty _ _ 3 0 0 [] (by omega)
  refine ⟨?_, ?_, hnever⟩
  all_goals
    unfold generateStoryWithLLM
    simp only []
    generalize (⟨userPrompt topic doubt complexity⟩ : CompletionRequest) = request at *
  · intro hk2
    have hfailed : failedAttempt (service request k) = true := by
      rw [hresp]; exact hblank
    have hwait : backoffWait (k + 1) (service request k) = 1000 := by
      rw [hresp]; rfl
    interval_cases k
    · rw [loop_retry _ _ 0 0 [] (by omega) hfailed, hwait]
      obtain ⟨rest, hrest⟩ := loop_trace_starts (service request) request 1 1
        ([] ++ [.llmCall request, .sleep 1000]) (by omega)
      exact ⟨rest, by rw [hrest]; simp [retriedAttempts]⟩
    · rw [loop_retry _ _ 0 0 [] (by omega) (hfail 0 (by omega)),
        loop_retry _ _ 1 1 _ (by omega) hfailed, hwait]
      obtain ⟨rest, hrest⟩ := loop_trace_starts (service request) request 2 2
        ([] ++ [.llmCall request, .sleep (backoffWait (0 + 1) (service request 0))] ++
          [.llmCall request, .sleep 1000]) (by omega)
      exact ⟨rest, by rw [hrest]; simp [retriedAttempts, List.range_succ]⟩
  · intro hk2
    subst hk2
    have hfailed : failedAttempt (service request 2) = true := by
      rw [hresp]; exact hblank
    obtain ⟨error, herr, -, hempty⟩ := tryAttempt_of_failed _ hfailed
    have herror := hempty content hresp
    subst herror
    rw [loop_retry _ _ 0 0 [] (by omega) (hfail 0 (by omega)),
      loop_retry _ _ 1 1 _ (by omega) (hfail 1 (by omega)),
      loop_exhausted _ _ 2 _ _ herr (by simp [newError])]
    simp [retriedAttempts, List.range_succ, newError]

/-- C3, witness: after a server error, an empty answer at attempt 2 is followed by a wait of
1000 ms and a third call. -/
theorem generateStoryWithLLM_blank_response_witness :
    isBlank (some "") = true ∧
      ∃ rest, (generateStoryWithLLM errorThenBlank "Gravity" "Why do things fall?" none).trace =
        retriedAttempts (errorThenBlank ⟨userPrompt "Gravity" "Why do things fall?" none⟩)
          ⟨userPrompt "Gravity" "Why do things fall?" none⟩ 1 ++
          [.llmCall ⟨userPrompt "Gravity" "Why do things fall?" none⟩, .sleep 1000,
            .llmCall ⟨userPrompt "Gravity" "Why do things fall?" none⟩] ++ rest :=
  ⟨by decide,
    (generateStoryWithLLM_blank_response errorThenBlank "Gravity" "Why do things fall?" none 1
      (some "") (by decide)
      (by intro j hj; have hj0 : j = 0 := by omega
          subst hj0; rfl)
      rfl (by decide)).1 (by decide)⟩

/-! ## The silent clip -/

theorem decode_littleEndian (width : Nat) : ∀ value, value < 256 ^ width →
    (littleEndian width value).foldr (fun byte acc => byte + 256 * acc) 0 = value := by
  induction width with
  | zero => intro value h; simp at h; simp [littleEndian, h]
  | succ width ih =>
    intro value h
    have hdiv : value / 256 < 256 ^ width := by
      rw [Nat.div_lt_iff_lt_mul (by norm_num)]
      rw [pow_succ] at h
      exact h
    simp only [littleEndian, List.foldr_cons, ih _ hdiv]
    omega

theorem readUIntLE_of_field (buf : Buffer) (offset width value : Nat)
    (hfield : (buf.drop offset).take width = littleEndian width value)
    (hvalue : value < 256 ^ width) : readUIntLE buf offset width = value := by
  unfold readUIntLE
  rw [hfield]
  exact decode_littleEndian width value hvalue

set_option maxHeartbeats 4000000 in
theorem wavHeader_fields (riffSize dataLength : Nat) (tail : Buffer)
    (hriff : riffSize < 2 ^ 32) (hdata : dataLength < 2 ^ 32) :
    (wavHeader riffSize dataLength ++ tail).length = 44 + tail.length ∧
      (wavHeader riffSize dataLength ++ tail).take 4 = [0x52, 0x49, 0x46, 0x46] ∧
      readUIntLE (wavHeader riffSize dataLength ++ tail) 4 4 = riffSize ∧
      ((wavHeader riffSize dataLength ++ tail).drop 8).take 8 =
        [0x57, 0x41, 0x56, 0x45, 0x66, 0x6D, 0x74, 0x20] ∧
      readUIntLE (wavHeader riffSize dataLength ++ tail) 16 4 = 16 ∧
      readUIntLE (wavHeader riffSize dataLength ++ tail) 20 2 = 1 ∧
      readUIntLE (wavHeader riffSize dataLength ++ tail) 22 2 = 1 ∧
      readUIntLE (wavHeader riffSize dataLength ++ tail) 24 4 = 44100 ∧
      readUIntLE (wavHeader riffSize dataLength ++ tail) 28 4 = 88200 ∧
      readUIntLE (wavHeader riffSize dataLength ++ tail) 32 2 = 2 ∧
      readUIntLE (wavHeader riffSize dataLength ++ tail) 34 2 = 16 ∧
      ((wavHeader riffSize dataLength ++ tail).drop 36).take 4 = [0x64, 0x61, 0x74, 0x61] ∧
      readUIntLE (wavHeader riffSize dataLength ++ tail) 40 4 = dataLength ∧
      (wavHeader riffSize dataLength ++ tail).drop 44 = tail := by
  have hpow4 : (256 : Nat) ^ 4 = 2 ^ 32 := by norm_num
  have h44 : (wavHeader riffSize dataLength).length = 44 := rfl
  have hlen : (wavHeader riffSize dataLength ++ tail).length = 44 + tail.length := by
    rw [List.length_append, h44]
  have hRIFF : (wavHeader riffSize dataLength ++ tail).take 4 = [0x52, 0x49, 0x46, 0x46] := rfl
  have hWAVE : ((wavHeader riffSize dataLength ++ tail).drop 8).take 8 =
      [0x57, 0x41, 0x56, 0x45, 0x66, 0x6D, 0x74, 0x20] := rfl
  have hdataTag : ((wavHeader riffSize dataLength ++ tail).drop 36).take 4 =
      [0x64, 0x61, 0x74, 0x61] := rfl
  have htail : (wavHeader riffSize dataLength ++ tail).drop 44 = tail := rfl
  have f4 : ((wavHeader riffSize dataLength ++ tail).drop 4).take 4 =
      littleEndian 4 riffSize := rfl
  have f16 : ((wavHeader riffSize dataLength ++ tail).drop 16).take 4 = littleEndian 4 16 := rfl
  have f20 : ((wavHeader riffSize dataLength ++ tail).drop 20).take 2 = littleEndian 2 1 := rfl
  have f22 : ((wavHeader riffSize dataLength ++ tail).drop 22).take 2 = littleEndian 2 1 := rfl
  have f24 : ((wavHeader riffSize dataLength ++ tail).drop 24).take 4 =
      littleEndian 4 44100 := rfl
  have f28 : ((wavHeader riffSize dataLength ++ tail).drop 28).take 4 =
      littleEndian 4 88200 := rfl
  have f32 : ((wavHeader riffSize dataLength ++ tail).drop 32).take 2 = littleEndian 2 2 := rfl
  have f34 : ((wavHeader riffSize dataLength ++ tail).drop 34).take 2 = littleEndian 2 16 := rfl
  have f40 : ((wavHeader riffSize dataLength ++ tail).drop 40).take 4 =
      littleEndian 4 dataLength := rfl
  exact ⟨hlen, hRIFF,
    readUIntLE_of_field _ 4 4 _ f4 (by rw [hpow4]; exact hriff), hWAVE,
    readUIntLE_of_field _ 16 4 16 f16 (by norm_num),
    readUIntLE_of_field _ 20 2 1 f20 (by norm_num),
    readUIntLE_of_field _ 22 2 1 f22 (by norm_num),
    readUIntLE_of_field _ 24 4 44100 f24 (by norm_num),
    readUIntLE_of_field _ 28 4 88200 f28 (by norm_num),
    readUIntLE_of_field _ 32 2 2 f32 (by norm_num),
    readUIntLE_of_field _ 34 2 16 f34 (by norm_num), hdataTag,
    readUIntLE_of_field _ 40 4 _ f40 (by rw [hpow4]; exact hdata), htail⟩

theorem generateSilenceWAV_fields (durationMs : Nat)
    (hsize : 36 + 44100 * durationMs / 1000 * 2 < 2 ^ 32) :
    ∃ wav, generateSilenceWAV durationMs = .ok wav ∧ wav = referenceWav durationMs ∧
      wav.length = 44 + 44100 * durationMs / 1000 * 2 ∧
      wav.take 4 = [0x52, 0x49, 0x46, 0x46] ∧
      readUIntLE wav 4 4 = wav.length - 8 ∧
      (wav.drop 8).take 8 = [0x57, 0x41, 0x56, 0x45, 0x66, 0x6D, 0x74, 0x20] ∧
      readUIntLE wav 16 4 = 16 ∧
      readUIntLE wav 20 2 = 1 ∧
      readUIntLE wav 22 2 = 1 ∧
      readUIntLE wav 24 4 = 44100 ∧
      readUIntLE wav 28 4 = 88200 ∧
      readUIntLE wav 32 2 = 2 ∧
      readUIntLE wav 34 2 = 16 ∧
      (wav.drop 36).take 4 = [0x64, 0x61, 0x74, 0x61] ∧
      readUIntLE wav 40 4 = 44100 * durationMs / 1000 * 2 ∧
      wav.drop 44 = List.replicate (44100 * durationMs / 1000 * 2) 0 := by
  have hfields := wavHeader_fields (44 + 44100 * durationMs / 1000 * 2 - 8)
    (44100 * durationMs / 1000 * 2) (List.replicate (44100 * durationMs / 1000 * 2) 0)
    (by omega) (by omega)
  have hlen : (referenceWav durationMs).length = 44 + 44100 * durationMs / 1000 * 2 := by
    have h := hfields.1
    rw [List.length_replicate] at h
    exact h
  refine ⟨referenceWav durationMs, generateSilenceWAV_eq_reference durationMs hsize, rfl,
    hlen, hfields.2.1, ?_, hfields.2.2.2⟩
  rw [hlen]
  exact hfields.2.2.1

/-- C5. For every duration that is a multiple of 10 ms and whose sizes fit in 32 bits,
`generateSilenceWAV` returns the reference PCM WAV encoding: `RIFF`, the little-endian RIFF
size (total length - 8), `WAVE`, `fmt ` with chunk size 16, format 1, 1 channel, sample rate
44100, byte rate 88200, block align 2, 16 bits per sample, `data`, the data length
`44100 * durationMs / 1000 * 2` (an exact quotient), then that many zero bytes; the total
length is 44 + data length. -/
theorem generateSilenceWAV_reference (durationMs : Nat) (hten : 10 ∣ durationMs)
    (hsize : 36 + 44100 * durationMs / 1000 * 2 < 2 ^ 32) :
    44100 * durationMs / 1000 * 1000 = 44100 * durationMs ∧
    ∃ wav, generateSilenceWAV durationMs = .ok wav ∧ wav = referenceWav durationMs ∧
      wav.length = 44 + 44100 * durationMs / 1000 * 2 ∧
      wav.take 4 = [0x52, 0x49, 0x46, 0x46] ∧
      readUIntLE wav 4 4 = wav.length - 8 ∧
      (wav.drop 8).take 8 = [0x57, 0x41, 0x56, 0x45, 0x66, 0x6D, 0x74, 0x20] ∧
      readUIntLE wav 16 4 = 16 ∧
      readUIntLE wav 20 2 = 1 ∧
      readUIntLE wav 22 2 = 1 ∧
      readUIntLE wav 24 4 = 44100 ∧
      readUIntLE wav 28 4 = 88200 ∧
      readUIntLE wav 32 2 = 2 ∧
      readUIntLE wav 34 2 = 16 ∧
      (wav.drop 36).take 4 = [0x64, 0x61, 0x74, 0x61] ∧
      readUIntLE wav 40 4 = 44100 * durationMs / 1000 * 2 ∧
      wav.drop 44 = List.replicate (44100 * durationMs / 1000 * 2) 0 := by
  refine ⟨?_, generateSilenceWAV_fields durationMs hsize⟩
  obtain ⟨q, hq⟩ := hten
  subst hq
  omega

/-- C5, witness: ten milliseconds of silence are 44 + 882 bytes, with data length 882. -/
theorem generateSilenceWAV_reference_witness :
    ∃ wav, generateSilenceWAV 10 = .ok wav ∧ wav.length = 44 + 882 ∧
      readUIntLE wav 40 4 = 882 ∧ wav.drop 44 = List.replicate 882 0 := by
  obtain ⟨-, wav, hwav, -, hlen, -, -, -, -, -, -, -, -, -, -, -, hdata, hzero⟩ :=
    generateSilenceWAV_reference 10 (by decide) (by decide)
  exact ⟨wav, hwav, hlen, hdata, hzero⟩

/-! ## The narration synthesizer -/

theorem silence_2000 :
    ∃ wav, generateSilenceWAV 2000 = .ok wav ∧ wav = referenceWav 2000 ∧
      wav.length = 176444 ∧
      readUIntLE wav 22 2 = 1 ∧ readUIntLE wav 24 4 = 44100 ∧ readUIntLE wav 34 2 = 16 ∧
      readUIntLE wav 40 4 = 176400 := by
  obtain ⟨wav, hwav, href, hlen, -, -, -, -, -, hch, hrate, -, -, hbits, -, hdata, -⟩ :=
    generateSilenceWAV_fields 2000 (by decide)
  exact ⟨wav, hwav, href, hlen, hch, hrate, hbits, hdata⟩

/-- C4. With no voice-service credential (`ELEVENLABS_API_KEY` undefined or empty),
`generateAudioNarration` returns exactly `generateSilenceWAV(2000)` and makes no remote
call: a buffer whose header declares sample rate 44100, 1 channel, 16 bits per sample and a
data length of 176400 bytes, i.e. 88200 two-byte samples, exactly 2000 ms at 44100 Hz. -/
theorem generateAudioNarration_no_credential (apiKey : Option String) (voice : VoiceService)
    (story : String) (hkey : falsy apiKey = true) :
    (generateAudioNarration apiKey voice story).result = generateSilenceWAV 2000 ∧
      (generateAudioNarration apiKey voice story).trace = [] ∧
      voiceCalls (generateAudioNarration apiKey voice story).trace = 0 ∧
      ∃ wav, (generateAudioNarration apiKey voice story).result = .ok wav ∧
        readUIntLE wav 24 4 = 44100 ∧ readUIntLE wav 22 2 = 1 ∧ readUIntLE wav 34 2 = 16 ∧
        readUIntLE wav 40 4 = 176400 ∧ wav.length = 44 + 176400 ∧
        176400 = 88200 * 2 ∧ 88200 * 1000 = 44100 * 2000 := by
  obtain ⟨wav, hwav, -, hlen, hch, hrate, hbits, hdata⟩ := silence_2000
  have hrun : generateAudioNarration apiKey voice story = ⟨generateSilenceWAV 2000, []⟩ := by
    simp [generateAudioNarration, generateAudioNarration.tryBlock, hkey, hwav]
  rw [hrun]
  exact ⟨rfl, rfl, rfl, wav, hwav, hrate, hch, hbits, hdata, hlen, by norm_num, by norm_num⟩

/-- C4, witness: with the key undefined nothing is sent to the voice service and the silent
clip comes back. -/
theorem generateAudioNarration_no_credential_witness :
    falsy none = true ∧
      (generateAudioNarration none oneChunkVoice "Once upon a time.").result =
        generateSilenceWAV 2000 ∧
      (generateAudioNarration none oneChunkVoice "Once upon a time.").trace = [] :=
  ⟨rfl, (generateAudioNarration_no_credential none oneChunkVoice "Once upon a time." rfl).1,
    (generateAudioNarration_no_credential none oneChunkVoice "Once upon a time." rfl).2.1⟩

theorem readStream_done (values : List Buffer) : ∀ chunks,
    readStream values none chunks = .ok (chunks ++ values) := by
  induction values with
  | nil => intro chunks; simp [readStream]
  | cons value rest ih => intro chunks; simp [readStream, ih]

theorem generateAudioNarration_rejected (apiKey : Option String) (voice : VoiceService)
    (story : String) (error : JsError) (hkey : falsy apiKey = false)
    (hcall : voice (voiceRequest story) = .rejected error) :
    generateAudioNarration apiKey voice story =
      if jsIncludes error.message "401" || jsIncludes error.message "403" then
        ⟨generateSilenceWAV 2000, [.voiceCall (voiceRequest story)]⟩
      else
        ⟨.error (newError ("TTS failed: " ++ error.message)),
          [.voiceCall (voiceRequest story)]⟩ := by
  simp only [generateAudioNarration, generateAudioNarration.tryBlock, hkey, hcall]
  simp

/-- C6. With a credential configured, when the voice call is rejected with an HTTP 401 or
403 whose message names that status code (as the messages the voice SDK builds do),
`generateAudioNarration` does not raise: its result is the silence fallback
`generateSilenceWAV(2000)`. -/
theorem generateAudioNarration_auth_failure (apiKey : Option String) (voice : VoiceService)
    (story : String) (error : JsError) (hkey : falsy apiKey = false)
    (hcall : voice (voiceRequest story) = .rejected error)
    (hauth : isAuthError error = true) (hnames : namesStatus error = true) :
    (generateAudioNarration apiKey voice story).result = generateSilenceWAV 2000 ∧
      ∃ wav, (generateAudioNarration apiKey voice story).result = .ok wav := by
  obtain ⟨wav, hwav, -⟩ := silence_2000
  have h401 : toString 401 = "401" := by decide
  have h403 : toString 403 = "403" := by decide
  have hincl : (jsIncludes error.message "401" || jsIncludes error.message "403") = true := by
    simp only [isAuthError, Bool.or_eq_true, beq_iff_eq] at hauth
    rcases hauth with h | h
    · simp only [namesStatus, h, h401] at hnames
      simp [hnames]
    · simp only [namesStatus, h, h403] at hnames
      simp [hnames]
  rw [generateAudioNarration_rejected apiKey voice story error hkey hcall, hincl]
  exact ⟨rfl, wav, hwav⟩

/-- C6, witness: a 401 with the SDK's message falls back to silence. -/
theorem generateAudioNarration_auth_failure_witness :
    isAuthError unauthorized = true ∧ namesStatus unauthorized = true ∧
      (generateAudioNarration (some "sk-test") (fun _ => .rejected unauthorized)
        "Once upon a time.").result = generateSilenceWAV 2000 :=
  ⟨by decide, by decide,
    (generateAudioNarration_auth_failure (some "sk-test") (fun _ => .rejected unauthorized)
      "Once upon a time." unauthorized (by decide) rfl (by decide) (by decide)).1⟩

/-- C7, at the failing input: a rejection with HTTP status 500, not an authentication
error, whose message names its status and happens to contain the digits 403. The function
does not raise `TTS failed: ...`; it returns the silence fallback. -/
theorem generateAudioNarration_server_fault_silenced :
    isAuthError serverFault = false ∧ namesStatus serverFault = true ∧
      (generateAudioNarration (some "sk-test") (fun _ => .rejected serverFault)
        "Once upon a time.").result = generateSilenceWAV 2000 ∧
      (generateAudioNarration (some "sk-test") (fun _ => .rejected serverFault)
        "Once upon a time.").result ≠ .error (newError ("TTS failed: " ++ serverFault.message)) := by
  obtain ⟨wav, hwav, -⟩ := silence_2000
  have hincl : (jsIncludes serverFault.message "401" || jsIncludes serverFault.message "403") =
      true := by decide
  rw [generateAudioNarration_rejected (some "sk-test") (fun _ => .rejected serverFault)
    "Once upon a time." serverFault (by decide) rfl, hincl]
  refine ⟨by decide, by decide, rfl, ?_⟩
  simp [hwav]

/-- The part of C7 that holds: a rejection whose message contains neither `401` nor `403`
raises `TTS failed: ` followed by the message. -/
theorem generateAudioNarration_other_failure (apiKey : Option String) (voice : VoiceService)
    (story : String) (error : JsError) (hkey : falsy apiKey = false)
    (hcall : voice (voiceRequest story) = .rejected error)
    (h401 : jsIncludes error.message "401" = false)
    (h403 : jsIncludes error.message "403" = false) :
    (generateAudioNarration apiKey voice story).result =
      .error (newError ("TTS failed: " ++ error.message)) := by
  rw [generateAudioNarration_rejected apiKey voice story error hkey hcall]
  simp [h401, h403]

theorem generateAudioNarration_of_empty_stream (apiKey : Option String) (voice : VoiceService)
    (story : String) (chunks : List Buffer) (hkey : falsy apiKey = false)
    (hstream : voice (voiceRequest story) = .stream chunks none)
    (hempty : chunks.flatten = []) :
    (generateAudioNarration apiKey voice story).result =
      .error (newError "TTS failed: Generated audio is empty") := by
  have hincl : (jsIncludes "Generated audio is empty" "401" ||
      jsIncludes "Generated audio is empty" "403") = false := by decide
  have hread := readStream_done chunks []
  simp only [List.nil_append] at hread
  simp [generateAudioNarration, generateAudioNarration.tryBlock, hkey, hstream, hread,
    bufferConcat, hempty, newError, hincl]

theorem generateAudioNarration_of_stream (apiKey : Option String) (voice : VoiceService)
    (story : String) (chunks : List Buffer) (hkey : falsy apiKey = false)
    (hstream : voice (voiceRequest story) = .stream chunks none)
    (hbytes : chunks.flatten ≠ []) :
    (generateAudioNarration apiKey voice story).result = .ok chunks.flatten := by
  have hread := readStream_done chunks []
  simp only [List.nil_append] at hread
  have hlen : ¬ chunks.flatten.length = 0 := fun h => hbytes (List.length_eq_zero.mp h)
  simp only [generateAudioNarration, generateAudioNarration.tryBlock, hkey, hstream, hread,
    bufferConcat, hlen, if_false]
  simp

/-- C8, as stated, fails: when the stream ends without a byte the error raised is not
`Generated audio is empty` but that message wrapped by the function's own `catch`,
`TTS failed: Generated audio is empty`. -/
theorem generateAudioNarration_empty_stream_wrapped :
    (generateAudioNarration (some "sk-test") emptyStreamVoice "Once upon a time.").result =
        .error (newError "TTS failed: Generated audio is empty") ∧
      (generateAudioNarration (some "sk-test") emptyStreamVoice "Once upon a time.").result ≠
        .error (newError "Generated audio is empty") := by
  have hincl : (jsIncludes "Generated audio is empty" "401" ||
      jsIncludes "Generated audio is empty" "403") = false := by decide
  have hrun : (generateAudioNarration (some "sk-test") emptyStreamVoice
      "Once upon a time.").result = .error (newError "TTS failed: Generated audio is empty") := by
    simp [generateAudioNarration, generateAudioNarration.tryBlock, falsy, emptyStreamVoice,
      readStream, bufferConcat, newError, hincl]
  rw [hrun]
  exact ⟨rfl, by decide⟩

/-- C8 (amended). With a credential configured, when the voice service's byte stream ends
having delivered zero bytes in total, `generateAudioNarration` fails with
`TTS failed: Generated audio is empty` (the empty-audio error wrapped as a synthesis
failure); when the stream delivers at least one byte it returns the concatenation of all
chunks in order; it never returns an empty buffer. -/
theorem generateAudioNarration_stream (apiKey : Option String) (voice : VoiceService)
    (story : String) (chunks : List Buffer) (hkey : falsy apiKey = false)
    (hstream : voice (voiceRequest story) = .stream chunks none) :
    (chunks.flatten = [] → (generateAudioNarration apiKey voice story).result =
        .error (newError "TTS failed: Generated audio is empty")) ∧
      (chunks.flatten ≠ [] →
        (generateAudioNarration apiKey voice story).result = .ok chunks.flatten) ∧
      (generateAudioNarration apiKey voice story).result ≠ .ok [] := by
  by_cases hempty : chunks.flatten = []
  · rw [generateAudioNarration_of_empty_stream apiKey voice story chunks hkey hstream hempty]
    exact ⟨fun _ => rfl, fun h => absurd hempty h, by simp⟩
  · rw [generateAudioNarration_of_stream apiKey voice story chunks hkey hstream hempty]
    exact ⟨fun h => absurd h hempty, fun _ => rfl, by simpa using hempty⟩

/-- C8, witness: three chunks, one of them empty, come back concatenated in order. -/
theorem generateAudioNarration_stream_witness :
    (generateAudioNarration (some "sk-test") threeChunkVoice "Once upon a time.").result =
      .ok [0x49, 0x44, 0x33] :=
  (generateAudioNarration_stream (some "sk-test") threeChunkVoice "Once upon a time."
    [[0x49, 0x44], [], [0x33]] (by decide) rfl).2.1 (by decide)

/-! ## The duration estimate -/

theorem estimatedDuration_eq_div (length : Nat) :
    estimatedDuration length = (((2 * length + 3000) / 6000 : Nat) : ℤ) := by
  unfold estimatedDuration mathRound
  have h : (length : ℚ) / 24000 * 8 + 1 / 2 = ((2 * length + 3000 : Nat) : ℚ) / ((6000 : Nat) : ℚ) := by
    push_cast
    ring
  rw [h, Rat.floor_natCast_div_natCast]
  norm_cast

theorem estimatedDuration_48000 : estimatedDuration 48000 = 16 := by
  rw [estimatedDuration_eq_div]
  norm_num

/-- C9. For every audio byte length `n`, the recorded duration is the integer nearest to
`n / 24000 * 8 = n / 3000`, a tie rounding up; it is non-negative and non-decreasing in `n`;
for 24000 bytes it is 8 and for 48000 bytes it is 16. -/
theorem estimatedDuration_nearest (m n : Nat) (hmn : m ≤ n) :
    (n : ℚ) / 24000 * 8 = (n : ℚ) / 3000 ∧
      (n : ℚ) / 3000 - 1 / 2 < (estimatedDuration n : ℚ) ∧
      (estimatedDuration n : ℚ) ≤ (n : ℚ) / 3000 + 1 / 2 ∧
      0 ≤ estimatedDuration n ∧
      estimatedDuration m ≤ estimatedDuration n ∧
      estimatedDuration 24000 = 8 ∧ estimatedDuration 48000 = 16 := by
  have hq : (n : ℚ) / 24000 * 8 = (n : ℚ) / 3000 := by ring
  have hfloor : estimatedDuration n = ⌊(n : ℚ) / 3000 + 1 / 2⌋ := by
    unfold estimatedDuration mathRound
    rw [hq]
  refine ⟨hq, ?_, ?_, ?_, ?_, ?_, ?_⟩
  · have h := Int.lt_floor_add_one ((n : ℚ) / 3000 + 1 / 2)
    rw [hfloor]
    linarith
  · rw [hfloor]
    exact Int.floor_le _
  · rw [estimatedDuration_eq_div]
    exact Int.natCast_nonneg _
  · rw [estimatedDuration_eq_div, estimatedDuration_eq_div]
    have h : (2 * m + 3000) / 6000 ≤ (2 * n + 3000) / 6000 :=
      Nat.div_le_div_right (by omega)
    exact_mod_cast h
  · rw [estimatedDuration_eq_div]
    norm_num
  · rw [estimatedDuration_eq_div]
    norm_num

/-- C9, witness: 24000 bytes give 8 and 48000 bytes give 16. -/
theorem estimatedDuration_nearest_witness :
    estimatedDuration 24000 ≤ estimatedDuration 48000 ∧
      estimatedDuration 24000 = 8 ∧ estimatedDuration 48000 = 16 :=
  ⟨(estimatedDuration_nearest 24000 48000 (by decide)).2.2.2.2.1,
    (estimatedDuration_nearest 24000 48000 (by decide)).2.2.2.2.2.1,
    (estimatedDuration_nearest 24000 48000 (by decide)).2.2.2.2.2.2⟩

/-! ## The orchestrator -/

theorem Store.get_map_patch (id : String) (patch : Patch) (doc : StoryDoc) :
    ∀ store : Store, store.get id = some doc →
      Store.get (store.map fun entry =>
        if entry.1 == id then (entry.1, applyPatch entry.2 patch) else entry) id =
        some (applyPatch doc patch) := by
  intro store
  induction store with
  | nil => intro hget; simp [Store.get] at hget
  | cons entry rest ih =>
    intro hget
    unfold Store.get at hget ih ⊢
    simp only [List.map_cons, List.find?_cons] at hget ⊢
    cases hid : entry.1 == id with
    | true =>
      simp only [hid, Option.map_some', Option.some.injEq, if_true] at hget ⊢
      rw [hget]
    | false =>
      simp only [hid, Bool.false_eq_true, if_false] at hget ⊢
      exact ih hget

theorem Store.get_update (store : Store) (id : String) (patch : Patch) (doc : StoryDoc)
    (hget : store.get id = some doc) :
    ∃ updated, store.update none id patch = .ok updated ∧
      updated.get id = some (applyPatch doc patch) :=
  ⟨_, by simp [Store.update, hget], Store.get_map_patch id patch doc store hget⟩

theorem jsTrim_length_ne_zero (story : String) (h : isBlank (some story) = false) :
    ¬ (story = "" ∨ (jsTrim story).length = 0) := by
  have htrim : jsTrim story ≠ "" := by simpa [isBlank] using h
  intro hor
  rcases hor with h0 | h0
  · subst h0
    exact htrim jsTrim_empty
  · apply htrim
    have hdata : (jsTrim story).data = [] := List.length_eq_zero.mp h0
    exact String.ext hdata

/-- C10. In every run of `generateStory` in which the generator returns a non-blank story
`s`, the synthesizer returns the bytes `b`, the publisher returns the URL `u` and both store
writes succeed on the existing record, the record ends with status `completed`,
`aiStory = s`, `audioUrl = u` and `duration = round(|b| / 24000 * 8)`, its `updatedAt`
refreshed and its other fields untouched, and the run returns `storyId`, `u` and that
duration. -/
theorem generateStory_completes (env : Env) (store : Store)
    (storyId userId topic doubt : String) (complexity : Option String)
    (s : String) (b : Buffer) (u : String) (doc : StoryDoc)
    (hgen : (generateStoryWithLLM env.completion topic doubt complexity).result = .ok (some s))
    (hs : isBlank (some s) = false)
    (htts : (generateAudioNarration env.apiKey env.voice s).result = .ok b)
    (hup : (uploadAudioToCloud env.storage b storyId).result = .ok u)
    (hdoc : store.get storyId = some doc)
    (hw0 : env.storeFailure 0 = none) (hw1 : env.storeFailure 1 = none) :
    (generateStory env store storyId userId topic doubt complexity).result =
        .ok ⟨storyId, u, estimatedDuration b.length⟩ ∧
      (generateStory env store storyId userId topic doubt complexity).store.get storyId =
        some { doc with
          status := "completed", aiStory := some s, audioUrl := some u,
          duration := some (estimatedDuration b.length), updatedAt := env.clock 1 } := by
  have hnonblank := jsTrim_length_ne_zero s hs
  obtain ⟨store1, hupd1, hget1⟩ := Store.get_update store storyId
    { aiStory := some s, updatedAt := some (env.clock 0) } doc hdoc
  obtain ⟨store2, hupd2, hget2⟩ := Store.get_update store1 storyId
    { status := some "completed", audioUrl := some u,
      duration := some (estimatedDuration b.length), updatedAt := some (env.clock 1) } _ hget1
  have hresult : (generateStory env store storyId userId topic doubt complexity).result =
      .ok ⟨storyId, u, estimatedDuration b.length⟩ := by
    simp only [generateStory, hgen, hnonblank, if_false, hw0, hupd1, htts, hup, hw1, hupd2]
  have hstore : (generateStory env store storyId userId topic doubt complexity).store =
      store2 := by
    simp only [generateStory, hgen, hnonblank, if_false, hw0, hupd1, htts, hup, hw1, hupd2]
  rw [hresult, hstore, hget2]
  refine ⟨rfl, ?_⟩
  simp [applyPatch]

/-- C10, witness: the end-to-end scenario. With the story `A short story...`, 48000 bytes of
audio and the URL `https://cdn.example/story.mp3`, the run returns duration 16 and the
record ends `completed` with that URL and duration 16. -/
theorem generateStory_completes_witness :
    (generateStory mockEnv [("story-1", processingDoc)] "story-1" "user-1" "Gravity"
        "Why do things fall?" (some "easy")).result =
        .ok ⟨"story-1", "https://cdn.example/story.mp3", 16⟩ ∧
      (generateStory mockEnv [("story-1", processingDoc)] "story-1" "user-1" "Gravity"
        "Why do things fall?" (some "easy")).store.get "story-1" =
        some { processingDoc with
          status := "completed", aiStory := some "A short story...",
          audioUrl := some "https://cdn.example/story.mp3",
          duration := some 16, updatedAt := 2001 } := by
  have htrim : jsTrim "A short story..." = "A short story..." := by decide
  have hcompletion : mockEnv.completion = fun _ _ => .response (some "A short story...") := rfl
  have hlength : mockAudio.length = 48000 := List.length_replicate 48000 0
  have hbytes : [mockAudio].flatten ≠ [] := by
    intro h
    have h0 : [mockAudio].flatten.length = 0 := by rw [h]; rfl
    simp [hlength] at h0
  have hgen : (generateStoryWithLLM mockEnv.completion "Gravity" "Why do things fall?"
      (some "easy")).result = .ok (some "A short story...") := by
    simp [generateStoryWithLLM, generateStoryWithLLM.loop, tryAttempt, maxRetries, hcompletion,
      htrim]
  have htts : (generateAudioNarration mockEnv.apiKey mockEnv.voice "A short story...").result =
      .ok mockAudio := by
    have h := generateAudioNarration_of_stream mockEnv.apiKey mockEnv.voice "A short story..."
      [mockAudio] (by decide) rfl hbytes
    simpa using h
  have h := generateStory_completes mockEnv [("story-1", processingDoc)] "story-1" "user-1"
    "Gravity" "Why do things fall?" (some "easy") "A short story..." mockAudio
    "https://cdn.example/story.mp3" processingDoc hgen (by decide) htts rfl (by decide) rfl rfl
  rw [hlength, estimatedDuration_48000] at h
  exact h

/-! ## Lemmas on strings -/

theorem jsLength_eq_zero (s : String) : jsLength s = 0 ↔ s = "" := by
  constructor
  · intro h
    have hdata : s.data = [] := by
      cases hd : s.data with
      | nil => rfl
      | cons c rest =>
        simp only [jsLength, hd, List.map_cons, List.sum_cons] at h
        split at h <;> omega
    exact String.ext hdata
  · intro h
    subst h
    rfl

theorem jsTrim_data (s : String) :
    (jsTrim s).data = (s.data.dropWhile isJsWhitespace).rdropWhile isJsWhitespace := rfl

theorem jsTrim_idempotent (s : String) : jsTrim (jsTrim s) = jsTrim s := by
  apply String.ext
  rw [jsTrim_data (jsTrim s), jsTrim_data s]
  generalize hl : s.data.dropWhile isJsWhitespace = l
  have hhead : ∀ hpos : 0 < l.length, ¬ isJsWhitespace (l.get ⟨0, hpos⟩) = true := by
    intro hpos
    subst hl
    exact List.dropWhile_get_zero_not isJsWhitespace s.data hpos
  have hself : (l.rdropWhile isJsWhitespace).dropWhile isJsWhitespace =
      l.rdropWhile isJsWhitespace := by
    obtain ⟨t, ht⟩ := List.rdropWhile_prefix isJsWhitespace (l := l)
    cases hr : l.rdropWhile isJsWhitespace with
    | nil => rfl
    | cons c r =>
      rw [hr] at ht
      subst ht
      have hc := hhead (by simp)
      simp only [List.cons_append, List.get_eq_getElem, List.getElem_cons_zero] at hc
      simp [List.dropWhile, hc]
  rw [hself, List.rdropWhile_idempotent]

theorem append_ne_empty (a b : String) (ha : a ≠ "") : a ++ b ≠ "" := by
  intro h
  apply ha
  have hdata : (a ++ b).data = [] := by rw [h]
  rw [String.data_append] at hdata
  exact String.ext (List.append_eq_nil.mp hdata).1

theorem append_left_cancel (a b c : String) (h : a ++ b = a ++ c) : b = c := by
  have hdata : (a ++ b).data = (a ++ c).data := by rw [h]
  rw [String.data_append, String.data_append] at hdata
  exact String.ext (List.append_cancel_left hdata)

/-! ## The artifact publisher -/

theorem uploadAudioToCloud_request (storage : ObjectStorage) (audioBuffer : Buffer)
    (storyId : String) :
    uploadAudioToCloud storage audioBuffer storyId =
      ⟨match storage ⟨audioBuffer, "rapidlearnai/audio-stories/" ++ storyId, "video"⟩ with
        | .ok audioUrl => .ok audioUrl
        | .error error => .error (newError ("Upload to cloud failed: " ++ error.message)),
        [.upload ⟨audioBuffer, "rapidlearnai/audio-stories/" ++ storyId, "video"⟩]⟩ := by
  have hfolder : "rapidlearnai/audio-stories/" ++ storyId ≠ "" :=
    append_ne_empty _ _ (by decide)
  simp only [uploadAudioToCloud, uploadAudio, uploadToCloudinary, orDefault, hfolder, if_false]
  cases storage ⟨audioBuffer, "rapidlearnai/audio-stories/" ++ storyId, "video"⟩ <;> rfl

/-- C17. For every audio buffer and story id, `uploadAudioToCloud` makes exactly one upload
request, to the folder `rapidlearnai/audio-stories/` followed by the id, a path fixed by the
id alone and different for different ids; it returns the URL the storage reports, and when
the upload fails it raises `Upload to cloud failed: ` followed by the underlying message. -/
theorem uploadAudioToCloud_once (storage : ObjectStorage) (audioBuffer : Buffer)
    (storyId otherId : String) :
    (uploadAudioToCloud storage audioBuffer storyId).trace =
        [.upload ⟨audioBuffer, "rapidlearnai/audio-stories/" ++ storyId, "video"⟩] ∧
      uploads (uploadAudioToCloud storage audioBuffer storyId).trace = 1 ∧
      (uploadAudioToCloud storage audioBuffer storyId).result =
        (match storage ⟨audioBuffer, "rapidlearnai/audio-stories/" ++ storyId, "video"⟩ with
          | .ok audioUrl => .ok audioUrl
          | .error error => .error (newError ("Upload to cloud failed: " ++ error.message))) ∧
      ("rapidlearnai/audio-stories/" ++ storyId = "rapidlearnai/audio-stories/" ++ otherId ↔
        storyId = otherId) := by
  rw [uploadAudioToCloud_request]
  refine ⟨rfl, rfl, rfl, ?_⟩
  constructor
  · exact append_left_cancel _ _ _
  · intro h
    rw [h]

/-! ## Reading and deleting a story -/

theorem not_blank_id (storyId : String) (h : isBlank (some storyId) = false) :
    ¬ (storyId = "" ∨ jsLength (jsTrim storyId) = 0) := by
  have htrim : jsTrim storyId ≠ "" := by simpa [isBlank] using h
  intro hor
  rcases hor with h0 | h0
  · subst h0
    exact htrim jsTrim_empty
  · exact htrim ((jsLength_eq_zero _).mp h0)

theorem Store.get_filter_self (store : Store) (id : String) :
    Store.get (store.filter fun entry => !(entry.1 == id)) id = none := by
  induction store with
  | nil => rfl
  | cons entry rest ih =>
    unfold Store.get at ih ⊢
    cases hid : entry.1 == id with
    | true => simp [List.filter_cons, hid]
    | false => simp [List.filter_cons, hid, List.find?_cons]

theorem Store.get_filter_other (store : Store) (id other : String) (hne : other ≠ id) :
    Store.get (store.filter fun entry => !(entry.1 == id)) other = store.get other := by
  induction store with
  | nil => rfl
  | cons entry rest ih =>
    unfold Store.get at ih ⊢
    cases hid : entry.1 == id with
    | true =>
      have hother : (entry.1 == other) = false := by
        have h1 : entry.1 = id := by simpa using hid
        simp [h1, Ne.symm hne]
      simpa [List.filter_cons, hid, List.find?_cons, hother] using ih
    | false =>
      cases hother : entry.1 == other with
      | true => simp [List.filter_cons, hid, List.find?_cons, hother]
      | false => simpa [List.filter_cons, hid, List.find?_cons, hother] using ih

theorem deleteStory_absent (deleteFailure : Option JsError) (store : Store)
    (storyId userId : String) (hid : isBlank (some storyId) = false)
    (habsent : store.get storyId = none) :
    deleteStory none deleteFailure store storyId userId =
      ⟨⟨404, .error "Story not found"⟩, store⟩ := by
  simp [deleteStory, not_blank_id storyId hid, Store.read, habsent]

/-- C18, as stated, fails: for the blank id `" "`, absent from the empty store,
`deleteStory` responds 400 `Invalid story ID`, not 404. -/
theorem deleteStory_blank_id :
    Store.get [] " " = none ∧
      (deleteStory none none [] " " "user-1").response = ⟨400, .error "Invalid story ID"⟩ ∧
      (deleteStory none none [] " " "user-1").response ≠ ⟨404, .error "Story not found"⟩ := by
  have htrim : jsTrim " " = "" := by decide
  have hlen : jsLength "" = 0 := rfl
  simp [deleteStory, htrim, hlen, Store.get]

/-- C18 (amended). When the store answers, for every story id that is not blank and is
absent from the store, `deleteStory` responds 404 `Story not found` and leaves the store
unchanged; consequently, when the owner deletes an existing record twice in a row, the
first request succeeds and the second responds not-found. -/
theorem deleteStory_not_found (store : Store) (storyId userId : String)
    (deleteFailure : Option JsError) (hid : isBlank (some storyId) = false) :
    (store.get storyId = none →
        deleteStory none deleteFailure store storyId userId =
          ⟨⟨404, .error "Story not found"⟩, store⟩) ∧
      (∀ doc, store.get storyId = some doc → doc.userId = userId →
        (deleteStory none none store storyId userId).response =
            ⟨200, .deleted "Story deleted successfully" storyId⟩ ∧
          (deleteStory none none store storyId userId).store.get storyId = none ∧
          deleteStory none deleteFailure (deleteStory none none store storyId userId).store
              storyId userId =
            ⟨⟨404, .error "Story not found"⟩,
              (deleteStory none none store storyId userId).store⟩) := by
  refine ⟨deleteStory_absent deleteFailure store storyId userId hid, ?_⟩
  intro doc hdoc howner
  have hfirst : deleteStory none none store storyId userId =
      ⟨⟨200, .deleted "Story deleted successfully" storyId⟩,
        store.filter fun entry => !(entry.1 == storyId)⟩ := by
    simp [deleteStory, not_blank_id storyId hid, Store.read, hdoc, howner, Store.delete]
  rw [hfirst]
  exact ⟨rfl, Store.get_filter_self store storyId,
    deleteStory_absent deleteFailure _ storyId userId hid (Store.get_filter_self store storyId)⟩

/-- C18, witness: the owner deletes `story-1` twice; the second request is not found. -/
theorem deleteStory_not_found_witness :
    (deleteStory none none oneStory "story-1" "user-1").response =
        ⟨200, .deleted "Story deleted successfully" "story-1"⟩ ∧
      deleteStory none none (deleteStory none none oneStory "story-1" "user-1").store
          "story-1" "user-1" =
        ⟨⟨404, .error "Story not found"⟩,
          (deleteStory none none oneStory "story-1" "user-1").store⟩ :=
  ⟨((deleteStory_not_found oneStory "story-1" "user-1" none (by decide)).2
      processingDoc (by decide) rfl).1,
    ((deleteStory_not_found oneStory "story-1" "user-1" none (by decide)).2
      processingDoc (by decide) rfl).2.2⟩

theorem getStoryStatus_of_other (getFailure : Option JsError) (store : Store)
    (storyId userId : String) (doc : StoryDoc) (hid : isBlank (some storyId) = false)
    (hdoc : store.get storyId = some doc) (hother : doc.userId ≠ userId) :
    getStoryStatus getFailure store storyId userId =
      match getFailure with
      | none => ⟨403, .error "Unauthorized"⟩
      | some _ => ⟨500, .error "Failed to fetch story"⟩ := by
  cases getFailure <;>
    simp [getStoryStatus, not_blank_id storyId hid, Store.read, hdoc, hother]

theorem deleteStory_of_other (getFailure deleteFailure : Option JsError) (store : Store)
    (storyId userId : String) (doc : StoryDoc) (hid : isBlank (some storyId) = false)
    (hdoc : store.get storyId = some doc) (hother : doc.userId ≠ userId) :
    deleteStory getFailure deleteFailure store storyId userId =
      match getFailure with
      | none => ⟨⟨403, .error "Unauthorized"⟩, store⟩
      | some _ => ⟨⟨500, .error "Failed to delete story"⟩, store⟩ := by
  cases getFailure <;>
    simp [deleteStory, not_blank_id storyId hid, Store.read, hdoc, hother]

theorem deleteStory_removes_only_for_owner (getFailure deleteFailure : Option JsError)
    (store : Store) (storyId userId : String) (doc : StoryDoc)
    (hdoc : store.get storyId = some doc)
    (hgone : (deleteStory getFailure deleteFailure store storyId userId).store.get storyId =
      none) : doc.userId = userId := by
  by_contra hother
  have hstore : (deleteStory getFailure deleteFailure store storyId userId).store = store := by
    unfold deleteStory
    split
    · rfl
    · cases getFailure with
      | some error => simp [Store.read]
      | none => simp [Store.read, hdoc, hother]
  rw [hstore, hdoc] at hgone
  exact Option.noConfusion hgone

/-- C19. For every existing record (stored under its non-blank id) whose `userId` differs
from the authenticated caller's, `getStoryStatus` and `deleteStory` respond 403
`Unauthorized` when the store answers the read; whatever the store does, the response is the
same for every content of the record (no field is disclosed) and the store is left
unchanged; and a record disappears from the store through `deleteStory` only when the
caller is its owner. -/
theorem unauthorized_access (store : Store) (storyId userId : String) (doc : StoryDoc)
    (hid : isBlank (some storyId) = false)
    (hdoc : store.get storyId = some doc) (hother : doc.userId ≠ userId) :
    getStoryStatus none store storyId userId = ⟨403, .error "Unauthorized"⟩ ∧
      (∀ deleteFailure, deleteStory none deleteFailure store storyId userId =
        ⟨⟨403, .error "Unauthorized"⟩, store⟩) ∧
      (∀ getFailure deleteFailure,
        (deleteStory getFailure deleteFailure store storyId userId).store = store) ∧
      (∀ getFailure deleteFailure (other : Store) (secret : StoryDoc),
        other.get storyId = some secret → secret.userId ≠ userId →
          getStoryStatus getFailure other storyId userId =
            getStoryStatus getFailure store storyId userId ∧
          (deleteStory getFailure deleteFailure other storyId userId).response =
            (deleteStory getFailure deleteFailure store storyId userId).response) ∧
      (∀ getFailure deleteFailure (any : Store) (caller : String) (record : StoryDoc),
        any.get storyId = some record →
          (deleteStory getFailure deleteFailure any storyId caller).store.get storyId = none →
          record.userId = caller) := by
  refine ⟨?_, ?_, ?_, ?_, ?_⟩
  · rw [getStoryStatus_of_other none store storyId userId doc hid hdoc hother]
  · intro deleteFailure
    rw [deleteStory_of_other none deleteFailure store storyId userId doc hid hdoc hother]
  · intro getFailure deleteFailure
    rw [deleteStory_of_other getFailure deleteFailure store storyId userId doc hid hdoc hother]
    cases getFailure <;> rfl
  · intro getFailure deleteFailure other secret hsecret hnot
    rw [getStoryStatus_of_other getFailure other storyId userId secret hid hsecret hnot,
      getStoryStatus_of_other getFailure store storyId userId doc hid hdoc hother,
      deleteStory_of_other getFailure deleteFailure other storyId userId secret hid hsecret hnot,
      deleteStory_of_other getFailure deleteFailure store storyId userId doc hid hdoc hother]
    cases getFailure <;> exact ⟨rfl, rfl⟩
  · intro getFailure deleteFailure any caller record hrecord hgone
    exact deleteStory_removes_only_for_owner getFailure deleteFailure any storyId caller record
      hrecord hgone

/-- C19, witness: another user asks for `story-1` and then tries to delete it; both requests
get 403 and the record stays. -/
theorem unauthorized_access_witness :
    getStoryStatus none completedStory "story-1" "user-2" = ⟨403, .error "Unauthorized"⟩ ∧
      deleteStory none none completedStory "story-1" "user-2" =
        ⟨⟨403, .error "Unauthorized"⟩, completedStory⟩ :=
  ⟨(unauthorized_access completedStory "story-1" "user-2" _ (by decide) rfl (by decide)).1,
    (unauthorized_access completedStory "story-1" "user-2" _ (by decide) rfl (by decide)).2.1
      none⟩

/-! ## What each stage does to the outside world -/

theorem loop_generator_effects (post : Nat → CompletionOutcome) (request : CompletionRequest)
    (m : Nat) : ∀ (retries calls : Nat) (trace : List Effect), 3 - retries ≤ m →
      (∀ e ∈ trace, isGeneratorEffect e = true) →
      ∀ e ∈ (generateStoryWithLLM.loop post request retries calls trace).trace,
        isGeneratorEffect e = true := by
  induction m with
  | zero =>
    intro retries calls trace hm htrace
    have hge : ¬ retries < 3 := by omega
    rw [generateStoryWithLLM.loop]
    simpa [maxRetries, hge] using htrace
  | succ m ih =>
    intro retries calls trace hm htrace
    have hcall : ∀ e ∈ trace ++ [Effect.llmCall request], isGeneratorEffect e = true := by
      intro e he
      rcases List.mem_append.mp he with h | h
      · exact htrace e h
      · simp only [List.mem_singleton] at h
        subst h
        rfl
    have hwait : ∀ ms, ∀ e ∈ trace ++ [Effect.llmCall request, Effect.sleep ms],
        isGeneratorEffect e = true := by
      intro ms e he
      rcases List.mem_append.mp he with h | h
      · exact htrace e h
      · simp only [List.mem_cons, List.mem_singleton, List.not_mem_nil, or_false] at h
        rcases h with h | h <;> subst h <;> rfl
    rw [generateStoryWithLLM.loop]
    by_cases hlt : retries < 3
    · simp only [maxRetries, hlt, if_true]
      cases hattempt : tryAttempt (post calls) with
      | ok story => exact hcall
      | error error =>
        simp only []
        by_cases h429 : error.status = some 429
        · simp only [h429, if_true]
          exact ih _ _ _ (by omega) (hwait _)
        · simp only [h429, if_false]
          by_cases hge : retries + 1 ≥ 3
          · simp only [hge, if_true]
            exact hcall
          · simp only [hge, if_false]
            exact ih _ _ _ (by omega) (hwait _)
    · simpa [maxRetries, hlt] using htrace

theorem generator_effects (service : CompletionService) (topic doubt : String)
    (complexity : Option String) :
    ∀ e ∈ (generateStoryWithLLM service topic doubt complexity).trace,
      isGeneratorEffect e = true :=
  loop_generator_effects _ _ 3 0 0 [] (by omega) (by simp)

theorem generator_effects_counts (trace : List Effect)
    (h : ∀ e ∈ trace, isGeneratorEffect e = true) :
    storeUpdates trace = 0 ∧ voiceCalls trace = 0 ∧ uploads trace = 0 ∧
      trace.filter isStoreEffect = [] ∧ updatesOf trace = [] := by
  induction trace with
  | nil => exact ⟨rfl, rfl, rfl, rfl, rfl⟩
  | cons e rest ih =>
    have he := h e (List.mem_cons_self e rest)
    obtain ⟨h1, h2, h3, h4, h5⟩ := ih (fun x hx => h x (List.mem_cons_of_mem e hx))
    unfold storeUpdates voiceCalls uploads updatesOf at *
    cases e <;> simp_all [isGeneratorEffect, isStoreEffect]

theorem generateStoryWithLLM_not_blank (service : CompletionService) (topic doubt : String)
    (complexity : Option String) (story : String)
    (h : (generateStoryWithLLM service topic doubt complexity).result = .ok (some story)) :
    isBlank (some story) = false := by
  have key : ∀ (m retries calls : Nat) (trace : List Effect) (post : Nat → CompletionOutcome)
      (request : CompletionRequest), 3 - retries ≤ m →
      (generateStoryWithLLM.loop post request retries calls trace).result = .ok (some story) →
      isBlank (some story) = false := by
    intro m
    induction m with
    | zero =>
      intro retries calls trace post request hm hres
      have hge : ¬ retries < 3 := by omega
      rw [generateStoryWithLLM.loop] at hres
      simp [maxRetries, hge] at hres
    | succ m ih =>
      intro retries calls trace post request hm hres
      rw [generateStoryWithLLM.loop] at hres
      by_cases hlt : retries < 3
      · simp only [maxRetries, hlt, if_true] at hres
        cases hattempt : tryAttempt (post calls) with
        | ok text =>
          simp only [hattempt, Except.ok.injEq, Option.some.injEq] at hres
          subst hres
          cases hpost : post calls with
          | rejected error => simp [hpost, tryAttempt] at hattempt
          | response content =>
            cases content with
            | none => simp [hpost, tryAttempt] at hattempt
            | some raw =>
              by_cases ht : jsTrim raw = ""
              · simp [hpost, tryAttempt, ht] at hattempt
              · simp only [hpost, tryAttempt, Option.map_some', ht, if_false,
                  Except.ok.injEq] at hattempt
                subst hattempt
                simp [isBlank, jsTrim_idempotent, ht]
        | error error =>
          simp only [hattempt] at hres
          by_cases h429 : error.status = some 429
          · simp only [h429, if_true] at hres
            exact ih _ _ _ _ _ (by omega) hres
          · simp only [h429, if_false] at hres
            by_cases hge : retries + 1 ≥ 3
            · simp [hge] at hres
            · simp only [hge, if_false] at hres
              exact ih _ _ _ _ _ (by omega) hres
      · simp [maxRetries, hlt] at hres
  exact key 3 0 0 [] _ _ (by omega) h

theorem narration_effects (apiKey : Option String) (voice : VoiceService) (story : String) :
    (generateAudioNarration apiKey voice story).trace = [] ∨
      (generateAudioNarration apiKey voice story).trace = [.voiceCall (voiceRequest story)] := by
  have htry : (generateAudioNarration.tryBlock apiKey voice story).trace = [] ∨
      (generateAudioNarration.tryBlock apiKey voice story).trace =
        [.voiceCall (voiceRequest story)] := by
    unfold generateAudioNarration.tryBlock
    split
    · exact Or.inl rfl
    · simp only []
      split
      · exact Or.inr rfl
      · split
        · exact Or.inr rfl
        · split <;> exact Or.inr rfl
  have hsame : (generateAudioNarration apiKey voice story).trace =
      (generateAudioNarration.tryBlock apiKey voice story).trace := by
    unfold generateAudioNarration
    simp only []
    split
    · rfl
    · split <;> rfl
  rw [hsame]
  exact htry

theorem narration_effects_counts (apiKey : Option String) (voice : VoiceService)
    (story : String) :
    storeUpdates (generateAudioNarration apiKey voice story).trace = 0 ∧
      uploads (generateAudioNarration apiKey voice story).trace = 0 ∧
      (generateAudioNarration apiKey voice story).trace.filter isStoreEffect = [] ∧
      updatesOf (generateAudioNarration apiKey voice story).trace = [] := by
  rcases narration_effects apiKey voice story with h | h <;> rw [h] <;>
    exact ⟨rfl, rfl, rfl, rfl⟩

/-! ## The runs of the orchestrator, case by case -/

theorem blank_story_check (aiStory : String) :
    (aiStory = "" ∨ (jsTrim aiStory).length = 0) ↔ isBlank (some aiStory) = true := by
  constructor
  · intro h
    rcases h with h | h
    · subst h
      rfl
    · have hdata : (jsTrim aiStory).data = [] := List.length_eq_zero.mp h
      have htrim : jsTrim aiStory = "" := String.ext hdata
      simp [isBlank, htrim]
  · intro h
    have htrim : jsTrim aiStory = "" := by simpa [isBlank] using h
    right
    rw [htrim]
    rfl

theorem generateStory_of_generator_error (env : Env) (store : Store)
    (storyId userId topic doubt : String) (complexity : Option String) (error : JsError)
    (hgen : (generateStoryWithLLM env.completion topic doubt complexity).result =
      .error error) :
    generateStory env store storyId userId topic doubt complexity =
      ⟨.error error, store,
        (generateStoryWithLLM env.completion topic doubt complexity).trace⟩ := by
  simp only [generateStory, hgen]

theorem generateStory_of_blank (env : Env) (store : Store)
    (storyId userId topic doubt : String) (complexity : Option String) (text : Option String)
    (hgen : (generateStoryWithLLM env.completion topic doubt complexity).result = .ok text)
    (hblank : isBlank text = true) :
    generateStory env store storyId userId topic doubt complexity =
      ⟨.error (newError "Empty story generated"), store,
        (generateStoryWithLLM env.completion topic doubt complexity).trace⟩ := by
  cases text with
  | none => simp only [generateStory, hgen]
  | some aiStory =>
    have hcheck := (blank_story_check aiStory).mpr hblank
    simp only [generateStory, hgen, hcheck, if_true]

theorem generateStory_of_story (env : Env) (store : Store)
    (storyId userId topic doubt : String) (complexity : Option String) (aiStory : String)
    (hgen : (generateStoryWithLLM env.completion topic doubt complexity).result =
      .ok (some aiStory)) :
    generateStory env store storyId userId topic doubt complexity =
      match store.update (env.storeFailure 0) storyId (storyPatch aiStory (env.clock 0)) with
      | .error error =>
        ⟨.error error, store,
          (generateStoryWithLLM env.completion topic doubt complexity).trace ++
            [.storeUpdate storyId (storyPatch aiStory (env.clock 0))]⟩
      | .ok saved =>
        match (generateAudioNarration env.apiKey env.voice aiStory).result with
        | .error error =>
          ⟨.error error, saved,
            (generateStoryWithLLM env.completion topic doubt complexity).trace ++
              [.storeUpdate storyId (storyPatch aiStory (env.clock 0))] ++
              (generateAudioNarration env.apiKey env.voice aiStory).trace⟩
        | .ok audioBuffer =>
          match (uploadAudioToCloud env.storage audioBuffer storyId).result with
          | .error error =>
            ⟨.error error, saved,
              (generateStoryWithLLM env.completion topic doubt complexity).trace ++
                [.storeUpdate storyId (storyPatch aiStory (env.clock 0))] ++
                (generateAudioNarration env.apiKey env.voice aiStory).trace ++
                (uploadAudioToCloud env.storage audioBuffer storyId).trace⟩
          | .ok audioUrl =>
            match saved.update (env.storeFailure 1) storyId
              (completedPatch audioUrl (estimatedDuration audioBuffer.length) (env.clock 1)) with
            | .error error =>
              ⟨.error error, saved,
                (generateStoryWithLLM env.completion topic doubt complexity).trace ++
                  [.storeUpdate storyId (storyPatch aiStory (env.clock 0))] ++
                  (generateAudioNarration env.apiKey env.voice aiStory).trace ++
                  (uploadAudioToCloud env.storage audioBuffer storyId).trace ++
                  [.storeUpdate storyId (completedPatch audioUrl
                    (estimatedDuration audioBuffer.length) (env.clock 1))]⟩
            | .ok final =>
              ⟨.ok ⟨storyId, audioUrl, estimatedDuration audioBuffer.length⟩, final,
                (generateStoryWithLLM env.completion topic doubt complexity).trace ++
                  [.storeUpdate storyId (storyPatch aiStory (env.clock 0))] ++
                  (generateAudioNarration env.apiKey env.voice aiStory).trace ++
                  (uploadAudioToCloud env.storage audioBuffer storyId).trace ++
                  [.storeUpdate storyId (completedPatch audioUrl
                    (estimatedDuration audioBuffer.length) (env.clock 1))]⟩ := by
  have hnot := generateStoryWithLLM_not_blank env.completion topic doubt complexity aiStory hgen
  have hcheck : ¬ (aiStory = "" ∨ (jsTrim aiStory).length = 0) := by
    rw [blank_story_check, hnot]
    simp
  simp only [generateStory, hgen, hcheck, if_false, storyPatch, completedPatch]

theorem upload_effects (storage : ObjectStorage) (audioBuffer : Buffer) (storyId : String) :
    (uploadAudioToCloud storage audioBuffer storyId).trace.filter isStoreEffect = [] ∧
      storeUpdates (uploadAudioToCloud storage audioBuffer storyId).trace = 0 := by
  rw [uploadAudioToCloud_request]
  exact ⟨rfl, rfl⟩

theorem pipeline_cases (env : Env) (store : Store) (storyId userId topic doubt : String)
    (complexity : Option String) :
    PipelineCase env store storyId
      (generateStory env store storyId userId topic doubt complexity) := by
  have hllm := (generator_effects_counts _
    (generator_effects env.completion topic doubt complexity)).2.2.2.1
  cases hgen : (generateStoryWithLLM env.completion topic doubt complexity).result with
  | error error =>
    rw [generateStory_of_generator_error env store storyId userId topic doubt complexity
      error hgen]
    exact .aborted error rfl rfl hllm
  | ok text =>
    cases htext : isBlank text with
    | true =>
      rw [generateStory_of_blank env store storyId userId topic doubt complexity text hgen
        htext]
      exact .aborted _ rfl rfl hllm
    | false =>
      cases text with
      | none => simp [isBlank] at htext
      | some aiStory =>
        have htts := (narration_effects_counts env.apiKey env.voice aiStory).2.2.1
        rw [generateStory_of_story env store storyId userId topic doubt complexity aiStory hgen]
        cases hsaved : store.update (env.storeFailure 0) storyId
            (storyPatch aiStory (env.clock 0)) with
        | error error =>
          exact .unsaved aiStory error htext hsaved rfl rfl (by simp [hllm, isStoreEffect])
        | ok saved =>
          dsimp only
          cases hnarr : (generateAudioNarration env.apiKey env.voice aiStory).result with
          | error error =>
            exact .stageFailed aiStory saved error htext hsaved rfl rfl
              (by simp [hllm, htts, isStoreEffect])
          | ok audioBuffer =>
            have hup := (upload_effects env.storage audioBuffer storyId).1
            dsimp only
            cases hupload : (uploadAudioToCloud env.storage audioBuffer storyId).result with
            | error error =>
              exact .stageFailed aiStory saved error htext hsaved rfl rfl
                (by simp [hllm, htts, hup, isStoreEffect])
            | ok audioUrl =>
              have hurl : env.storage
                  ⟨audioBuffer, "rapidlearnai/audio-stories/" ++ storyId, "video"⟩ =
                  .ok audioUrl := by
                rw [uploadAudioToCloud_request] at hupload
                simp only [] at hupload
                split at hupload
                · rename_i url hstorage
                  rw [hstorage]
                  exact hupload
                · exact Except.noConfusion hupload
              dsimp only
              cases hfinal : saved.update (env.storeFailure 1) storyId (completedPatch audioUrl
                  (estimatedDuration audioBuffer.length) (env.clock 1)) with
              | error error =>
                exact .unfinished aiStory saved _ audioUrl audioBuffer.length error htext hsaved
                  hurl hfinal rfl rfl (by simp [hllm, htts, hup, isStoreEffect])
              | ok final =>
                exact .completed aiStory saved final _ audioUrl audioBuffer.length htext hsaved
                  hurl hfinal rfl rfl (by simp [hllm, htts, hup, isStoreEffect])

/-! ## Replaying the writes of a run -/

theorem replay_filter (setFailure : Option JsError) (failure : Nat → Option JsError)
    (trace : List Effect) : ∀ (store : Store) (k : Nat),
      replay setFailure failure store k trace =
        replay setFailure failure store k (trace.filter isStoreEffect) := by
  induction trace with
  | nil => intro store k; rfl
  | cons e rest ih =>
    intro store k
    cases e with
    | llmCall request => simpa [replay, isStoreEffect] using ih store k
    | sleep ms => simpa [replay, isStoreEffect] using ih store k
    | voiceCall request => simpa [replay, isStoreEffect] using ih store k
    | upload request => simpa [replay, isStoreEffect] using ih store k
    | storeUpdate id patch =>
      simp only [replay, isStoreEffect, List.filter_cons_of_pos]
      cases store.update (failure k) id patch with
      | ok next => simp only [ih next (k + 1)]
      | error error => simp only [ih store (k + 1)]
    | storeSet id doc =>
      simp only [replay, isStoreEffect, List.filter_cons_of_pos]
      cases store.set setFailure id doc with
      | ok next => simp only [ih next k]
      | error error => simp only [ih store k]

theorem storeUpdates_filter (trace : List Effect) :
    storeUpdates trace = storeUpdates (trace.filter isStoreEffect) := by
  induction trace with
  | nil => rfl
  | cons e rest ih =>
    unfold storeUpdates at ih ⊢
    cases e <;> simp_all [isStoreEffect, List.filter_cons]

theorem updatesOf_filter (trace : List Effect) :
    updatesOf trace = updatesOf (trace.filter isStoreEffect) := by
  induction trace with
  | nil => rfl
  | cons e rest ih =>
    unfold updatesOf at ih ⊢
    cases e <;> simp_all [isStoreEffect, List.filter_cons, List.filterMap_cons]

theorem Store.update_ok_get (store updated : Store) (failure : Option JsError) (id : String)
    (patch : Patch) (doc : StoryDoc) (hdoc : store.get id = some doc)
    (hupdate : store.update failure id patch = .ok updated) :
    updated.get id = some (applyPatch doc patch) := by
  cases failure with
  | some error => simp [Store.update] at hupdate
  | none =>
    simp only [Store.update, hdoc, Except.ok.injEq] at hupdate
    rw [← hupdate]
    exact Store.get_map_patch id patch doc store hdoc

theorem Store.update_accepts (store : Store) (id : String) (patch : Patch) (doc : StoryDoc)
    (hdoc : store.get id = some doc) :
    store.update none id patch =
      .ok (store.map fun entry =>
        if entry.1 == id then (entry.1, applyPatch entry.2 patch) else entry) := by
  simp [Store.update, hdoc]

theorem Store.get_set (store created : Store) (failure : Option JsError) (id : String)
    (doc : StoryDoc) (hset : store.set failure id doc = .ok created) :
    created.get id = some doc := by
  cases failure with
  | some error => simp [Store.set] at hset
  | none =>
    simp only [Store.set, Except.ok.injEq] at hset
    rw [← hset]
    simp [Store.get]

theorem detached_of_ok (env : Env) (store : Store) (storyId userId topic doubt : String)
    (complexity : Option String) (value : StoryResult)
    (hrun : (generateStory env store storyId userId topic doubt complexity).result =
      .ok value) :
    createAudioStory.detached env store storyId userId topic doubt complexity =
      ⟨none, (generateStory env store storyId userId topic doubt complexity).store,
        (generateStory env store storyId userId topic doubt complexity).trace, []⟩ := by
  simp only [createAudioStory.detached, hrun]

theorem detached_of_error (env : Env) (store : Store) (storyId userId topic doubt : String)
    (complexity : Option String) (err : JsError)
    (hrun : (generateStory env store storyId userId topic doubt complexity).result =
      .error err) :
    createAudioStory.detached env store storyId userId topic doubt complexity =
      match (generateStory env store storyId userId topic doubt complexity).store.update
        (env.storeFailure
          (storeUpdates (generateStory env store storyId userId topic doubt complexity).trace))
        storyId (failedPatch err.message (env.clock
          (storeUpdates (generateStory env store storyId userId topic doubt complexity).trace)))
      with
      | .ok stored =>
        ⟨none, stored,
          (generateStory env store storyId userId topic doubt complexity).trace ++
            [.storeUpdate storyId (failedPatch err.message (env.clock (storeUpdates
              (generateStory env store storyId userId topic doubt complexity).trace)))],
          ["[AudioStory] " ++ storyId ++ " generation failed: " ++ err.message]⟩
      | .error updateErr =>
        ⟨none, (generateStory env store storyId userId topic doubt complexity).store,
          (generateStory env store storyId userId topic doubt complexity).trace ++
            [.storeUpdate storyId (failedPatch err.message (env.clock (storeUpdates
              (generateStory env store storyId userId topic doubt complexity).trace)))],
          ["[AudioStory] " ++ storyId ++ " generation failed: " ++ err.message,
            "[AudioStory] Failed to update error status: " ++ updateErr.message]⟩ := by
  simp only [createAudioStory.detached, hrun, failedPatch]

theorem detached_error_summary (env : Env) (store : Store)
    (storyId userId topic doubt : String) (complexity : Option String) (err : JsError)
    (hrun : (generateStory env store storyId userId topic doubt complexity).result =
      .error err) :
    (createAudioStory.detached env store storyId userId topic doubt complexity).trace =
        (generateStory env store storyId userId topic doubt complexity).trace ++
          [.storeUpdate storyId (failedPatch err.message (env.clock (storeUpdates
            (generateStory env store storyId userId topic doubt complexity).trace)))] ∧
      (createAudioStory.detached env store storyId userId topic doubt complexity).escaped =
        none ∧
      ((∃ stored,
          (generateStory env store storyId userId topic doubt complexity).store.update
            (env.storeFailure (storeUpdates
              (generateStory env store storyId userId topic doubt complexity).trace))
            storyId (failedPatch err.message (env.clock (storeUpdates
              (generateStory env store storyId userId topic doubt complexity).trace))) =
            .ok stored ∧
          (createAudioStory.detached env store storyId userId topic doubt complexity).store =
            stored ∧
          (createAudioStory.detached env store storyId userId topic doubt
            complexity).errorLog =
            ["[AudioStory] " ++ storyId ++ " generation failed: " ++ err.message]) ∨
        (∃ updateErr,
          (generateStory env store storyId userId topic doubt complexity).store.update
            (env.storeFailure (storeUpdates
              (generateStory env store storyId userId topic doubt complexity).trace))
            storyId (failedPatch err.message (env.clock (storeUpdates
              (generateStory env store storyId userId topic doubt complexity).trace))) =
            .error updateErr ∧
          (createAudioStory.detached env store storyId userId topic doubt complexity).store =
            (generateStory env store storyId userId topic doubt complexity).store ∧
          (createAudioStory.detached env store storyId userId topic doubt
            complexity).errorLog =
            ["[AudioStory] " ++ storyId ++ " generation failed: " ++ err.message,
              "[AudioStory] Failed to update error status: " ++ updateErr.message])) := by
  rw [detached_of_error env store storyId userId topic doubt complexity err hrun]
  cases hwrite : (generateStory env store storyId userId topic doubt complexity).store.update
      (env.storeFailure (storeUpdates
        (generateStory env store storyId userId topic doubt complexity).trace))
      storyId (failedPatch err.message (env.clock (storeUpdates
        (generateStory env store storyId userId topic doubt complexity).trace))) with
  | ok stored => exact ⟨rfl, rfl, Or.inl ⟨stored, rfl, rfl, rfl⟩⟩
  | error updateErr => exact ⟨rfl, rfl, Or.inr ⟨updateErr, rfl, rfl, rfl⟩⟩

theorem detached_record_forms (env : Env) (setFailure : Option JsError) (store : Store)
    (storyId userId topic doubt : String) (complexity : Option String) (created : StoryDoc)
    (hdoc : store.get storyId = some created) :
    ∀ st ∈ replay setFailure env.storeFailure store 0
        (createAudioStory.detached env store storyId userId topic doubt complexity).trace,
      ∃ doc, st.get storyId = some doc ∧ RecordForm env created doc := by
  have hcase := pipeline_cases env store storyId userId topic doubt complexity
  rw [replay_filter]
  rcases hcase with ⟨error, hresult, hstore, hwrites⟩ |
    ⟨aiStory, error, hstory, hrejected, hresult, hstore, hwrites⟩ |
    ⟨aiStory, saved, error, hstory, hsaved, hresult, hstore, hwrites⟩ |
    ⟨aiStory, saved, request, audioUrl, length, error, hstory, hsaved, hurl, hrejected, hresult,
      hstore, hwrites⟩ |
    ⟨aiStory, saved, final, request, audioUrl, length, hstory, hsaved, hurl, hfinal, hresult,
      hstore, hwrites⟩
  · obtain ⟨htrace, -, hwrite⟩ :=
      detached_error_summary env store storyId userId topic doubt complexity error hresult
    have hk : storeUpdates (generateStory env store storyId userId topic doubt
        complexity).trace = 0 := by rw [storeUpdates_filter, hwrites]; rfl
    rw [hk, hstore] at hwrite
    rw [htrace, List.filter_append, hwrites, hk]
    intro st hst
    rcases hwrite with ⟨stored, hupd, -, -⟩ | ⟨updateErr, hupd, -, -⟩
    · simp [replay, isStoreEffect, hupd] at hst
      subst hst
      exact ⟨_, Store.update_ok_get _ _ _ _ _ _ hdoc hupd, .failedEarly _ _ ⟨_, _, _, _, _, _, _, hresult, rfl⟩⟩
    · simp [replay, isStoreEffect, hupd] at hst
  · obtain ⟨htrace, -, hwrite⟩ :=
      detached_error_summary env store storyId userId topic doubt complexity error hresult
    have hk : storeUpdates (generateStory env store storyId userId topic doubt
        complexity).trace = 1 := by rw [storeUpdates_filter, hwrites]; rfl
    rw [hk, hstore] at hwrite
    rw [htrace, List.filter_append, hwrites, hk]
    intro st hst
    rcases hwrite with ⟨stored, hupd, -, -⟩ | ⟨updateErr, hupd, -, -⟩
    · simp [replay, isStoreEffect, hupd, hrejected] at hst
      subst hst
      exact ⟨_, Store.update_ok_get _ _ _ _ _ _ hdoc hupd, .failedEarly _ _ ⟨_, _, _, _, _, _, _, hresult, rfl⟩⟩
    · simp [replay, isStoreEffect, hupd, hrejected] at hst
  · obtain ⟨htrace, -, hwrite⟩ :=
      detached_error_summary env store storyId userId topic doubt complexity error hresult
    have hk : storeUpdates (generateStory env store storyId userId topic doubt
        complexity).trace = 1 := by rw [storeUpdates_filter, hwrites]; rfl
    have hsavedDoc := Store.update_ok_get _ _ _ _ _ _ hdoc hsaved
    rw [hk, hstore] at hwrite
    rw [htrace, List.filter_append, hwrites, hk]
    intro st hst
    rcases hwrite with ⟨stored, hupd, -, -⟩ | ⟨updateErr, hupd, -, -⟩
    · simp [replay, isStoreEffect, hupd, hsaved] at hst
      rcases hst with hst | hst <;> subst hst
      · exact ⟨_, hsavedDoc, .narrated _ _ hstory⟩
      · exact ⟨_, Store.update_ok_get _ _ _ _ _ _ hsavedDoc hupd, .failedLate _ _ _ _ hstory
          ⟨_, _, _, _, _, _, _, hresult, rfl⟩⟩
    · simp [replay, isStoreEffect, hupd, hsaved] at hst
      subst hst
      exact ⟨_, hsavedDoc, .narrated _ _ hstory⟩
  · obtain ⟨htrace, -, hwrite⟩ :=
      detached_error_summary env store storyId userId topic doubt complexity error hresult
    have hk : storeUpdates (generateStory env store storyId userId topic doubt
        complexity).trace = 2 := by rw [storeUpdates_filter, hwrites]; rfl
    have hsavedDoc := Store.update_ok_get _ _ _ _ _ _ hdoc hsaved
    rw [hk, hstore] at hwrite
    rw [htrace, List.filter_append, hwrites, hk]
    intro st hst
    rcases hwrite with ⟨stored, hupd, -, -⟩ | ⟨updateErr, hupd, -, -⟩
    · simp [replay, isStoreEffect, hupd, hsaved, hrejected] at hst
      rcases hst with hst | hst <;> subst hst
      · exact ⟨_, hsavedDoc, .narrated _ _ hstory⟩
      · exact ⟨_, Store.update_ok_get _ _ _ _ _ _ hsavedDoc hupd, .failedLate _ _ _ _ hstory
          ⟨_, _, _, _, _, _, _, hresult, rfl⟩⟩
    · simp [replay, isStoreEffect, hupd, hsaved, hrejected] at hst
      subst hst
      exact ⟨_, hsavedDoc, .narrated _ _ hstory⟩
  · have hsavedDoc := Store.update_ok_get _ _ _ _ _ _ hdoc hsaved
    rw [detached_of_ok env store storyId userId topic doubt complexity _ hresult, hwrites]
    intro st hst
    simp [replay, hsaved, hfinal] at hst
    rcases hst with hst | hst <;> subst hst
    · exact ⟨_, hsavedDoc, .narrated _ _ hstory⟩
    · exact ⟨_, Store.update_ok_get _ _ _ _ _ _ hsavedDoc hfinal,
        .completed _ _ _ request _ _ hstory hurl⟩

/-! ## The request entry point -/

theorem validRequest_checks (req : CreateRequest) (hvalid : validRequest req = true) :
    (falsy req.topic || falsy req.doubt) = false ∧
      ¬ (jsLength (jsTrim (req.topic.getD "")) = 0 ∨ jsLength (jsTrim (req.doubt.getD "")) = 0) ∧
      ¬ jsLength (req.doubt.getD "") > 300 := by
  simp only [validRequest, Bool.and_eq_true, Bool.not_eq_true', decide_eq_true_eq] at hvalid
  obtain ⟨⟨htopic, hdoubt⟩, hlen⟩ := hvalid
  cases ht : req.topic with
  | none => simp [ht, isBlank] at htopic
  | some topic =>
    cases hd : req.doubt with
    | none => simp [hd, isBlank] at hdoubt
    | some doubt =>
      have h1 : jsTrim topic ≠ "" := by simpa [ht, isBlank] using htopic
      have h2 : jsTrim doubt ≠ "" := by simpa [hd, isBlank] using hdoubt
      have h3 : topic ≠ "" := by
        intro h
        subst h
        exact h1 jsTrim_empty
      have h4 : doubt ≠ "" := by
        intro h
        subst h
        exact h2 jsTrim_empty
      rw [hd] at hlen
      refine ⟨by simp [falsy, h3, h4], by simp [jsLength_eq_zero, h1, h2], ?_⟩
      simpa using hlen

theorem createAudioStory_of_valid (env : Env) (setFailure : Option JsError) (storyId : String)
    (now : Nat) (store : Store) (req : CreateRequest) (hvalid : validRequest req = true) :
    createAudioStory env setFailure storyId now store req =
      match store.set setFailure storyId (storyDoc storyId now req) with
      | .error error =>
        ⟨⟨500, .error "Failed to create audio story"⟩, false, none, store,
          [.storeSet storyId (storyDoc storyId now req)],
          ["[AudioStory] Error creating story: " ++ error.message]⟩
      | .ok created =>
        ⟨⟨202, .accepted storyId "Story generation started" "1-2 minutes"⟩, true,
          (createAudioStory.detached env created storyId req.uid (jsTrim (req.topic.getD ""))
            (jsTrim (req.doubt.getD "")) req.complexity).escaped,
          (createAudioStory.detached env created storyId req.uid (jsTrim (req.topic.getD ""))
            (jsTrim (req.doubt.getD "")) req.complexity).store,
          .storeSet storyId (storyDoc storyId now req) ::
            (createAudioStory.detached env created storyId req.uid (jsTrim (req.topic.getD ""))
              (jsTrim (req.doubt.getD "")) req.complexity).trace,
          (createAudioStory.detached env created storyId req.uid (jsTrim (req.topic.getD ""))
            (jsTrim (req.doubt.getD "")) req.complexity).errorLog⟩ := by
  obtain ⟨h1, h2, h3⟩ := validRequest_checks req hvalid
  simp only [createAudioStory, h1, h2, h3, if_false, Bool.false_eq_true]

theorem createAudioStory_of_invalid (env : Env) (setFailure : Option JsError)
    (storyId : String) (now : Nat) (store : Store) (req : CreateRequest)
    (hinvalid : validRequest req = false) :
    (createAudioStory env setFailure storyId now store req).response.status = 400 ∧
      (createAudioStory env setFailure storyId now store req).started = false ∧
      (createAudioStory env setFailure storyId now store req).store = store ∧
      (createAudioStory env setFailure storyId now store req).trace = [] := by
  unfold createAudioStory
  simp only []
  split
  · exact ⟨rfl, rfl, rfl, rfl⟩
  · split
    · exact ⟨rfl, rfl, rfl, rfl⟩
    · split
      · exact ⟨rfl, rfl, rfl, rfl⟩
      · rename_i h1 h2 h3
        exfalso
        have hv : validRequest req = true := by
          cases ht : req.topic with
          | none => simp [ht, falsy] at h1
          | some topic =>
            cases hd : req.doubt with
            | none => simp [hd, falsy] at h1
            | some doubt =>
              simp only [ht, hd, Option.getD_some, jsLength_eq_zero, not_or] at h2 h3
              simp only [validRequest, ht, hd, isBlank, Option.getD_some, Bool.and_eq_true,
                Bool.not_eq_true', beq_eq_false_iff_ne, ne_eq, decide_eq_true_eq]
              exact ⟨⟨h2.1, h2.2⟩, by omega⟩
        rw [hv] at hinvalid
        exact Bool.noConfusion hinvalid

theorem detached_replay_last (env : Env) (setFailure : Option JsError) (store : Store)
    (storyId userId topic doubt : String) (complexity : Option String) :
    (replay setFailure env.storeFailure store 0
        (createAudioStory.detached env store storyId userId topic doubt complexity).trace
      ).getLastD store =
      (createAudioStory.detached env store storyId userId topic doubt complexity).store := by
  have hcase := pipeline_cases env store storyId userId topic doubt complexity
  rw [replay_filter]
  rcases hcase with ⟨error, hresult, hstore, hwrites⟩ |
    ⟨aiStory, error, hstory, hrejected, hresult, hstore, hwrites⟩ |
    ⟨aiStory, saved, error, hstory, hsaved, hresult, hstore, hwrites⟩ |
    ⟨aiStory, saved, request, audioUrl, length, error, hstory, hsaved, hurl, hrejected, hresult,
      hstore, hwrites⟩ |
    ⟨aiStory, saved, final, request, audioUrl, length, hstory, hsaved, hurl, hfinal, hresult,
      hstore, hwrites⟩
  · obtain ⟨htrace, -, hwrite⟩ :=
      detached_error_summary env store storyId userId topic doubt complexity error hresult
    have hk : storeUpdates (generateStory env store storyId userId topic doubt
        complexity).trace = 0 := by rw [storeUpdates_filter, hwrites]; rfl
    rw [hk, hstore] at hwrite
    rw [htrace, List.filter_append, hwrites, hk]
    rcases hwrite with ⟨stored, hupd, hend, -⟩ | ⟨updateErr, hupd, hend, -⟩ <;>
      simp [replay, isStoreEffect, hupd, hend]
  · obtain ⟨htrace, -, hwrite⟩ :=
      detached_error_summary env store storyId userId topic doubt complexity error hresult
    have hk : storeUpdates (generateStory env store storyId userId topic doubt
        complexity).trace = 1 := by rw [storeUpdates_filter, hwrites]; rfl
    rw [hk, hstore] at hwrite
    rw [htrace, List.filter_append, hwrites, hk]
    rcases hwrite with ⟨stored, hupd, hend, -⟩ | ⟨updateErr, hupd, hend, -⟩ <;>
      simp [replay, isStoreEffect, hupd, hend, hrejected]
  · obtain ⟨htrace, -, hwrite⟩ :=
      detached_error_summary env store storyId userId topic doubt complexity error hresult
    have hk : storeUpdates (generateStory env store storyId userId topic doubt
        complexity).trace = 1 := by rw [storeUpdates_filter, hwrites]; rfl
    rw [hk, hstore] at hwrite
    rw [htrace, List.filter_append, hwrites, hk]
    rcases hwrite with ⟨stored, hupd, hend, -⟩ | ⟨updateErr, hupd, hend, -⟩ <;>
      simp [replay, isStoreEffect, hupd, hend, hsaved, hstore]
  · obtain ⟨htrace, -, hwrite⟩ :=
      detached_error_summary env store storyId userId topic doubt complexity error hresult
    have hk : storeUpdates (generateStory env store storyId userId topic doubt
        complexity).trace = 2 := by rw [storeUpdates_filter, hwrites]; rfl
    rw [hk, hstore] at hwrite
    rw [htrace, List.filter_append, hwrites, hk]
    rcases hwrite with ⟨stored, hupd, hend, -⟩ | ⟨updateErr, hupd, hend, -⟩ <;>
      simp [replay, isStoreEffect, hupd, hend, hsaved, hrejected, hstore]
  · rw [detached_of_ok env store storyId userId topic doubt complexity _ hresult, hwrites]
    simp [replay, hsaved, hfinal, hstore]

theorem recordStates_forms (env : Env) (setFailure : Option JsError) (storyId : String)
    (now : Nat) (store : Store) (req : CreateRequest) :
    ∀ state ∈ recordStates env setFailure storyId now store req,
      ∃ doc, state = some doc ∧ RecordForm env (storyDoc storyId now req) doc := by
  intro state hstate
  unfold recordStates at hstate
  cases hvalid : validRequest req with
  | false =>
    rw [(createAudioStory_of_invalid env setFailure storyId now store req hvalid).2.2.2]
      at hstate
    simp [replay] at hstate
  | true =>
    rw [createAudioStory_of_valid env setFailure storyId now store req hvalid] at hstate
    cases hset : store.set setFailure storyId (storyDoc storyId now req) with
    | error error => simp [hset, replay] at hstate
    | ok created =>
      have hcreated := Store.get_set store created setFailure storyId _ hset
      simp only [hset, replay, List.map_cons, List.mem_cons, List.mem_map] at hstate
      rcases hstate with hstate | ⟨st, hst, hstate⟩
      · exact ⟨_, by rw [hstate, hcreated], .created⟩
      · obtain ⟨doc, hdoc, hform⟩ := detached_record_forms env setFailure created storyId
          req.uid _ _ req.complexity _ hcreated st hst
        exact ⟨doc, by rw [← hstate, hdoc], hform⟩

theorem recordStates_final (env : Env) (setFailure : Option JsError) (storyId : String)
    (now : Nat) (store : Store) (req : CreateRequest)
    (hstarted : (createAudioStory env setFailure storyId now store req).started = true) :
    (createAudioStory env setFailure storyId now store req).store.get storyId ∈
      recordStates env setFailure storyId now store req := by
  unfold recordStates
  cases hvalid : validRequest req with
  | false =>
    rw [(createAudioStory_of_invalid env setFailure storyId now store req hvalid).2.1]
      at hstarted
    exact Bool.noConfusion hstarted
  | true =>
    rw [createAudioStory_of_valid env setFailure storyId now store req hvalid] at hstarted ⊢
    cases hset : store.set setFailure storyId (storyDoc storyId now req) with
    | error error => simp [hset] at hstarted
    | ok created =>
      simp only [hset, replay, List.map_cons, List.mem_cons, List.mem_map]
      have hlast := detached_replay_last env setFailure created storyId req.uid
        (jsTrim (req.topic.getD "")) (jsTrim (req.doubt.getD "")) req.complexity
      rw [← hlast]
      cases hreplay : replay setFailure env.storeFailure created 0
          (createAudioStory.detached env created storyId req.uid (jsTrim (req.topic.getD ""))
            (jsTrim (req.doubt.getD "")) req.complexity).trace with
      | nil => exact Or.inl rfl
      | cons first rest =>
        right
        refine ⟨(first :: rest).getLastD created, ?_, rfl⟩
        rw [List.getLastD_cons]
        exact List.getLastD_mem_cons rest first

/-! ## The detached run, stage by stage -/

theorem storeUpdates_append (a b : List Effect) :
    storeUpdates (a ++ b) = storeUpdates a + storeUpdates b := by
  simp [storeUpdates, List.filter_append]

theorem voiceCalls_append (a b : List Effect) :
    voiceCalls (a ++ b) = voiceCalls a + voiceCalls b := by
  simp [voiceCalls, List.filter_append]

theorem uploads_append (a b : List Effect) : uploads (a ++ b) = uploads a + uploads b := by
  simp [uploads, List.filter_append]

theorem updatesOf_append (a b : List Effect) : updatesOf (a ++ b) = updatesOf a ++ updatesOf b := by
  simp [updatesOf, List.filterMap_append]

theorem detached_generator_error (env : Env) (store : Store)
    (storyId userId topic doubt : String) (complexity : Option String) (error : JsError)
    (doc : StoryDoc) (hdoc : store.get storyId = some doc)
    (hgen : (generateStoryWithLLM env.completion topic doubt complexity).result =
      .error error) :
    (createAudioStory.detached env store storyId userId topic doubt complexity).trace =
        (generateStoryWithLLM env.completion topic doubt complexity).trace ++
          [.storeUpdate storyId (failedPatch error.message (env.clock 0))] ∧
      (env.storeFailure 0 = none →
        (createAudioStory.detached env store storyId userId topic doubt
          complexity).store.get storyId =
          some (applyPatch doc (failedPatch error.message (env.clock 0)))) := by
  have hrun := generateStory_of_generator_error env store storyId userId topic doubt complexity
    error hgen
  have hcounts := generator_effects_counts _
    (generator_effects env.completion topic doubt complexity)
  have hresult : (generateStory env store storyId userId topic doubt complexity).result =
      .error error := by rw [hrun]
  obtain ⟨htrace, -, hwrite⟩ :=
    detached_error_summary env store storyId userId topic doubt complexity error hresult
  rw [hrun] at htrace hwrite
  simp only [hcounts.1] at htrace hwrite
  refine ⟨htrace, ?_⟩
  intro hw
  rw [hw] at hwrite
  rcases hwrite with ⟨stored, hupd, hend, -⟩ | ⟨updateErr, hupd, -, -⟩
  · rw [hend]
    exact Store.update_ok_get _ _ _ _ _ _ hdoc hupd
  · rw [Store.update_accepts store storyId _ doc hdoc] at hupd
    exact Except.noConfusion hupd

theorem detached_stage_error (env : Env) (store : Store)
    (storyId userId topic doubt : String) (complexity : Option String) (aiStory : String)
    (error : JsError) (doc : StoryDoc) (hdoc : store.get storyId = some doc)
    (hw0 : env.storeFailure 0 = none)
    (hgen : (generateStoryWithLLM env.completion topic doubt complexity).result =
      .ok (some aiStory))
    (hstage : (generateAudioNarration env.apiKey env.voice aiStory).result = .error error ∨
      ∃ audioBuffer, (generateAudioNarration env.apiKey env.voice aiStory).result =
          .ok audioBuffer ∧
        (uploadAudioToCloud env.storage audioBuffer storyId).result = .error error) :
    updatesOf (createAudioStory.detached env store storyId userId topic doubt
        complexity).trace =
        [storyPatch aiStory (env.clock 0), failedPatch error.message (env.clock 1)] ∧
      (∃ before, (createAudioStory.detached env store storyId userId topic doubt
        complexity).trace =
          before ++ [.storeUpdate storyId (failedPatch error.message (env.clock 1))]) ∧
      ((generateAudioNarration env.apiKey env.voice aiStory).result = .error error →
        uploads (createAudioStory.detached env store storyId userId topic doubt
          complexity).trace = 0) ∧
      (env.storeFailure 1 = none →
        (createAudioStory.detached env store storyId userId topic doubt
          complexity).store.get storyId =
          some (applyPatch (applyPatch doc (storyPatch aiStory (env.clock 0)))
            (failedPatch error.message (env.clock 1)))) ∧
      (env.storeFailure 1 ≠ none →
        (createAudioStory.detached env store storyId userId topic doubt
          complexity).store.get storyId =
          some (applyPatch doc (storyPatch aiStory (env.clock 0)))) := by
  have hllm := generator_effects_counts _
    (generator_effects env.completion topic doubt complexity)
  have htts := narration_effects_counts env.apiKey env.voice aiStory
  have haccept := Store.update_accepts store storyId (storyPatch aiStory (env.clock 0)) doc hdoc
  have hsavedDoc := Store.get_map_patch storyId (storyPatch aiStory (env.clock 0)) doc store hdoc
  have hrun := generateStory_of_story env store storyId userId topic doubt complexity aiStory
    hgen
  rw [hw0, haccept] at hrun
  simp only [] at hrun
  have hshape : ∃ trace, generateStory env store storyId userId topic doubt complexity =
      ⟨.error error, store.map fun entry =>
        if entry.1 == storyId then
          (entry.1, applyPatch entry.2 (storyPatch aiStory (env.clock 0))) else entry,
        trace⟩ ∧ storeUpdates trace = 1 ∧ updatesOf trace = [storyPatch aiStory (env.clock 0)] ∧
      ((generateAudioNarration env.apiKey env.voice aiStory).result = .error error →
        uploads trace = 0) := by
    rcases hstage with hnarr | ⟨audioBuffer, hnarr, hupload⟩
    · rw [hnarr] at hrun
      refine ⟨_, hrun, ?_, ?_, ?_⟩
      · rw [storeUpdates_append, storeUpdates_append, hllm.1, htts.1]
        rfl
      · rw [updatesOf_append, updatesOf_append, hllm.2.2.2.2, htts.2.2.2]
        rfl
      · intro _
        rw [uploads_append, uploads_append, hllm.2.2.1, htts.2.1]
        rfl
    · rw [hnarr] at hrun
      simp only [hupload] at hrun
      have hup := upload_effects env.storage audioBuffer storyId
      have hupd : updatesOf (uploadAudioToCloud env.storage audioBuffer storyId).trace = [] := by
        rw [updatesOf_filter, hup.1]
        rfl
      refine ⟨_, hrun, ?_, ?_, ?_⟩
      · rw [storeUpdates_append, storeUpdates_append, storeUpdates_append, hllm.1, htts.1,
          hup.2]
        rfl
      · rw [updatesOf_append, updatesOf_append, updatesOf_append, hllm.2.2.2.2, htts.2.2.2,
          hupd]
        rfl
      · intro h
        rw [hnarr] at h
        exact Except.noConfusion h
  obtain ⟨trace, hrun2, hcount, hupdates, huploads⟩ := hshape
  have hresult : (generateStory env store storyId userId topic doubt complexity).result =
      .error error := by rw [hrun2]
  obtain ⟨htrace, -, hwrite⟩ :=
    detached_error_summary env store storyId userId topic doubt complexity error hresult
  rw [hrun2] at htrace hwrite
  simp only [hcount] at htrace hwrite
  refine ⟨?_, ⟨trace, htrace⟩, ?_, ?_, ?_⟩
  · rw [htrace, updatesOf_append, hupdates]
    rfl
  · intro h
    rw [htrace, uploads_append, huploads h]
    rfl
  · intro hw
    rw [hw] at hwrite
    rcases hwrite with ⟨stored, hupd, hend, -⟩ | ⟨updateErr, hupd, -, -⟩
    · rw [hend]
      exact Store.update_ok_get _ _ _ _ _ _ hsavedDoc hupd
    · rw [Store.update_accepts _ storyId _ _ hsavedDoc] at hupd
      exact Except.noConfusion hupd
  · intro hw
    rcases hwrite with ⟨stored, hupd, -, -⟩ | ⟨updateErr, -, hend, -⟩
    · cases hf : env.storeFailure 1 with
      | none => exact absurd hf hw
      | some rejected =>
        rw [hf] at hupd
        simp [Store.update] at hupd
    · rw [hend]
      exact hsavedDoc

theorem detached_completes (env : Env) (store : Store)
    (storyId userId topic doubt : String) (complexity : Option String)
    (aiStory : String) (audioBuffer : Buffer) (audioUrl : String) (doc : StoryDoc)
    (hgen : (generateStoryWithLLM env.completion topic doubt complexity).result =
      .ok (some aiStory))
    (htts : (generateAudioNarration env.apiKey env.voice aiStory).result = .ok audioBuffer)
    (hup : (uploadAudioToCloud env.storage audioBuffer storyId).result = .ok audioUrl)
    (hdoc : store.get storyId = some doc)
    (hw0 : env.storeFailure 0 = none) (hw1 : env.storeFailure 1 = none) :
    (createAudioStory.detached env store storyId userId topic doubt complexity).store.get
        storyId =
        some (applyPatch (applyPatch doc (storyPatch aiStory (env.clock 0)))
          (completedPatch audioUrl (estimatedDuration audioBuffer.length) (env.clock 1))) ∧
      (createAudioStory.detached env store storyId userId topic doubt complexity).errorLog =
        [] := by
  have haccept := Store.update_accepts store storyId (storyPatch aiStory (env.clock 0)) doc hdoc
  have hsavedDoc := Store.get_map_patch storyId (storyPatch aiStory (env.clock 0)) doc store hdoc
  have haccept2 := Store.update_accepts _ storyId
    (completedPatch audioUrl (estimatedDuration audioBuffer.length) (env.clock 1)) _ hsavedDoc
  have hfinalDoc := Store.get_map_patch storyId
    (completedPatch audioUrl (estimatedDuration audioBuffer.length) (env.clock 1)) _ _ hsavedDoc
  have hrun := generateStory_of_story env store storyId userId topic doubt complexity aiStory
    hgen
  rw [hw0, haccept] at hrun
  simp only [htts, hup, hw1, haccept2] at hrun
  have hresult : (generateStory env store storyId userId topic doubt complexity).result =
      .ok ⟨storyId, audioUrl, estimatedDuration audioBuffer.length⟩ := by rw [hrun]
  rw [detached_of_ok env store storyId userId topic doubt complexity _ hresult, hrun]
  exact ⟨hfinalDoc, rfl⟩

theorem mock_generator (topic doubt : String) (complexity : Option String) :
    (generateStoryWithLLM mockEnv.completion topic doubt complexity).result =
      .ok (some "A short story...") := by
  have htrim : jsTrim "A short story..." = "A short story..." := by decide
  have hcompletion : mockEnv.completion = fun _ _ => .response (some "A short story...") := rfl
  simp [generateStoryWithLLM, generateStoryWithLLM.loop, tryAttempt, maxRetries, hcompletion,
    htrim]

theorem mockAudio_length : mockAudio.length = 48000 := List.length_replicate 48000 0

theorem mock_narration (story : String) :
    (generateAudioNarration mockEnv.apiKey mockEnv.voice story).result = .ok mockAudio := by
  have hbytes : [mockAudio].flatten ≠ [] := by
    intro h
    have h0 : [mockAudio].flatten.length = 0 := by rw [h]; rfl
    simp [mockAudio_length] at h0
  have h := generateAudioNarration_of_stream mockEnv.apiKey mockEnv.voice story
    [mockAudio] (by decide) rfl hbytes
  simpa using h

theorem scenario_created :
    validRequest gravityRequest = true ∧
      storyDoc "story-1" 1000 gravityRequest = processingDoc ∧
      Store.set [] none "story-1" processingDoc = .ok oneStory := by
  refine ⟨by decide, by decide, rfl⟩

theorem scenario_run (env : Env) :
    (createAudioStory env none "story-1" 1000 [] gravityRequest).response =
        ⟨202, .accepted "story-1" "Story generation started" "1-2 minutes"⟩ ∧
      (createAudioStory env none "story-1" 1000 [] gravityRequest).started = true ∧
      (createAudioStory env none "story-1" 1000 [] gravityRequest).store =
        (createAudioStory.detached env oneStory "story-1" "user-1" "Gravity"
          "Why do things fall?" (some "easy")).store ∧
      (createAudioStory env none "story-1" 1000 [] gravityRequest).trace =
        .storeSet "story-1" processingDoc ::
          (createAudioStory.detached env oneStory "story-1" "user-1" "Gravity"
            "Why do things fall?" (some "easy")).trace := by
  obtain ⟨hvalid, hdoc, hset⟩ := scenario_created
  have htopic : jsTrim (gravityRequest.topic.getD "") = "Gravity" := by decide
  have hdoubt : jsTrim (gravityRequest.doubt.getD "") = "Why do things fall?" := by decide
  rw [createAudioStory_of_valid env none "story-1" 1000 [] gravityRequest hvalid, hdoc, hset,
    htopic, hdoubt]
  exact ⟨rfl, rfl, rfl, rfl⟩

theorem scenario_completed :
    (createAudioStory mockEnv none "story-1" 1000 [] gravityRequest).started = true ∧
      (createAudioStory mockEnv none "story-1" 1000 [] gravityRequest).store.get "story-1" =
        some completedDoc := by
  obtain ⟨-, hstarted, hstore, -⟩ := scenario_run mockEnv
  refine ⟨hstarted, ?_⟩
  have h := (detached_completes mockEnv oneStory "story-1" "user-1" "Gravity"
    "Why do things fall?" (some "easy") "A short story..." mockAudio
    "https://cdn.example/story.mp3" processingDoc (mock_generator _ _ _) (mock_narration _)
    rfl (by decide) rfl rfl).1
  rw [mockAudio_length, estimatedDuration_48000] at h
  rw [hstore, h]
  decide

theorem voiceDown_narration (story : String) :
    (generateAudioNarration voiceDownEnv.apiKey voiceDownEnv.voice story).result =
      .error (newError "TTS failed: Status code: 503\nBody: try again later") := by
  have h := generateAudioNarration_other_failure voiceDownEnv.apiKey voiceDownEnv.voice story
    voiceOutage (by decide) rfl (by decide) (by decide)
  rw [h]
  decide

theorem scenario_failed :
    (createAudioStory voiceDownEnv none "story-1" 1000 [] gravityRequest).started = true ∧
      (createAudioStory voiceDownEnv none "story-1" 1000 [] gravityRequest).store.get
        "story-1" = some failedDoc := by
  obtain ⟨-, hstarted, hstore, -⟩ := scenario_run voiceDownEnv
  refine ⟨hstarted, ?_⟩
  have h := (detached_stage_error voiceDownEnv oneStory "story-1" "user-1" "Gravity"
    "Why do things fall?" (some "easy") "A short story..."
    (newError "TTS failed: Status code: 503\nBody: try again later") processingDoc
    (by decide) rfl (mock_generator _ _ _) (Or.inl (voiceDown_narration _))).2.2.2.1 rfl
  rw [hstore, h]
  decide

/-! ## Invariants of the story record -/

theorem storyDoc_fields (storyId : String) (now : Nat) (req : CreateRequest) :
    (storyDoc storyId now req).status = "processing" ∧
      (storyDoc storyId now req).error = none ∧
      (storyDoc storyId now req).aiStory = none := ⟨rfl, rfl, rfl⟩

theorem orDefault_not_empty (message : String) :
    orDefault (some message) "Unknown error" =
        (if message = "" then "Unknown error" else message) ∧
      orDefault (some message) "Unknown error" ≠ "" := by
  unfold orDefault
  by_cases h : message = ""
  · simp only [h, if_true]
    exact ⟨trivial, by decide⟩
  · simp only [h, if_false]
    exact ⟨trivial, h⟩

/-- C11. In every state the record passes through in a run of `createAudioStory`, whatever
the remote services and the store do, status `completed` implies that `aiStory` is a
non-empty (indeed non-blank) text, `audioUrl` is a URL the object storage returned and
`duration` is a non-negative integer. -/
theorem completed_record_invariant (env : Env) (setFailure : Option JsError)
    (storyId : String) (now : Nat) (store : Store) (req : CreateRequest) (doc : StoryDoc)
    (hstate : some doc ∈ recordStates env setFailure storyId now store req)
    (hcompleted : doc.status = "completed") :
    (∃ aiStory, doc.aiStory = some aiStory ∧ aiStory ≠ "" ∧ isBlank (some aiStory) = false) ∧
      (∃ request audioUrl, env.storage request = .ok audioUrl ∧
        doc.audioUrl = some audioUrl) ∧
      (∃ duration : Int, doc.duration = some duration ∧ 0 ≤ duration) := by
  obtain ⟨found, hfound, hform⟩ := recordStates_forms env setFailure storyId now store req _
    hstate
  have hsame : doc = found := Option.some.inj hfound
  subst hsame
  have hne : "processing" ≠ "completed" := by decide
  have hne2 : "failed" ≠ "completed" := by decide
  cases hform with
  | created => exact absurd hcompleted hne
  | narrated aiStory time hstory =>
    exact absurd (show "processing" = "completed" from hcompleted) hne
  | completed aiStory saved finished request audioUrl length hstory hurl =>
    refine ⟨⟨aiStory, rfl, ?_, hstory⟩, ⟨request, audioUrl, hurl, rfl⟩,
      ⟨estimatedDuration length, rfl, ?_⟩⟩
    · intro hempty
      subst hempty
      simp [isBlank, jsTrim_empty] at hstory
    · rw [estimatedDuration_eq_div]
      exact Int.natCast_nonneg _
  | failedEarly message time hmessage =>
    exact absurd (show "failed" = "completed" from hcompleted) hne2
  | failedLate aiStory saved message time hstory hmessage =>
    exact absurd (show "failed" = "completed" from hcompleted) hne2

/-- C11, witness: the completed record of the end-to-end scenario is a state of the run; its
story is not empty and its duration, 16, is not negative. -/
theorem completed_record_invariant_witness :
    some completedDoc ∈ recordStates mockEnv none "story-1" 1000 [] gravityRequest ∧
      (∃ aiStory, completedDoc.aiStory = some aiStory ∧ aiStory ≠ "" ∧
        isBlank (some aiStory) = false) ∧
      (∃ duration : Int, completedDoc.duration = some duration ∧ 0 ≤ duration) := by
  have hmem : some completedDoc ∈ recordStates mockEnv none "story-1" 1000 []
      gravityRequest := by
    have h := recordStates_final mockEnv none "story-1" 1000 [] gravityRequest
      scenario_completed.1
    rw [scenario_completed.2] at h
    exact h
  have h := completed_record_invariant mockEnv none "story-1" 1000 [] gravityRequest
    completedDoc hmem rfl
  exact ⟨hmem, h.1, h.2.2⟩

/-- C12. In every state the record passes through in a run of `createAudioStory`, status
`failed` implies that the error field is a non-empty text, namely the message of the error
the pipeline rejected with, or `Unknown error` when that message is empty; and the error
field is non-null only when the status is `failed`. -/
theorem failed_record_invariant (env : Env) (setFailure : Option JsError)
    (storyId : String) (now : Nat) (store : Store) (req : CreateRequest) (doc : StoryDoc)
    (hstate : some doc ∈ recordStates env setFailure storyId now store req) :
    (doc.status = "failed" →
        ∃ message, PipelineError env message ∧
          doc.error = some (if message = "" then "Unknown error" else message) ∧
          doc.error ≠ some "") ∧
      (doc.error ≠ none → doc.status = "failed") := by
  obtain ⟨found, hfound, hform⟩ := recordStates_forms env setFailure storyId now store req _
    hstate
  have hsame : doc = found := Option.some.inj hfound
  subst hsame
  have hne : "processing" ≠ "failed" := by decide
  have hne2 : "completed" ≠ "failed" := by decide
  cases hform with
  | created =>
    exact ⟨fun h => absurd h hne, fun h => absurd rfl h⟩
  | narrated aiStory time hstory =>
    exact ⟨fun h => absurd (show "processing" = "failed" from h) hne, fun h => absurd rfl h⟩
  | completed aiStory saved finished request audioUrl length hstory hurl =>
    exact ⟨fun h => absurd (show "completed" = "failed" from h) hne2, fun h => absurd rfl h⟩
  | failedEarly message time hmessage =>
    obtain ⟨h1, h2⟩ := orDefault_not_empty message
    refine ⟨fun _ => ⟨message, hmessage, congrArg some h1, ?_⟩, fun _ => rfl⟩
    intro h
    exact h2 (Option.some.inj h)
  | failedLate aiStory saved message time hstory hmessage =>
    obtain ⟨h1, h2⟩ := orDefault_not_empty message
    refine ⟨fun _ => ⟨message, hmessage, congrArg some h1, ?_⟩, fun _ => rfl⟩
    intro h
    exact h2 (Option.some.inj h)

/-- C12, witness: with the voice service down the record ends `failed`, and its error field
is the synthesizer's message. -/
theorem failed_record_invariant_witness :
    some failedDoc ∈ recordStates voiceDownEnv none "story-1" 1000 [] gravityRequest ∧
      failedDoc.status = "failed" ∧
      failedDoc.error = some "TTS failed: Status code: 503\nBody: try again later" ∧
      ∃ message, PipelineError voiceDownEnv message ∧
        failedDoc.error = some (if message = "" then "Unknown error" else message) := by
  have hmem : some failedDoc ∈ recordStates voiceDownEnv none "story-1" 1000 []
      gravityRequest := by
    have h := recordStates_final voiceDownEnv none "story-1" 1000 [] gravityRequest
      scenario_failed.1
    rw [scenario_failed.2] at h
    exact h
  obtain ⟨message, hmessage, herror, -⟩ :=
    (failed_record_invariant voiceDownEnv none "story-1" 1000 [] gravityRequest failedDoc
      hmem).1 rfl
  exact ⟨hmem, rfl, rfl, message, hmessage, herror⟩

/-! ## Failures of the pipeline -/

theorem rateLimited_generator (topic doubt : String) (complexity : Option String) :
    (generateStoryWithLLM rateLimitedEnv.completion topic doubt complexity).result =
      .ok none := by
  have hcompletion : rateLimitedEnv.completion = alwaysRateLimited := rfl
  simp [generateStoryWithLLM, generateStoryWithLLM.loop, tryAttempt, maxRetries, hcompletion,
    alwaysRateLimited, tooManyRequests]

/-- C15. Whenever the narrative generator hands `generateStory` a text that is absent, empty
or whitespace-only, `generateStory` rejects with `Empty story generated`, leaves the store
as it was and has done nothing but the generator's calls and waits: no store write, no call
to the synthesizer, no upload. -/
theorem generateStory_empty_generation (env : Env) (store : Store)
    (storyId userId topic doubt : String) (complexity : Option String) (text : Option String)
    (hgen : (generateStoryWithLLM env.completion topic doubt complexity).result = .ok text)
    (hblank : isBlank text = true) :
    (generateStory env store storyId userId topic doubt complexity).result =
        .error (newError "Empty story generated") ∧
      (generateStory env store storyId userId topic doubt complexity).store = store ∧
      (generateStory env store storyId userId topic doubt complexity).trace =
        (generateStoryWithLLM env.completion topic doubt complexity).trace ∧
      (generateStory env store storyId userId topic doubt complexity).trace.filter
        isStoreEffect = [] ∧
      voiceCalls (generateStory env store storyId userId topic doubt complexity).trace = 0 ∧
      uploads (generateStory env store storyId userId topic doubt complexity).trace = 0 := by
  obtain ⟨-, hvoice, hup, hstore, -⟩ := generator_effects_counts _
    (generator_effects env.completion topic doubt complexity)
  rw [generateStory_of_blank env store storyId userId topic doubt complexity text hgen hblank]
  exact ⟨rfl, rfl, rfl, hstore, hvoice, hup⟩

/-- C15, witness: the completion service is rate limited three times, the generator hands
over `undefined`, and the run rejects with `Empty story generated` without touching the
record. -/
theorem generateStory_empty_generation_witness :
    (generateStory rateLimitedEnv oneStory "story-1" "user-1" "Gravity" "Why do things fall?"
        (some "easy")).result = .error (newError "Empty story generated") ∧
      (generateStory rateLimitedEnv oneStory "story-1" "user-1" "Gravity" "Why do things fall?"
        (some "easy")).store = oneStory ∧
      voiceCalls (generateStory rateLimitedEnv oneStory "story-1" "user-1" "Gravity"
        "Why do things fall?" (some "easy")).trace = 0 := by
  have h := generateStory_empty_generation rateLimitedEnv oneStory "story-1" "user-1" "Gravity"
    "Why do things fall?" (some "easy") none (rateLimited_generator _ _ _) rfl
  exact ⟨h.1, h.2.1, h.2.2.2.2.1⟩

theorem pipeline_update_statuses (env : Env) (store : Store)
    (storyId userId topic doubt : String) (complexity : Option String) :
    ∀ p ∈ updatesOf (generateStory env store storyId userId topic doubt complexity).trace,
      p.status = none ∨ p.status = some "completed" := by
  intro p hp
  rw [updatesOf_filter] at hp
  rcases pipeline_cases env store storyId userId topic doubt complexity with
    ⟨_, _, _, hwrites⟩ | ⟨_, _, _, _, _, _, hwrites⟩ | ⟨_, _, _, _, _, _, _, hwrites⟩ |
    ⟨_, _, _, _, _, _, _, _, _, _, _, _, hwrites⟩ |
    ⟨_, _, _, _, _, _, _, _, _, _, _, _, hwrites⟩
  · rw [hwrites] at hp
    simp [updatesOf] at hp
  · rw [hwrites] at hp
    simp only [updatesOf, List.filterMap_cons, List.filterMap_nil, List.mem_singleton] at hp
    subst hp
    exact Or.inl rfl
  · rw [hwrites] at hp
    simp only [updatesOf, List.filterMap_cons, List.filterMap_nil, List.mem_singleton] at hp
    subst hp
    exact Or.inl rfl
  · rw [hwrites] at hp
    simp only [updatesOf, List.filterMap_cons, List.filterMap_nil, List.mem_cons,
      List.mem_singleton, List.not_mem_nil, or_false] at hp
    rcases hp with hp | hp
    · subst hp
      exact Or.inl rfl
    · subst hp
      exact Or.inr rfl
  · rw [hwrites] at hp
    simp only [updatesOf, List.filterMap_cons, List.filterMap_nil, List.mem_cons,
      List.mem_singleton, List.not_mem_nil, or_false] at hp
    rcases hp with hp | hp
    · subst hp
      exact Or.inl rfl
    · subst hp
      exact Or.inr rfl

theorem createAudioStory_response (env other : Env) (setFailure : Option JsError)
    (storyId : String) (now : Nat) (store : Store) (req : CreateRequest) :
    (createAudioStory env setFailure storyId now store req).response =
      (createAudioStory other setFailure storyId now store req).response := by
  unfold createAudioStory
  simp only []
  split
  · rfl
  · split
    · rfl
    · split
      · rfl
      · cases store.set setFailure storyId (storyDoc storyId now req) <;> rfl

/-- C16. For every pipeline failure the detached run issues the `failed` status write exactly
once, as its last effect, and nothing escapes the run. If the store rejects that write, the
rejection is only logged: the store stays as the pipeline left it and no other store write
is made. The response of `createAudioStory` does not depend on what the services do. -/
theorem failure_write_once (env : Env) (store : Store) (storyId userId topic doubt : String)
    (complexity : Option String) (err : JsError)
    (hrun : (generateStory env store storyId userId topic doubt complexity).result =
      .error err) :
    (createAudioStory.detached env store storyId userId topic doubt complexity).escaped =
        none ∧
      (createAudioStory.detached env store storyId userId topic doubt complexity).trace =
        (generateStory env store storyId userId topic doubt complexity).trace ++
          [.storeUpdate storyId (failedPatch err.message (env.clock (storeUpdates
            (generateStory env store storyId userId topic doubt complexity).trace)))] ∧
      ((updatesOf (createAudioStory.detached env store storyId userId topic doubt
        complexity).trace).filter fun p => p.status == some "failed").length = 1 ∧
      storeUpdates (createAudioStory.detached env store storyId userId topic doubt
        complexity).trace =
        storeUpdates (generateStory env store storyId userId topic doubt complexity).trace +
          1 ∧
      (∀ updateErr,
        (generateStory env store storyId userId topic doubt complexity).store.update
            (env.storeFailure (storeUpdates
              (generateStory env store storyId userId topic doubt complexity).trace))
            storyId (failedPatch err.message (env.clock (storeUpdates
              (generateStory env store storyId userId topic doubt complexity).trace))) =
            .error updateErr →
          (createAudioStory.detached env store storyId userId topic doubt complexity).store =
            (generateStory env store storyId userId topic doubt complexity).store ∧
          (createAudioStory.detached env store storyId userId topic doubt
            complexity).errorLog =
            ["[AudioStory] " ++ storyId ++ " generation failed: " ++ err.message,
              "[AudioStory] Failed to update error status: " ++ updateErr.message]) ∧
      (∀ (other : Env) (setFailure : Option JsError) (id : String) (now : Nat) (initial : Store)
        (req : CreateRequest),
        (createAudioStory env setFailure id now initial req).response =
          (createAudioStory other setFailure id now initial req).response) := by
  obtain ⟨htrace, hescaped, hwrite⟩ :=
    detached_error_summary env store storyId userId topic doubt complexity err hrun
  have hnone : ((updatesOf (generateStory env store storyId userId topic doubt
      complexity).trace).filter fun p => p.status == some "failed") = [] := by
    rw [List.filter_eq_nil_iff]
    intro p hp
    rcases pipeline_update_statuses env store storyId userId topic doubt complexity p hp with
      h | h <;> rw [h] <;> decide
  refine ⟨hescaped, htrace, ?_, ?_, ?_, ?_⟩
  · rw [htrace, updatesOf_append, List.filter_append, hnone]
    rfl
  · rw [htrace, storeUpdates_append]
    rfl
  · intro updateErr hrejected
    rcases hwrite with ⟨stored, hupd, -, -⟩ | ⟨rejected, hupd, hstore, hlog⟩
    · rw [hupd] at hrejected
      exact Except.noConfusion hrejected
    · rw [hupd] at hrejected
      have hsame : rejected = updateErr := Except.error.inj hrejected
      subst hsame
      exact ⟨hstore, hlog⟩
  · intro other setFailure id now initial req
    exact createAudioStory_response env other setFailure id now initial req

theorem Store.update_rejected (store : Store) (error : JsError) (id : String) (patch : Patch) :
    store.update (some error) id patch = .error error := rfl

theorem generateStory_of_narration_error (env : Env) (store : Store)
    (storyId userId topic doubt : String) (complexity : Option String) (aiStory : String)
    (error : JsError) (doc : StoryDoc) (hdoc : store.get storyId = some doc)
    (hw0 : env.storeFailure 0 = none)
    (hgen : (generateStoryWithLLM env.completion topic doubt complexity).result =
      .ok (some aiStory))
    (hnarr : (generateAudioNarration env.apiKey env.voice aiStory).result = .error error) :
    (generateStory env store storyId userId topic doubt complexity).result = .error error ∧
      (generateStory env store storyId userId topic doubt complexity).store =
        (store.map fun entry =>
          if entry.1 == storyId then
            (entry.1, applyPatch entry.2 (storyPatch aiStory (env.clock 0))) else entry) ∧
      storeUpdates (generateStory env store storyId userId topic doubt complexity).trace =
        1 := by
  have hllm := generator_effects_counts _
    (generator_effects env.completion topic doubt complexity)
  have htts := narration_effects_counts env.apiKey env.voice aiStory
  have hrun := generateStory_of_story env store storyId userId topic doubt complexity aiStory
    hgen
  rw [hw0, Store.update_accepts store storyId (storyPatch aiStory (env.clock 0)) doc hdoc]
    at hrun
  simp only [] at hrun
  rw [hnarr] at hrun
  rw [hrun]
  refine ⟨rfl, rfl, ?_⟩
  show storeUpdates (_ ++ _ ++ _) = 1
  rw [storeUpdates_append, storeUpdates_append, hllm.1, htts.1]
  rfl

/-- C16, witness: the voice service is down and the store rejects the failure write. The
run issues that write once, logs both errors, leaves the record as stage 1 saved it and lets
nothing escape. -/
theorem failure_write_once_witness :
    (createAudioStory.detached storeLostEnv oneStory "story-1" "user-1" "Gravity"
        "Why do things fall?" (some "easy")).escaped = none ∧
      ((updatesOf (createAudioStory.detached storeLostEnv oneStory "story-1" "user-1" "Gravity"
        "Why do things fall?" (some "easy")).trace).filter
          fun p => p.status == some "failed").length = 1 ∧
      (createAudioStory.detached storeLostEnv oneStory "story-1" "user-1" "Gravity"
        "Why do things fall?" (some "easy")).errorLog =
        ["[AudioStory] " ++ "story-1" ++ " generation failed: " ++
            (newError "TTS failed: Status code: 503\nBody: try again later").message,
          "[AudioStory] Failed to update error status: " ++ storeOutage.message] := by
  obtain ⟨hrun, -, hk⟩ := generateStory_of_narration_error storeLostEnv oneStory "story-1"
    "user-1" "Gravity" "Why do things fall?" (some "easy") "A short story..."
    (newError "TTS failed: Status code: 503\nBody: try again later") processingDoc
    (by decide) rfl (mock_generator _ _ _) (voiceDown_narration _)
  have h := failure_write_once storeLostEnv oneStory "story-1" "user-1" "Gravity"
    "Why do things fall?" (some "easy") _ hrun
  have hfailure : storeLostEnv.storeFailure 1 = some storeOutage := rfl
  refine ⟨h.1, h.2.2.1, (h.2.2.2.2.1 storeOutage ?_).2⟩
  rw [hk, hfailure, Store.update_rejected]

/-- C14. In a run on an existing record whose first write the store accepts: when the
generator fails, neither the synthesizer nor the publisher is called and the one store write
is the `failed` write with the generator's message; when the synthesizer fails, the publisher
is not called; when the synthesizer or the publisher fails, the store writes are the story
and then the `failed` write with that stage's message, the record becomes
the saved one with status `failed` when the store accepts the write, and in either case
it still carries the story stage 1 saved. -/
theorem stage_failure_aborts (env : Env) (store : Store) (storyId userId topic doubt : String)
    (complexity : Option String) (doc : StoryDoc) (error : JsError)
    (hdoc : store.get storyId = some doc) (hw0 : env.storeFailure 0 = none) :
    ((generateStoryWithLLM env.completion topic doubt complexity).result = .error error →
        voiceCalls (createAudioStory.detached env store storyId userId topic doubt
          complexity).trace = 0 ∧
        uploads (createAudioStory.detached env store storyId userId topic doubt
          complexity).trace = 0 ∧
        updatesOf (createAudioStory.detached env store storyId userId topic doubt
          complexity).trace = [failedPatch error.message (env.clock 0)] ∧
        (createAudioStory.detached env store storyId userId topic doubt
          complexity).store.get storyId =
          some (applyPatch doc (failedPatch error.message (env.clock 0)))) ∧
      (∀ aiStory,
        (generateStoryWithLLM env.completion topic doubt complexity).result =
          .ok (some aiStory) →
        ((generateAudioNarration env.apiKey env.voice aiStory).result = .error error ∨
          ∃ audioBuffer, (generateAudioNarration env.apiKey env.voice aiStory).result =
              .ok audioBuffer ∧
            (uploadAudioToCloud env.storage audioBuffer storyId).result = .error error) →
        ((generateAudioNarration env.apiKey env.voice aiStory).result = .error error →
          uploads (createAudioStory.detached env store storyId userId topic doubt
            complexity).trace = 0) ∧
        updatesOf (createAudioStory.detached env store storyId userId topic doubt
          complexity).trace =
          [storyPatch aiStory (env.clock 0), failedPatch error.message (env.clock 1)] ∧
        (env.storeFailure 1 = none →
          (createAudioStory.detached env store storyId userId topic doubt
            complexity).store.get storyId =
            some (applyPatch (applyPatch doc (storyPatch aiStory (env.clock 0)))
              (failedPatch error.message (env.clock 1)))) ∧
        ∃ final,
          (createAudioStory.detached env store storyId userId topic doubt
            complexity).store.get storyId = some final ∧
          final.aiStory = some aiStory) := by
  constructor
  · intro hgen
    obtain ⟨htrace, hfinal⟩ := detached_generator_error env store storyId userId topic doubt
      complexity error doc hdoc hgen
    obtain ⟨-, hvoice, hup, -, hupd⟩ := generator_effects_counts _
      (generator_effects env.completion topic doubt complexity)
    refine ⟨?_, ?_, ?_, hfinal hw0⟩
    · rw [htrace, voiceCalls_append, hvoice]
      rfl
    · rw [htrace, uploads_append, hup]
      rfl
    · rw [htrace, updatesOf_append, hupd]
      rfl
  · intro aiStory hgen hstage
    obtain ⟨hupdates, -, huploads, haccepted, hrejected⟩ := detached_stage_error env store
      storyId userId topic doubt complexity aiStory error doc hdoc hw0 hgen hstage
    refine ⟨huploads, hupdates, haccepted, ?_⟩
    cases hw1 : env.storeFailure 1 with
    | none => exact ⟨_, haccepted hw1, rfl⟩
    | some rejected =>
      refine ⟨_, hrejected ?_, rfl⟩
      rw [hw1]
      exact Option.some_ne_none rejected

/-- C14, witness: with the voice service down the publisher is never called, the store
writes are the story and then the `failed` write, and the failed record still carries the
story. -/
theorem stage_failure_aborts_witness :
    oneStory.get "story-1" = some processingDoc ∧
      uploads (createAudioStory.detached voiceDownEnv oneStory "story-1" "user-1" "Gravity"
        "Why do things fall?" (some "easy")).trace = 0 ∧
      updatesOf (createAudioStory.detached voiceDownEnv oneStory "story-1" "user-1" "Gravity"
        "Why do things fall?" (some "easy")).trace =
        [storyPatch "A short story..." (voiceDownEnv.clock 0),
          failedPatch (newError "TTS failed: Status code: 503\nBody: try again later").message
            (voiceDownEnv.clock 1)] ∧
      ∃ final,
        (createAudioStory.detached voiceDownEnv oneStory "story-1" "user-1" "Gravity"
          "Why do things fall?" (some "easy")).store.get "story-1" = some final ∧
        final.aiStory = some "A short story..." := by
  have hdoc : oneStory.get "story-1" = some processingDoc := by decide
  have h := (stage_failure_aborts voiceDownEnv oneStory "story-1" "user-1" "Gravity"
    "Why do things fall?" (some "easy") processingDoc
    (newError "TTS failed: Status code: 503\nBody: try again later") hdoc rfl).2
    "A short story..." (mock_generator _ _ _) (Or.inl (voiceDown_narration _))
  exact ⟨hdoc, h.1 (voiceDown_narration _), h.2.1, h.2.2.2⟩

/-! ## Every accepted request reaches a terminal status -/

theorem detached_terminal (env : Env) (store : Store) (storyId userId topic doubt : String)
    (complexity : Option String) (doc : StoryDoc) (hdoc : store.get storyId = some doc)
    (hwrites : ∀ k, env.storeFailure k = none) :
    ∃ earlier last final,
      (createAudioStory.detached env store storyId userId topic doubt complexity).trace.filter
          isStoreEffect = (earlier ++ [last]).map (Effect.storeUpdate storyId) ∧
        (∀ p ∈ earlier, p.status = none) ∧
        (last.status = some "completed" ∨ last.status = some "failed") ∧
        (createAudioStory.detached env store storyId userId topic doubt complexity).store.get
          storyId = some final ∧
        some final.status = last.status := by
  have hfail : ∀ (err : JsError) (held : StoryDoc),
      (generateStory env store storyId userId topic doubt complexity).result = .error err →
      (generateStory env store storyId userId topic doubt complexity).store.get storyId =
        some held →
      (createAudioStory.detached env store storyId userId topic doubt complexity).trace.filter
          isStoreEffect =
          (generateStory env store storyId userId topic doubt complexity).trace.filter
            isStoreEffect ++
            [.storeUpdate storyId (failedPatch err.message (env.clock (storeUpdates
              (generateStory env store storyId userId topic doubt complexity).trace)))] ∧
        (createAudioStory.detached env store storyId userId topic doubt complexity).store.get
          storyId =
          some (applyPatch held (failedPatch err.message (env.clock (storeUpdates
            (generateStory env store storyId userId topic doubt complexity).trace)))) := by
    intro err held hresult hheld
    obtain ⟨htrace, -, hwrite⟩ :=
      detached_error_summary env store storyId userId topic doubt complexity err hresult
    rw [hwrites] at hwrite
    refine ⟨?_, ?_⟩
    · rw [htrace, List.filter_append]
      rfl
    · rcases hwrite with ⟨stored, hupd, hend, -⟩ | ⟨updateErr, hupd, -, -⟩
      · rw [hend]
        exact Store.update_ok_get _ _ _ _ _ _ hheld hupd
      · rw [Store.update_accepts _ storyId _ held hheld] at hupd
        exact Except.noConfusion hupd
  rcases pipeline_cases env store storyId userId topic doubt complexity with
    ⟨error, hresult, hstore, hlist⟩ |
    ⟨aiStory, error, hstory, hrejected, hresult, hstore, hlist⟩ |
    ⟨aiStory, saved, error, hstory, hsaved, hresult, hstore, hlist⟩ |
    ⟨aiStory, saved, request, audioUrl, length, error, hstory, hsaved, hurl, hrejected, hresult,
      hstore, hlist⟩ |
    ⟨aiStory, saved, final, request, audioUrl, length, hstory, hsaved, hurl, hfinal, hresult,
      hstore, hlist⟩
  · obtain ⟨h1, h2⟩ := hfail error doc hresult (by rw [hstore]; exact hdoc)
    refine ⟨[], failedPatch error.message (env.clock (storeUpdates
        (generateStory env store storyId userId topic doubt complexity).trace)), _, ?_,
      ?_, Or.inr rfl, h2, rfl⟩
    · rw [h1, hlist]
      rfl
    · intro p hp
      exact absurd hp (List.not_mem_nil p)
  · rw [hwrites 0, Store.update_accepts store storyId _ doc hdoc] at hrejected
    exact Except.noConfusion hrejected
  · have hsavedDoc := Store.update_ok_get store saved _ storyId _ doc hdoc hsaved
    obtain ⟨h1, h2⟩ := hfail error _ hresult (by rw [hstore]; exact hsavedDoc)
    refine ⟨[storyPatch aiStory (env.clock 0)], failedPatch error.message (env.clock (storeUpdates
        (generateStory env store storyId userId topic doubt complexity).trace)),
      _, ?_, ?_, Or.inr rfl, h2, rfl⟩
    · rw [h1, hlist]
      rfl
    · intro p hp
      rw [List.mem_singleton] at hp
      subst hp
      rfl
  · have hsavedDoc := Store.update_ok_get store saved _ storyId _ doc hdoc hsaved
    rw [hwrites 1, Store.update_accepts saved storyId _ _ hsavedDoc] at hrejected
    exact Except.noConfusion hrejected
  · have hsavedDoc := Store.update_ok_get store saved _ storyId _ doc hdoc hsaved
    have hfinalDoc := Store.update_ok_get saved final _ storyId _ _ hsavedDoc hfinal
    rw [detached_of_ok env store storyId userId topic doubt complexity _ hresult]
    refine ⟨[storyPatch aiStory (env.clock 0)],
      completedPatch audioUrl (estimatedDuration length) (env.clock 1),
      applyPatch (applyPatch doc (storyPatch aiStory (env.clock 0)))
        (completedPatch audioUrl (estimatedDuration length) (env.clock 1)), hlist, ?_,
      Or.inl rfl, ?_, rfl⟩
    · intro p hp
      rw [List.mem_singleton] at hp
      subst hp
      rfl
    · show (generateStory env store storyId userId topic doubt complexity).store.get storyId =
        _
      rw [hstore]
      exact hfinalDoc

/-- C13. For every valid request and every behaviour of the remote services, when the store
accepts its writes, `createAudioStory` answers 202 and the run it starts ends with the
record's status `completed` or `failed`: the store writes of the run are the creation, then
updates that leave the status alone, then one last update that sets that terminal status. -/
theorem terminal_status_reached (env : Env) (storyId : String) (now : Nat) (store : Store)
    (req : CreateRequest) (hvalid : validRequest req = true)
    (hwrites : ∀ k, env.storeFailure k = none) :
    (createAudioStory env none storyId now store req).response.status = 202 ∧
      ∃ earlier last final,
        (createAudioStory env none storyId now store req).trace.filter isStoreEffect =
          .storeSet storyId (storyDoc storyId now req) ::
            (earlier ++ [last]).map (Effect.storeUpdate storyId) ∧
        (∀ p ∈ earlier, p.status = none) ∧
        (last.status = some "completed" ∨ last.status = some "failed") ∧
        (createAudioStory env none storyId now store req).store.get storyId = some final ∧
        some final.status = last.status ∧
        (final.status = "completed" ∨ final.status = "failed") := by
  have hset : store.set none storyId (storyDoc storyId now req) =
      .ok ((storyId, storyDoc storyId now req) ::
        store.filter fun entry => !(entry.1 == storyId)) := rfl
  have hcreated := Store.get_set store _ none storyId _ hset
  obtain ⟨earlier, last, final, htrace, hearlier, hlast, hfinal, hstatus⟩ :=
    detached_terminal env _ storyId req.uid (jsTrim (req.topic.getD ""))
      (jsTrim (req.doubt.getD "")) req.complexity _ hcreated hwrites
  rw [createAudioStory_of_valid env none storyId now store req hvalid, hset]
  refine ⟨rfl, earlier, last, final, ?_, hearlier, hlast, hfinal, hstatus, ?_⟩
  · show List.filter isStoreEffect (_ :: _) = _
    rw [List.filter_cons, htrace]
    rfl
  · rcases hlast with h | h
    · rw [h] at hstatus
      exact Or.inl (Option.some.inj hstatus)
    · rw [h] at hstatus
      exact Or.inr (Option.some.inj hstatus)

/-- C13, witness: the request of the end-to-end scenario, with services and a store that
never fail. -/
theorem terminal_status_reached_witness :
    validRequest gravityRequest = true ∧
      (createAudioStory mockEnv none "story-1" 1000 [] gravityRequest).response.status = 202 ∧
      ∃ earlier last final,
        (createAudioStory mockEnv none "story-1" 1000 [] gravityRequest).trace.filter
            isStoreEffect =
          .storeSet "story-1" (storyDoc "story-1" 1000 gravityRequest) ::
            (earlier ++ [last]).map (Effect.storeUpdate "story-1") ∧
        (∀ p ∈ earlier, p.status = none) ∧
        (last.status = some "completed" ∨ last.status = some "failed") ∧
        (createAudioStory mockEnv none "story-1" 1000 [] gravityRequest).store.get "story-1" =
          some final ∧
        some final.status = last.status ∧
        (final.status = "completed" ∨ final.status = "failed") :=
  ⟨by decide,
    terminal_status_reached mockEnv "story-1" 1000 [] gravityRequest (by decide) (fun _ => rfl)⟩

/-! ## The bounds on topic and doubt -/

theorem jsLength_jsTrim_le (s : String) : jsLength (jsTrim s) ≤ jsLength s := by
  unfold jsLength
  rw [jsTrim_data]
  have hsub : List.Sublist ((s.data.dropWhile isJsWhitespace).rdropWhile isJsWhitespace)
      s.data :=
    ((List.rdropWhile_prefix isJsWhitespace _).sublist).trans (List.dropWhile_sublist _)
  exact List.Sublist.sum_le_sum (hsub.map _) (fun a _ => Nat.zero_le a)

theorem recordForm_topic (env : Env) (created doc : StoryDoc)
    (hform : RecordForm env created doc) :
    doc.topic = created.topic ∧ doc.doubt = created.doubt := by
  cases hform <;> exact ⟨rfl, rfl⟩

theorem longTopic_checks :
    validRequest longTopicRequest = true ∧ jsTrim longTopic = longTopic ∧
      jsLength longTopic = 101 := by
  refine ⟨by decide, by decide, by decide⟩

/-- C20, at the failing input: a request whose topic has 101 characters passes the checks
of `createAudioStory`, which compares only the doubt with a bound. The request is answered
202 and the record is created with the 101-character topic, which it keeps in every
later state. -/
theorem createAudioStory_long_topic (env : Env) :
    (createAudioStory env none "story-1" 1000 [] longTopicRequest).response =
        ⟨202, .accepted "story-1" "Story generation started" "1-2 minutes"⟩ ∧
      (recordStates env none "story-1" 1000 [] longTopicRequest).head? =
        some (some (storyDoc "story-1" 1000 longTopicRequest)) ∧
      (∀ state ∈ recordStates env none "story-1" 1000 [] longTopicRequest,
        ∃ doc, state = some doc ∧ doc.topic = longTopic ∧ jsLength doc.topic = 101 ∧
          ¬ jsLength doc.topic ≤ 100) := by
  obtain ⟨hvalid, htrim, hlength⟩ := longTopic_checks
  have hrun := createAudioStory_of_valid env none "story-1" 1000 [] longTopicRequest hvalid
  have hset : Store.set [] none "story-1" (storyDoc "story-1" 1000 longTopicRequest) =
      .ok [("story-1", storyDoc "story-1" 1000 longTopicRequest)] := rfl
  rw [hset] at hrun
  have htopic : (storyDoc "story-1" 1000 longTopicRequest).topic = longTopic := htrim
  refine ⟨?_, ?_, ?_⟩
  · rw [hrun]
  · unfold recordStates
    rw [hrun]
    simp only [replay, hset, List.map_cons, List.head?_cons]
    rfl
  · intro state hstate
    obtain ⟨doc, hdoc, hform⟩ := recordStates_forms env none "story-1" 1000 []
      longTopicRequest state hstate
    have hsame := (recordForm_topic env _ doc hform).1
    rw [htopic] at hsame
    refine ⟨doc, hdoc, hsame, ?_, ?_⟩
    · rw [hsame, hlength]
    · rw [hsame, hlength]
      decide

/-- The part of C20 that holds: in every state of a record that `createAudioStory` creates,
topic and doubt are trimmed and non-empty, and the doubt has at most 300 UTF-16 code
units. -/
theorem record_topic_doubt (env : Env) (setFailure : Option JsError) (storyId : String)
    (now : Nat) (store : Store) (req : CreateRequest) (doc : StoryDoc)
    (hstate : some doc ∈ recordStates env setFailure storyId now store req) :
    jsTrim doc.topic = doc.topic ∧ doc.topic ≠ "" ∧
      jsTrim doc.doubt = doc.doubt ∧ doc.doubt ≠ "" ∧ jsLength doc.doubt ≤ 300 := by
  obtain ⟨found, hfound, hform⟩ := recordStates_forms env setFailure storyId now store req _
    hstate
  have hsame : doc = found := Option.some.inj hfound
  subst hsame
  obtain ⟨htopic, hdoubt⟩ := recordForm_topic env _ doc hform
  have hvalid : validRequest req = true := by
    cases hv : validRequest req with
    | true => rfl
    | false =>
      have hnone := (createAudioStory_of_invalid env setFailure storyId now store req hv).2.2.2
      unfold recordStates at hstate
      rw [hnone] at hstate
      simp [replay] at hstate
  obtain ⟨-, hblank, hlen⟩ := validRequest_checks req hvalid
  rw [htopic, hdoubt]
  simp only [jsLength_eq_zero, not_or] at hblank
  refine ⟨jsTrim_idempotent _, hblank.1, jsTrim_idempotent _, hblank.2, ?_⟩
  exact le_trans (jsLength_jsTrim_le _) (by omega)

/-! ## A rate limit at the third attempt -/

theorem exhausted_ne_empty (message : String) :
    newError "Empty story generated" ≠
      newError ("LLM failed after 3 retries: " ++ message) := by
  intro h
  have hmessage : "Empty story generated" = "LLM failed after 3 retries: " ++ message :=
    congrArg JsError.message h
  have hdata : "Empty story generated".data =
      "LLM failed after 3 retries: ".data ++ message.data := by
    rw [← String.data_append, ← hmessage]
  have hhead := congrArg List.head? hdata
  have hleft : "Empty story generated".data.head? = some 'E' := by decide
  have hright : ("LLM failed after 3 retries: ".data ++ message.data).head? = some 'L' := rfl
  rw [hleft, hright] at hhead
  exact absurd hhead (by decide)

/-- C23. When the first two attempts of `generateStoryWithLLM` fail and the third is
rejected with HTTP 429, the function makes exactly 3 calls, waits 16000 ms after the third
and finishes without raising and without a story: its result is `undefined`. The run of
`generateStory` then rejects with `Empty story generated`, not with the exhausted-retries
error, and leaves the store as it was. -/
theorem generateStory_third_rate_limit (env : Env) (store : Store)
    (storyId userId topic doubt : String) (complexity : Option String) (error : JsError)
    (h0 : failedAttempt (env.completion ⟨userPrompt topic doubt complexity⟩ 0) = true)
    (h1 : failedAttempt (env.completion ⟨userPrompt topic doubt complexity⟩ 1) = true)
    (h2 : env.completion ⟨userPrompt topic doubt complexity⟩ 2 = .rejected error)
    (h429 : error.status = some 429) :
    (generateStoryWithLLM env.completion topic doubt complexity).result = .ok none ∧
      llmCalls (generateStoryWithLLM env.completion topic doubt complexity).trace = 3 ∧
      (∃ before, (generateStoryWithLLM env.completion topic doubt complexity).trace =
        before ++ [.llmCall ⟨userPrompt topic doubt complexity⟩, .sleep 16000]) ∧
      waits (generateStoryWithLLM env.completion topic doubt complexity).trace =
        [backoffWait 1 (env.completion ⟨userPrompt topic doubt complexity⟩ 0),
          backoffWait 2 (env.completion ⟨userPrompt topic doubt complexity⟩ 1), 16000] ∧
      (generateStory env store storyId userId topic doubt complexity).result =
        .error (newError "Empty story generated") ∧
      (generateStory env store storyId userId topic doubt complexity).result ≠
        .error (newError ("LLM failed after 3 retries: " ++ error.message)) ∧
      (generateStory env store storyId userId topic doubt complexity).store = store := by
  have hattempt : tryAttempt (env.completion ⟨userPrompt topic doubt complexity⟩ 2) =
      .error error := by rw [h2]; rfl
  have hllm : generateStoryWithLLM env.completion topic doubt complexity =
      ⟨.ok none, [] ++
        [.llmCall ⟨userPrompt topic doubt complexity⟩,
          .sleep (backoffWait 1 (env.completion ⟨userPrompt topic doubt complexity⟩ 0))] ++
        [.llmCall ⟨userPrompt topic doubt complexity⟩,
          .sleep (backoffWait 2 (env.completion ⟨userPrompt topic doubt complexity⟩ 1))] ++
        [.llmCall ⟨userPrompt topic doubt complexity⟩, .sleep 16000]⟩ := by
    unfold generateStoryWithLLM
    simp only []
    rw [loop_retry _ _ 0 0 [] (by omega) h0, loop_retry _ _ 1 1 _ (by omega) h1,
      loop_rate_limited_last _ _ _ _ error hattempt h429]
  have hresult : (generateStoryWithLLM env.completion topic doubt complexity).result =
      .ok none := by rw [hllm]
  have hrun := generateStory_of_blank env store storyId userId topic doubt complexity none
    hresult rfl
  refine ⟨hresult, ?_, ⟨_, congrArg LLMRun.trace hllm⟩, ?_, ?_, ?_, ?_⟩
  · rw [hllm]
    simp [llmCalls]
  · rw [hllm]
    simp [waits]
  · rw [hrun]
  · rw [hrun]
    intro h
    exact exhausted_ne_empty error.message (Except.error.inj h)
  · rw [hrun]

/-- C23, witness: three HTTP 429 rejections in a row. -/
theorem generateStory_third_rate_limit_witness :
    (generateStoryWithLLM rateLimitedEnv.completion "Gravity" "Why do things fall?"
        (some "easy")).result = .ok none ∧
      llmCalls (generateStoryWithLLM rateLimitedEnv.completion "Gravity" "Why do things fall?"
        (some "easy")).trace = 3 ∧
      (generateStory rateLimitedEnv oneStory "story-1" "user-1" "Gravity" "Why do things fall?"
        (some "easy")).result = .error (newError "Empty story generated") := by
  have h := generateStory_third_rate_limit rateLimitedEnv oneStory "story-1" "user-1" "Gravity"
    "Why do things fall?" (some "easy") tooManyRequests rfl rfl rfl rfl
  exact ⟨h.1, h.2.1, h.2.2.2.2.1⟩

/-! ## The duration recorded for the silent clip -/

theorem estimatedDuration_176444 : estimatedDuration 176444 = 59 := by
  rw [estimatedDuration_eq_div]
  norm_num

theorem narration_falls_back (apiKey : Option String) (voice : VoiceService) (story : String)
    (hfallback : falsy apiKey = true ∨
      (falsy apiKey = false ∧ ∃ error, voice (voiceRequest story) = .rejected error ∧
        isAuthError error = true ∧ namesStatus error = true)) :
    (generateAudioNarration apiKey voice story).result = generateSilenceWAV 2000 := by
  obtain ⟨wav, hwav, -⟩ := silence_2000
  rcases hfallback with hkey | ⟨hkey, error, hcall, hauth, hnames⟩
  · simp [generateAudioNarration, generateAudioNarration.tryBlock, hkey, hwav]
  · have h401 : toString 401 = "401" := by decide
    have h403 : toString 403 = "403" := by decide
    have hincl : (jsIncludes error.message "401" || jsIncludes error.message "403") =
        true := by
      simp only [isAuthError, Bool.or_eq_true, beq_iff_eq] at hauth
      rcases hauth with h | h
      · simp only [namesStatus, h, h401] at hnames
        simp [hnames]
      · simp only [namesStatus, h, h403] at hnames
        simp [hnames]
    rw [generateAudioNarration_rejected apiKey voice story error hkey hcall, hincl]
    rfl

/-- C24. Whenever the synthesizer falls back to the silent clip (no credential, or a
rejection with HTTP 401 or 403 whose message names that status) and the rest of the run
succeeds, the audio uploaded is the 176444-byte output of `generateSilenceWAV(2000)`, the
run returns duration 59 and the completed record's duration is 59, not 2. -/
theorem silent_fallback_duration (env : Env) (store : Store)
    (storyId userId topic doubt : String) (complexity : Option String)
    (aiStory audioUrl : String) (doc : StoryDoc)
    (hgen : (generateStoryWithLLM env.completion topic doubt complexity).result =
      .ok (some aiStory))
    (hfallback : falsy env.apiKey = true ∨
      (falsy env.apiKey = false ∧ ∃ error, env.voice (voiceRequest aiStory) = .rejected error ∧
        isAuthError error = true ∧ namesStatus error = true))
    (hup : ∀ wav, generateSilenceWAV 2000 = .ok wav →
      (uploadAudioToCloud env.storage wav storyId).result = .ok audioUrl)
    (hdoc : store.get storyId = some doc)
    (hw0 : env.storeFailure 0 = none) (hw1 : env.storeFailure 1 = none) :
    ∃ wav, generateSilenceWAV 2000 = .ok wav ∧ wav.length = 176444 ∧
      (generateAudioNarration env.apiKey env.voice aiStory).result = .ok wav ∧
      uploads (generateStory env store storyId userId topic doubt complexity).trace = 1 ∧
      Effect.upload ⟨wav, "rapidlearnai/audio-stories/" ++ storyId, "video"⟩ ∈
        (generateStory env store storyId userId topic doubt complexity).trace ∧
      (generateStory env store storyId userId topic doubt complexity).result =
        .ok ⟨storyId, audioUrl, 59⟩ ∧
      ∃ final,
        (generateStory env store storyId userId topic doubt complexity).store.get storyId =
          some final ∧
        final.status = "completed" ∧ final.audioUrl = some audioUrl ∧
        final.duration = some 59 ∧ final.duration ≠ some 2 := by
  obtain ⟨wav, hwav, -, hlen, -⟩ := silence_2000
  have htts : (generateAudioNarration env.apiKey env.voice aiStory).result = .ok wav := by
    rw [narration_falls_back env.apiKey env.voice aiStory hfallback, hwav]
  have hupload := hup wav hwav
  have hllm := generator_effects_counts _
    (generator_effects env.completion topic doubt complexity)
  have hnarr := narration_effects_counts env.apiKey env.voice aiStory
  have haccept := Store.update_accepts store storyId (storyPatch aiStory (env.clock 0)) doc hdoc
  have hsavedDoc := Store.get_map_patch storyId (storyPatch aiStory (env.clock 0)) doc store hdoc
  have haccept2 := Store.update_accepts _ storyId
    (completedPatch audioUrl (estimatedDuration wav.length) (env.clock 1)) _ hsavedDoc
  have hfinalDoc := Store.get_map_patch storyId
    (completedPatch audioUrl (estimatedDuration wav.length) (env.clock 1)) _ _ hsavedDoc
  have hrun := generateStory_of_story env store storyId userId topic doubt complexity aiStory
    hgen
  rw [hw0, haccept] at hrun
  simp only [htts, hupload, hw1, haccept2] at hrun
  rw [hlen, estimatedDuration_176444] at hrun hfinalDoc
  rw [hrun]
  have hne : (some 59 : Option Int) ≠ some 2 := by decide
  refine ⟨wav, hwav, hlen, htts, ?_, ?_, rfl, _, hfinalDoc, rfl, rfl, rfl, hne⟩
  · show uploads (_ ++ _ ++ _ ++ _ ++ _) = 1
    rw [uploads_append, uploads_append, uploads_append, uploads_append, hllm.2.2.1, hnarr.2.1,
      uploadAudioToCloud_request]
    rfl
  · show _ ∈ _ ++ _ ++ _ ++ _ ++ _
    rw [uploadAudioToCloud_request]
    simp

/-- C24, witness: without a credential the end-to-end scenario publishes the silent clip
and records duration 59. -/
theorem silent_fallback_duration_witness :
    (generateStory noKeyEnv oneStory "story-1" "user-1" "Gravity" "Why do things fall?"
        (some "easy")).result = .ok ⟨"story-1", "https://cdn.example/story.mp3", 59⟩ ∧
      ∃ final,
        (generateStory noKeyEnv oneStory "story-1" "user-1" "Gravity" "Why do things fall?"
          (some "easy")).store.get "story-1" = some final ∧
        final.status = "completed" ∧ final.duration = some 59 := by
  obtain ⟨wav, -, -, -, -, -, hresult, final, hfinal, hstatus, -, hduration, -⟩ :=
    silent_fallback_duration noKeyEnv oneStory "story-1" "user-1" "Gravity"
      "Why do things fall?" (some "easy") "A short story..." "https://cdn.example/story.mp3"
      processingDoc (mock_generator _ _ _) (Or.inl rfl)
      (fun wav _ => by rw [uploadAudioToCloud_request]; rfl) (by decide) rfl rfl
  exact ⟨hresult, final, hfinal, hstatus, hduration⟩

/-! ## The validation of a request -/

set_option maxRecDepth 100000 in
theorem boundary_checks :
    isBlank blankTopicRequest.topic = true ∧
      300 < jsLength (longDoubtRequest.doubt.getD "") ∧
      isBlank boundaryRequest.topic = false ∧ isBlank boundaryRequest.doubt = false ∧
      jsLength (boundaryRequest.doubt.getD "") = 300 := by
  refine ⟨by decide, by decide, by decide, by decide, by decide⟩

/-- C22. For every request whose topic or doubt is missing, empty or whitespace-only, or
whose doubt has more than 300 UTF-16 code units (its `length`), `createAudioStory` responds
400, makes no store call and does not start the pipeline; a request with a non-blank topic
and a non-blank doubt of exactly 300 code units is accepted: when the store takes the new
record the response is 202 and the pipeline is started. -/
theorem createAudioStory_validation (env : Env) (setFailure : Option JsError)
    (storyId : String) (now : Nat) (store : Store) (req : CreateRequest) :
    ((isBlank req.topic = true ∨ isBlank req.doubt = true ∨
          300 < jsLength (req.doubt.getD "")) →
        (createAudioStory env setFailure storyId now store req).response.status = 400 ∧
        (createAudioStory env setFailure storyId now store req).started = false ∧
        (createAudioStory env setFailure storyId now store req).store = store ∧
        (createAudioStory env setFailure storyId now store req).trace = []) ∧
      (isBlank req.topic = false → isBlank req.doubt = false →
        jsLength (req.doubt.getD "") = 300 →
        (createAudioStory env none storyId now store req).response =
          ⟨202, .accepted storyId "Story generation started" "1-2 minutes"⟩ ∧
        (createAudioStory env none storyId now store req).started = true) := by
  constructor
  · intro hbad
    have hinvalid : validRequest req = false := by
      unfold validRequest
      rcases hbad with h | h | h
      · simp [h]
      · simp [h]
      · have hnot : ¬ jsLength (req.doubt.getD "") ≤ 300 := by omega
        simp [hnot]
    exact createAudioStory_of_invalid env setFailure storyId now store req hinvalid
  · intro htopic hdoubt hlength
    have hvalid : validRequest req = true := by
      unfold validRequest
      simp [htopic, hdoubt, hlength]
    have hset : store.set none storyId (storyDoc storyId now req) =
        .ok ((storyId, storyDoc storyId now req) ::
          store.filter fun entry => !(entry.1 == storyId)) := rfl
    rw [createAudioStory_of_valid env none storyId now store req hvalid, hset]
    exact ⟨rfl, rfl⟩

/-- C22, witness: a whitespace-only topic and a doubt of 301 characters are answered 400
and leave the store alone; a doubt of exactly 300 characters is answered 202. -/
theorem createAudioStory_validation_witness :
    (createAudioStory mockEnv none "story-1" 1000 oneStory blankTopicRequest).response.status =
        400 ∧
      (createAudioStory mockEnv none "story-1" 1000 oneStory blankTopicRequest).store =
        oneStory ∧
      (createAudioStory mockEnv none "story-2" 1000 oneStory longDoubtRequest).response.status =
        400 ∧
      (createAudioStory mockEnv none "story-2" 1000 oneStory longDoubtRequest).started =
        false ∧
      (createAudioStory mockEnv none "story-2" 1000 oneStory boundaryRequest).response =
        ⟨202, .accepted "story-2" "Story generation started" "1-2 minutes"⟩ := by
  obtain ⟨hblank, hlong, htopic, hdoubt, hlength⟩ := boundary_checks
  have h1 := (createAudioStory_validation mockEnv none "story-1" 1000 oneStory
    blankTopicRequest).1 (Or.inl hblank)
  have h2 := (createAudioStory_validation mockEnv none "story-2" 1000 oneStory
    longDoubtRequest).1 (Or.inr (Or.inr hlong))
  have h3 := (createAudioStory_validation mockEnv none "story-2" 1000 oneStory
    boundaryRequest).2 htopic hdoubt hlength
  exact ⟨h1.1, h1.2.2.1, h2.1, h2.2.1, h3.1⟩

/-! ## The complexity of a request -/

theorem append_after_three (a b c d : List Effect) :
    a ++ b ++ c ++ d = a ++ (b ++ c ++ d) := by
  simp only [List.append_assoc]

theorem append_after_four (a b c d e : List Effect) :
    a ++ b ++ c ++ d ++ e = a ++ (b ++ c ++ d ++ e) := by
  simp only [List.append_assoc]

theorem generateStory_trace_prefix (env : Env) (store : Store)
    (storyId userId topic doubt : String) (complexity : Option String) :
    ∃ rest, (generateStory env store storyId userId topic doubt complexity).trace =
      (generateStoryWithLLM env.completion topic doubt complexity).trace ++ rest := by
  cases hgen : (generateStoryWithLLM env.completion topic doubt complexity).result with
  | error error =>
    rw [generateStory_of_generator_error env store storyId userId topic doubt complexity
      error hgen]
    exact ⟨[], (List.append_nil _).symm⟩
  | ok text =>
    cases htext : isBlank text with
    | true =>
      rw [generateStory_of_blank env store storyId userId topic doubt complexity text hgen
        htext]
      exact ⟨[], (List.append_nil _).symm⟩
    | false =>
      cases text with
      | none => simp [isBlank] at htext
      | some aiStory =>
        rw [generateStory_of_story env store storyId userId topic doubt complexity aiStory hgen]
        split
        · exact ⟨_, rfl⟩
        · split
          · exact ⟨_, List.append_assoc _ _ _⟩
          · split
            · exact ⟨_, append_after_three _ _ _ _⟩
            · split
              · exact ⟨_, append_after_four _ _ _ _ _⟩
              · exact ⟨_, append_after_four _ _ _ _ _⟩

theorem detached_trace_prefix (env : Env) (store : Store)
    (storyId userId topic doubt : String) (complexity : Option String) :
    ∃ rest, (createAudioStory.detached env store storyId userId topic doubt complexity).trace =
      (generateStoryWithLLM env.completion topic doubt complexity).trace ++ rest := by
  obtain ⟨rest, hrest⟩ := generateStory_trace_prefix env store storyId userId topic doubt
    complexity
  cases hrun : (generateStory env store storyId userId topic doubt complexity).result with
  | ok value =>
    rw [detached_of_ok env store storyId userId topic doubt complexity value hrun]
    exact ⟨rest, hrest⟩
  | error err =>
    rw [(detached_error_summary env store storyId userId topic doubt complexity err hrun).1,
      hrest]
    exact ⟨_, List.append_assoc _ _ _⟩

theorem generator_first_call (service : CompletionService) (topic doubt : String)
    (complexity : Option String) :
    ∃ rest, (generateStoryWithLLM service topic doubt complexity).trace =
      .llmCall ⟨userPrompt topic doubt complexity⟩ :: rest := by
  obtain ⟨rest, hrest⟩ := loop_trace_starts (service ⟨userPrompt topic doubt complexity⟩)
    ⟨userPrompt topic doubt complexity⟩ 0 0 [] (by omega)
  exact ⟨rest, hrest⟩

theorem recordForm_complexity (env : Env) (created doc : StoryDoc)
    (hform : RecordForm env created doc) : doc.complexity = created.complexity := by
  cases hform <;> rfl

set_option maxRecDepth 100000 in
theorem plainRequest_checks :
    validRequest plainRequest = true ∧
      storyDoc "story-1" 1000 plainRequest = { processingDoc with complexity := "intermediate" } ∧
      jsIncludes (userPrompt "Gravity" "Why do things fall?" none)
        "Difficulty Level: undefined" = true ∧
      jsIncludes (userPrompt "Gravity" "Why do things fall?" none) "intermediate" = false ∧
      userPrompt "Gravity" "Why do things fall?" none ≠
        userPrompt "Gravity" "Why do things fall?" (some "intermediate") := by
  refine ⟨by decide, by decide, by decide, by decide, by decide⟩

/-- C21, at the failing input: a request without complexity. The record is created with
complexity `intermediate` and keeps it, but the pipeline is started with the complexity of
the request, which is `undefined`: the first effect after the creation of the record is a
completion call whose prompt reads `Difficulty Level: undefined` and does not name
`intermediate`. -/
theorem createAudioStory_complexity_omitted (env : Env) :
    (storyDoc "story-1" 1000 plainRequest).complexity = "intermediate" ∧
      (∀ state ∈ recordStates env none "story-1" 1000 [] plainRequest,
        ∃ doc, state = some doc ∧ doc.complexity = "intermediate") ∧
      (createAudioStory env none "story-1" 1000 [] plainRequest).trace =
        .storeSet "story-1" (storyDoc "story-1" 1000 plainRequest) ::
          (createAudioStory.detached env [("story-1", storyDoc "story-1" 1000 plainRequest)]
            "story-1" "user-1" "Gravity" "Why do things fall?" none).trace ∧
      (∃ rest, (createAudioStory env none "story-1" 1000 [] plainRequest).trace =
        .storeSet "story-1" (storyDoc "story-1" 1000 plainRequest) ::
          .llmCall ⟨userPrompt "Gravity" "Why do things fall?" none⟩ :: rest) ∧
      jsIncludes (userPrompt "Gravity" "Why do things fall?" none)
        "Difficulty Level: undefined" = true ∧
      jsIncludes (userPrompt "Gravity" "Why do things fall?" none) "intermediate" = false ∧
      userPrompt "Gravity" "Why do things fall?" none ≠
        userPrompt "Gravity" "Why do things fall?"
          (some (storyDoc "story-1" 1000 plainRequest).complexity) := by
  obtain ⟨hvalid, hdoc, hundefined, hintermediate, hne⟩ := plainRequest_checks
  have hcomplexity : (storyDoc "story-1" 1000 plainRequest).complexity = "intermediate" := by
    rw [hdoc]
  have htopic : jsTrim (plainRequest.topic.getD "") = "Gravity" := by decide
  have hdoubt : jsTrim (plainRequest.doubt.getD "") = "Why do things fall?" := by decide
  have hset : Store.set [] none "story-1" (storyDoc "story-1" 1000 plainRequest) =
      .ok [("story-1", storyDoc "story-1" 1000 plainRequest)] := rfl
  have hrun := createAudioStory_of_valid env none "story-1" 1000 [] plainRequest hvalid
  rw [hset, htopic, hdoubt] at hrun
  have htrace : (createAudioStory env none "story-1" 1000 [] plainRequest).trace =
      .storeSet "story-1" (storyDoc "story-1" 1000 plainRequest) ::
        (createAudioStory.detached env [("story-1", storyDoc "story-1" 1000 plainRequest)]
          "story-1" "user-1" "Gravity" "Why do things fall?" none).trace := by
    rw [hrun]
    rfl
  refine ⟨hcomplexity, ?_, htrace, ?_, hundefined, hintermediate, ?_⟩
  · intro state hstate
    obtain ⟨doc, hstate, hform⟩ := recordStates_forms env none "story-1" 1000 []
      plainRequest state hstate
    exact ⟨doc, hstate, (recordForm_complexity env _ doc hform).trans hcomplexity⟩
  · obtain ⟨rest, hrest⟩ := detached_trace_prefix env
      [("story-1", storyDoc "story-1" 1000 plainRequest)] "story-1" "user-1" "Gravity"
      "Why do things fall?" none
    obtain ⟨calls, hcalls⟩ := generator_first_call env.completion "Gravity"
      "Why do things fall?" none
    rw [htrace, hrest, hcalls]
    exact ⟨calls ++ rest, rfl⟩
  · rw [hcomplexity]
    exact hne

/-- The part of C21 that holds: the record of a request without complexity has complexity
`intermediate`, and when the request names a complexity the record stores it and the
prompt of the run shows it. -/
theorem storyDoc_complexity (storyId : String) (now : Nat) (req : CreateRequest) :
    (req.complexity = none → (storyDoc storyId now req).complexity = "intermediate") ∧
      (∀ level, level ≠ "" → req.complexity = some level →
        (storyDoc storyId now req).complexity = level ∧
        ∀ topic doubt, userPrompt topic doubt req.complexity =
          userPrompt topic doubt (some (storyDoc storyId now req).complexity)) := by
  constructor
  · intro hnone
    simp [storyDoc, orDefault, hnone]
  · intro level hlevel hsome
    have hstored : (storyDoc storyId now req).complexity = level := by
      simp [storyDoc, orDefault, hsome, hlevel]
    refine ⟨hstored, ?_⟩
    intro topic doubt
    rw [hstored, hsome]

end AudioStory
